import Mathlib

/-!
lpc8xxBasic: clock selection and watchdog arithmetic.

Shallow embedding of `Wdt_lib.c` and `Sys_lib.c` (with the constants of
`core.h` and `lpc8xx_ctrl.h`).

* `uint32_t` / `uint64_t` values are natural numbers; every C operation that
  can wrap is followed by an explicit `% 2^32` or `% 2^64`.
* The memory-mapped registers are a plain memory `Reg → Nat`; every register
  write is also appended to a trace, in program order.
* The three registers polled by the busy-waits of `Sys_iniLpc810` are read
  from a hardware oracle `Hw` (the value seen by the i-th poll); every such
  read is appended to the same trace, and the loops take a fuel bound on the
  number of polls.
* Undefined behaviour of the C code (division by zero, table index out of
  bounds) and a wait that is not acknowledged within the fuel give `none`.
* The compile-time configuration symbols of `core.h` are the fields of
  `Config`.
-/

namespace Lpc8xx

/-! ## Constants of `core.h` and `lpc8xx_ctrl.h` -/

/-- Internal oscillator frequency in Hz (`core.h`). -/
def IRC_HZ : Nat := 12000000
/-- Frequency in Hz of the clock fed to the CLKIN pin (`core.h`). -/
def CLKIN_HZ : Nat := 12000000

def SYS_PLL_STAT : Nat := 0x1
def SYS_PLL_NOT_LOCKED : Nat := 0
def SYS_PLL_LOCKED : Nat := 1

/-- Frequency selection codes of the watchdog oscillator (`lpc8xx_ctrl.h`). -/
def WDTOSC_FREQ_DIS : Nat := 0
def WDTOSC_FREQ_600KHZ : Nat := 1
def WDTOSC_FREQ_1_05MHZ : Nat := 2
def WDTOSC_FREQ_1_40MHZ : Nat := 3
def WDTOSC_FREQ_1_75MHZ : Nat := 4
def WDTOSC_FREQ_2_10MHZ : Nat := 5
def WDTOSC_FREQ_2_40MHZ : Nat := 6
def WDTOSC_FREQ_2_70MHZ : Nat := 7
def WDTOSC_FREQ_3_00MHZ : Nat := 8
def WDTOSC_FREQ_3_25MHZ : Nat := 9
def WDTOSC_FREQ_3_50MHZ : Nat := 10
def WDTOSC_FREQ_3_75MHZ : Nat := 11
def WDTOSC_FREQ_4_00MHZ : Nat := 12
def WDTOSC_FREQ_4_20MHZ : Nat := 13
def WDTOSC_FREQ_4_40MHZ : Nat := 14
def WDTOSC_FREQ_4_60MHZ : Nat := 15

def SYS_PLL_CLK_SEL : Nat := 0x3
def SYS_PLL_CLK_IRC : Nat := 0x0
def SYS_PLL_CLK_SYSOSC : Nat := 0x1
def SYS_PLL_CLK_CLKIN : Nat := 0x3
def SYS_PLL_CLK_UPDATE : Nat := 0x1

def SYS_MAIN_CLK_SEL : Nat := 0x3
def SYS_MAIN_CLK_IRC : Nat := 0x0
def SYS_MAIN_CLK_PLLIN : Nat := 0x1
def SYS_MAIN_CLK_WDTOSC : Nat := 0x2
def SYS_MAIN_CLK_PLLOUT : Nat := 0x3
def SYS_MAIN_CLK_UPDATE : Nat := 0x1

def SYS_AHB_CLK_SWM : Nat := 0x80
def SYS_AHB_CLK_WWDT : Nat := 0x20000
def SYS_AHB_CLK_IOCON : Nat := 0x40000

def SYS_IRCOUT_PD : Nat := 0x1
def SYS_IRC_PD : Nat := 0x2
def SYS_WDTOSC_PD : Nat := 0x40
def SYS_SYSPLL_PD : Nat := 0x80

def IOCON_MODE : Nat := 0x18
def SWM_CLKIN_DIS : Nat := 0x80

def WWDT_WDEN : Nat := 0x1
def WWDT_WDRESET : Nat := 0x2
def WWDT_WDTOF : Nat := 0x4
def WWDT_WDINT : Nat := 0x8

def WWDT_CNT_MAX : Nat := 0xFFFFFF
def WWDT_WINDOW_MAX : Nat := 0xFFFFFF
def WWDT_WARN_MAX : Nat := 0x3FF

/-! ## Machine arithmetic -/

/-- Conversion of a non-negative value to `uint32_t`. -/
def wrap32 (n : Nat) : Nat := n % 4294967296

/-- Conversion of a non-negative value to `uint64_t`. -/
def wrap64 (n : Nat) : Nat := n % 18446744073709551616

/-- Conversion of an `int` result (possibly negative) to `uint32_t`. -/
def toU32 (z : Int) : Nat := (z % 4294967296).toNat

/-- The 32-bit complement `~m` of a mask, as a `uint32_t`. -/
def not32 (m : Nat) : Nat := 4294967295 - wrap32 m

/-! ## Data model -/

/-- The compile-time configuration symbols of `core.h`. -/
structure Config where
  MAIN_CLK_SEL : Nat
  SYS_PLL_CLK : Nat
  SYS_PLL_RATE : Nat
  SYS_CLK_DIV : Nat
  IRC_PDWON : Nat
  WWDT_MODE : Nat
  WWDT_FREQ : Nat
  WWDT_DIV : Nat
  WWDT_TIM_OUT : Nat
  WWDT_TIM_GUARD : Nat
  WWDT_TIM_WARN : Nat
  deriving Repr, DecidableEq

/-- The configuration as `core.h` ships it. -/
def coreConfig : Config :=
  { MAIN_CLK_SEL := SYS_MAIN_CLK_IRC, SYS_PLL_CLK := SYS_PLL_CLK_IRC,
    SYS_PLL_RATE := 1, SYS_CLK_DIV := 1, IRC_PDWON := 1,
    WWDT_MODE := WWDT_WDEN ||| WWDT_WDRESET,
    WWDT_FREQ := 1, WWDT_DIV := 64,
    WWDT_TIM_OUT := 2000, WWDT_TIM_GUARD := 0, WWDT_TIM_WARN := 200 }

/-- The memory-mapped registers the two libraries touch. -/
inductive Reg where
  | WDTOSCCTRL | PDRUNCFG | SYSAHBCLKCTRL
  | SYSPLLCLKSEL | SYSPLLCLKUEN | SYSPLLCTRL | SYSPLLSTAT
  | MAINCLKSEL | MAINCLKUEN | SYSAHBCLKDIV
  | TC | WINDOW | MOD | FEED | WARNINT
  | PIO0_1 | PINENABLE0
  deriving Repr, DecidableEq

/-- One entry of the trace of hardware accesses: a register write, the
enabling of the watchdog interrupt, or one read of a status register by a
busy-wait with the value read. -/
inductive Event where
  | write (r : Reg) (v : Nat)
  | nvicEnableWdtIrq
  | poll (r : Reg) (v : Nat)
  deriving Repr, DecidableEq

/-- Registers, access trace and the static variables of the two libraries. -/
structure State where
  regs : Reg → Nat
  trace : List Event
  Wdt_freq : Nat
  Wdt_div : Nat
  Sys_mainClk : Nat
  SystemCoreClock : Nat

/-- State at reset with the given register contents: statics are zero. -/
def State.reset (regs : Reg → Nat) : State :=
  { regs := regs, trace := [], Wdt_freq := 0, Wdt_div := 0,
    Sys_mainClk := 0, SystemCoreClock := 0 }

/-- The assignment `reg = v` to a 32-bit register. -/
def State.write (s : State) (r : Reg) (v : Nat) : State :=
  { s with
    regs := fun x => if x = r then wrap32 v else s.regs x
    trace := s.trace ++ [Event.write r (wrap32 v)] }

/-- The statement `reg |= m`. -/
def State.setBits (s : State) (r : Reg) (m : Nat) : State :=
  s.write r (s.regs r ||| m)

/-- The statement `reg &= ~m`. -/
def State.clearBits (s : State) (r : Reg) (m : Nat) : State :=
  s.write r (s.regs r &&& not32 m)

/-- The call `NVIC_EnableIRQ(WDT_IRQn)`. -/
def State.nvicEnable (s : State) : State :=
  { s with trace := s.trace ++ [Event.nvicEnableWdtIrq] }

/-- One read of the status register `r` by a busy-wait, seeing `v`. -/
def State.poll (s : State) (r : Reg) (v : Nat) : State :=
  { s with trace := s.trace ++ [Event.poll r v] }

/-- Values the hardware returns to the polls of the three status registers:
`f i` is what the i-th read of the register sees. -/
structure Hw where
  SYSPLLCLKUEN : Nat → Nat
  SYSPLLSTAT : Nat → Nat
  MAINCLKUEN : Nat → Nat

/-! ## `Wdt_lib.c` -/

/-- Base frequencies in Hz of the watchdog oscillator, by FREQSEL code. -/
def freqsel : List Nat :=
  [0, 600000, 1050000, 1400000, 1750000, 2100000, 2400000, 2700000,
   3000000, 3250000, 3500000, 3750000, 4000000, 4200000, 4400000, 4600000]

/-- Value for WDTOSCCTRL; stores the base frequency and the divider. -/
def Wdt_calcOscCtrl (freq div : Nat) (s : State) : Option (Nat × State) :=
  match freqsel[freq]? with
  | none => none
  | some f =>
    some (wrap32 (freq <<< 5) ||| (wrap32 (div + 4294967296 - 2) / 2),
          { s with Wdt_freq := f, Wdt_div := div })

/-- Counter value for a duration in ms, clamped to `max`. -/
def Wdt_getMs (ms max : Nat) (s : State) : Option Nat :=
  let divisor := wrap32 (wrap32 (s.Wdt_div * 4) * 1000)
  if divisor = 0 then none
  else
    let cnt := wrap64 (s.Wdt_freq * ms) / divisor
    some (if cnt > max then max else wrap32 cnt)

/-- Effective frequency of the watchdog oscillator. -/
def Wdt_getOscClk (s : State) : Option Nat :=
  if s.Wdt_div = 0 then none else some (s.Wdt_freq / s.Wdt_div)

/-- Feed sequence. -/
def Wdt_clr (s : State) : State :=
  (s.write Reg.FEED 0xAA).write Reg.FEED 0x55

/-- Default (weak) warning hook: does nothing. -/
def Wdt_procWarn (s : State) : State := s

/-- Warning interrupt handler, with the hook that is linked in. -/
def WDT_IRQHandler (hook : State → State) (s : State) : State :=
  ((hook s).setBits Reg.MOD WWDT_WDINT).clearBits Reg.MOD WWDT_WDTOF

/-- Initialisation and start of the watchdog. -/
def Wdt_ini (cfg : Config) (s : State) : Option State := do
  let (ctrl, s) ← Wdt_calcOscCtrl (wrap32 cfg.WWDT_FREQ) (wrap32 cfg.WWDT_DIV) s
  let s := s.write Reg.WDTOSCCTRL ctrl
  let s := s.clearBits Reg.PDRUNCFG SYS_WDTOSC_PD
  let s := s.setBits Reg.SYSAHBCLKCTRL SYS_AHB_CLK_WWDT
  let tc ← Wdt_getMs (wrap32 cfg.WWDT_TIM_OUT) WWDT_CNT_MAX s
  let s := s.write Reg.TC tc
  let win ← Wdt_getMs (toU32 ((cfg.WWDT_TIM_OUT : Int) - (cfg.WWDT_TIM_GUARD : Int)))
    WWDT_WINDOW_MAX s
  let s := s.write Reg.WINDOW win
  let s := s.nvicEnable
  let s := s.write Reg.MOD cfg.WWDT_MODE
  let s := Wdt_clr s
  let warn ← Wdt_getMs (wrap32 cfg.WWDT_TIM_WARN) WWDT_WARN_MAX s
  some (s.write Reg.WARNINT warn)

/-! ## `Sys_lib.c` -/

/-- The loop `while ((reg & mask) != expected) ;` on the status register
`r`: `i` polls were made so far, at most `fuel` more are allowed. Every
evaluation of the condition reads the register once. -/
def busyWait (r : Reg) (read : Nat → Nat) (mask expected : Nat) :
    Nat → Nat → State → Option State
  | 0, _, _ => none
  | fuel + 1, i, s =>
    let s := s.poll r (read i)
    if read i &&& mask ≠ expected then busyWait r read mask expected fuel (i + 1) s
    else some s

/-- Number of reads the loop `while ((reg & mask) != expected) ;` makes until
its condition fails, counting at most `fuel` reads from the `i`-th on. -/
def pollCount (read : Nat → Nat) (mask expected : Nat) : Nat → Nat → Nat
  | 0, _ => 0
  | fuel + 1, i =>
    if read i &&& mask ≠ expected then pollCount read mask expected fuel (i + 1) + 1
    else 1

/-- The loop `for (i = 0; i < n; i++) __NOP();`. -/
def nopDelay : Nat → State → State
  | 0, s => s
  | n + 1, s => nopDelay n s

/-- Locals of `Sys_iniLpc810` that the `switch` reads and writes. -/
structure Locals where
  pllirc : Bool
  pllsrc : Nat
  irc : Bool

/-- The `switch (MAIN_CLK_SEL & SYS_MAIN_CLK_SEL)` of `Sys_iniLpc810`. -/
def Sys_selectMain (fuel : Nat) (hw : Hw) (cfg : Config) (l : Locals) (s : State) :
    Option (Locals × State) :=
  let sel := cfg.MAIN_CLK_SEL &&& SYS_MAIN_CLK_SEL
  if sel = SYS_MAIN_CLK_IRC then
    some (l, { s with Sys_mainClk := IRC_HZ })
  else if sel = SYS_MAIN_CLK_PLLIN then
    let s := { s with Sys_mainClk := l.pllsrc }
    some (if !l.pllirc then { l with irc := false } else l, s)
  else if sel = SYS_MAIN_CLK_PLLOUT then do
    let s := s.write Reg.SYSPLLCTRL (toU32 ((cfg.SYS_PLL_RATE : Int) - 1))
    let s := s.clearBits Reg.PDRUNCFG SYS_SYSPLL_PD
    let s ← busyWait Reg.SYSPLLSTAT hw.SYSPLLSTAT SYS_PLL_STAT SYS_PLL_LOCKED fuel 0 s
    let s := { s with Sys_mainClk := wrap32 (l.pllsrc * wrap32 cfg.SYS_PLL_RATE) }
    some (if !l.pllirc then { l with irc := false } else l, s)
  else if sel = SYS_MAIN_CLK_WDTOSC then do
    let f ← Wdt_getOscClk s
    some ({ l with irc := false }, { s with Sys_mainClk := f })
  else
    some (l, s)

/-- The part of `Sys_iniLpc810` between `Wdt_ini` and the first busy-wait:
clock supply to SWM and IOCON, CLKIN pin set-up with its settling delay, and
the two writes that select the PLL input. -/
def Sys_selectPllIn (cfg : Config) (s : State) : Locals × State :=
  let l : Locals := { pllirc := true, pllsrc := IRC_HZ, irc := true }
  let s := s.setBits Reg.SYSAHBCLKCTRL (SYS_AHB_CLK_SWM ||| SYS_AHB_CLK_IOCON)
  let (l, s) :=
    if cfg.SYS_PLL_CLK &&& SYS_PLL_CLK_SEL = SYS_PLL_CLK_CLKIN then
      let s := s.clearBits Reg.PIO0_1 IOCON_MODE
      let s := s.clearBits Reg.PINENABLE0 SWM_CLKIN_DIS
      let s := nopDelay 200 s
      ({ l with pllsrc := CLKIN_HZ, pllirc := false }, s)
    else (l, s)
  let s := s.write Reg.SYSPLLCLKSEL cfg.SYS_PLL_CLK
  let s := s.write Reg.SYSPLLCLKUEN SYS_PLL_CLK_UPDATE
  (l, s)

/-- The part of `Sys_iniLpc810` after the `switch`, up to the last busy-wait:
the two writes that select the main clock. -/
def Sys_updateMain (cfg : Config) (s : State) : State :=
  let s := s.write Reg.MAINCLKSEL cfg.MAIN_CLK_SEL
  s.write Reg.MAINCLKUEN SYS_MAIN_CLK_UPDATE

/-- The part of `Sys_iniLpc810` after the last busy-wait: optional power-down
of the internal oscillator, system clock divider, `SystemCoreClock`. -/
def Sys_publish (cfg : Config) (l : Locals) (s : State) : Option State :=
  let s := if cfg.IRC_PDWON ≠ 0 ∧ !l.irc then
      s.setBits Reg.PDRUNCFG (SYS_IRCOUT_PD ||| SYS_IRC_PD)
    else s
  let s := s.write Reg.SYSAHBCLKDIV cfg.SYS_CLK_DIV
  if wrap32 cfg.SYS_CLK_DIV = 0 then none
  else some { s with SystemCoreClock := s.Sys_mainClk / wrap32 cfg.SYS_CLK_DIV }

/-- System clock selection. -/
def Sys_iniLpc810 (fuel : Nat) (hw : Hw) (cfg : Config) (s : State) : Option State := do
  let s ← Wdt_ini cfg s
  let (l, s) := Sys_selectPllIn cfg s
  let s ← busyWait Reg.SYSPLLCLKUEN hw.SYSPLLCLKUEN SYS_PLL_CLK_UPDATE SYS_PLL_CLK_UPDATE
    fuel 0 s
  let (l, s) ← Sys_selectMain fuel hw cfg l s
  let s := Sys_updateMain cfg s
  let s ← busyWait Reg.MAINCLKUEN hw.MAINCLKUEN SYS_MAIN_CLK_UPDATE SYS_MAIN_CLK_UPDATE
    fuel 0 s
  Sys_publish cfg l s

/-- Main clock in Hz. -/
def Sys_getMainClk (s : State) : Nat := s.Sys_mainClk

/-- System clock in Hz. -/
def Sys_getSysClk (s : State) : Nat := s.SystemCoreClock

/-! ## Observations on the trace -/

/-- The values written to register `r`, in program order. -/
def writesTo (r : Reg) (t : List Event) : List Nat :=
  t.filterMap fun e =>
    match e with
    | Event.write r' v => if r' = r then some v else none
    | Event.nvicEnableWdtIrq => none
    | Event.poll _ _ => none

/-- The reads made by busy-waits, in program order: register and value. -/
def pollsIn (t : List Event) : List (Reg × Nat) :=
  t.filterMap fun e =>
    match e with
    | Event.write _ _ => none
    | Event.nvicEnableWdtIrq => none
    | Event.poll r v => some (r, v)

/-- The reads `read i`, ..., `read (i + n - 1)` of the status register `r`. -/
def pollEvents (r : Reg) (read : Nat → Nat) (i n : Nat) : List Event :=
  (List.range n).map fun k => Event.poll r (read (i + k))

/-- The state `s` after the first `n` reads of the status register `r`. -/
def State.polled (s : State) (r : Reg) (read : Nat → Nat) (n : Nat) : State :=
  { s with trace := s.trace ++ pollEvents r read 0 n }

/-- The state in which `Sys_iniLpc810` enters its `switch` when `Wdt_ini` has
left `sw`: after the PLL input selection and the reads of the first wait. -/
def Sys_switchEntry (fuel : Nat) (hw : Hw) (cfg : Config) (sw : State) : State :=
  (Sys_selectPllIn cfg sw).2.polled Reg.SYSPLLCLKUEN hw.SYSPLLCLKUEN
    (pollCount hw.SYSPLLCLKUEN SYS_PLL_CLK_UPDATE SYS_PLL_CLK_UPDATE fuel 0)

/-- The state in which `Sys_iniLpc810` enters its last phase when the `switch`
has left `s3`: after the main clock selection and the reads of the last wait. -/
def Sys_publishEntry (fuel : Nat) (hw : Hw) (cfg : Config) (s3 : State) : State :=
  (Sys_updateMain cfg s3).polled Reg.MAINCLKUEN hw.MAINCLKUEN
    (pollCount hw.MAINCLKUEN SYS_MAIN_CLK_UPDATE SYS_MAIN_CLK_UPDATE fuel 0)

/-! ## Assumptions on the configuration and on the hardware -/

/-- The legal watchdog oscillator settings of `core.h`: a selector in 0..15
and a divider in 2..64. -/
def ValidWdtOsc (cfg : Config) : Prop :=
  cfg.WWDT_FREQ ≤ 15 ∧ 2 ≤ cfg.WWDT_DIV ∧ cfg.WWDT_DIV ≤ 64

instance (cfg : Config) : Decidable (ValidWdtOsc cfg) := by
  unfold ValidWdtOsc
  infer_instance

/-- Stated from the specification of the power-down policy: the internal
oscillator is not required when the main clock is the watchdog oscillator, or
when it is the PLL input or the PLL output and the PLL is fed from CLKIN. -/
def IrcNotRequired (cfg : Config) : Prop :=
  cfg.MAIN_CLK_SEL &&& SYS_MAIN_CLK_SEL = SYS_MAIN_CLK_WDTOSC ∨
  ((cfg.MAIN_CLK_SEL &&& SYS_MAIN_CLK_SEL = SYS_MAIN_CLK_PLLIN ∨
    cfg.MAIN_CLK_SEL &&& SYS_MAIN_CLK_SEL = SYS_MAIN_CLK_PLLOUT) ∧
   cfg.SYS_PLL_CLK &&& SYS_PLL_CLK_SEL = SYS_PLL_CLK_CLKIN)

instance (cfg : Config) : Decidable (IrcNotRequired cfg) := by
  unfold IrcNotRequired
  infer_instance

/-- Some poll among the first `fuel` ones sees `expected` under `mask`. -/
def Acks (read : Nat → Nat) (mask expected fuel : Nat) : Prop :=
  ∃ k, k < fuel ∧ read k &&& mask = expected

instance (read : Nat → Nat) (mask expected fuel : Nat) :
    Decidable (Acks read mask expected fuel) := by
  unfold Acks
  infer_instance

/-- The hardware completes the waits that `Sys_iniLpc810` runs for `cfg`:
both clock-update acknowledgements, and the PLL lock when the PLL output is
the main clock. -/
def HwResponds (fuel : Nat) (hw : Hw) (cfg : Config) : Prop :=
  Acks hw.SYSPLLCLKUEN SYS_PLL_CLK_UPDATE SYS_PLL_CLK_UPDATE fuel ∧
  Acks hw.MAINCLKUEN SYS_MAIN_CLK_UPDATE SYS_MAIN_CLK_UPDATE fuel ∧
  (cfg.MAIN_CLK_SEL &&& SYS_MAIN_CLK_SEL = SYS_MAIN_CLK_PLLOUT →
    Acks hw.SYSPLLSTAT SYS_PLL_STAT SYS_PLL_LOCKED fuel)

instance (fuel : Nat) (hw : Hw) (cfg : Config) : Decidable (HwResponds fuel hw cfg) := by
  unfold HwResponds
  infer_instance

/-! ## Concrete inputs -/

/-- The shipped configuration with the PLL output as main clock and a
multiplier of 3 over the internal oscillator (36 MHz). -/
def pll3Config : Config :=
  { coreConfig with MAIN_CLK_SEL := SYS_MAIN_CLK_PLLOUT, SYS_PLL_RATE := 3 }

/-- The shipped configuration with the PLL output as main clock and a
multiplier of 2 over the internal oscillator (example 4 of `core.h`). -/
def pll2Config : Config :=
  { coreConfig with MAIN_CLK_SEL := SYS_MAIN_CLK_PLLOUT, SYS_PLL_RATE := 2 }

/-- The shipped configuration with the watchdog oscillator as main clock and
a system clock divider of 2. -/
def wdtMainConfig : Config :=
  { coreConfig with MAIN_CLK_SEL := SYS_MAIN_CLK_WDTOSC, SYS_CLK_DIV := 2 }

/-- Hardware that acknowledges each wait at the third poll. -/
def hwSlow : Hw :=
  { SYSPLLCLKUEN := fun i => if i < 2 then 0 else 1,
    SYSPLLSTAT := fun i => if i < 2 then 0 else 1,
    MAINCLKUEN := fun i => if i < 2 then 0 else 1 }

/-- The shipped configuration with the PLL input as main clock, fed from the
CLKIN pin (example 3 of `core.h`). -/
def clkinConfig : Config :=
  { coreConfig with MAIN_CLK_SEL := SYS_MAIN_CLK_PLLIN, SYS_PLL_CLK := SYS_PLL_CLK_CLKIN }

/-- The shipped configuration with the fastest watchdog oscillator setting
(4.6 MHz, divider 2), the longest documented timeout and a warning of 1 ms. -/
def fastWdtConfig : Config :=
  { coreConfig with WWDT_FREQ := 15, WWDT_DIV := 2, WWDT_TIM_OUT := 29000,
                    WWDT_TIM_WARN := 1 }

/-- The shipped configuration with a guard time of 500 ms. -/
def guardConfig : Config :=
  { coreConfig with WWDT_TIM_GUARD := 500 }

/-- The PLL output as main clock with a multiplier of 2 over the CLKIN pin
(example 5 of `core.h`). -/
def clkinPll2Config : Config :=
  { coreConfig with MAIN_CLK_SEL := SYS_MAIN_CLK_PLLOUT, SYS_PLL_CLK := SYS_PLL_CLK_CLKIN,
                    SYS_PLL_RATE := 2 }

/-- Reset state in which every register reads 0xFFFFFFFF. -/
def resetOnes : State := State.reset (fun _ => 0xFFFFFFFF)

/-- Reset state in which MOD reads 7: watchdog enabled, reset mode, timeout
flag set, warning flag clear. -/
def modExpired : State := State.reset (fun r => if r = Reg.MOD then 7 else 0)

/-- Reset state with all registers reading zero. -/
def resetZero : State := State.reset (fun _ => 0)

/-- Hardware that acknowledges every poll at once. -/
def hwReady : Hw :=
  { SYSPLLCLKUEN := fun _ => 1, SYSPLLSTAT := fun _ => 1, MAINCLKUEN := fun _ => 1 }

/-! ## Basic facts about the machine arithmetic and the state -/

theorem wrap32_of_lt {n : Nat} (h : n < 4294967296) : wrap32 n = n :=
  Nat.mod_eq_of_lt h

theorem wrap32_lt (n : Nat) : wrap32 n < 4294967296 :=
  Nat.mod_lt _ (by norm_num)

theorem wrap64_of_lt {n : Nat} (h : n < 18446744073709551616) : wrap64 n = n :=
  Nat.mod_eq_of_lt h

@[simp] theorem write_Wdt_freq (s : State) (r : Reg) (v : Nat) :
    (s.write r v).Wdt_freq = s.Wdt_freq := rfl

@[simp] theorem write_Wdt_div (s : State) (r : Reg) (v : Nat) :
    (s.write r v).Wdt_div = s.Wdt_div := rfl

@[simp] theorem write_Sys_mainClk (s : State) (r : Reg) (v : Nat) :
    (s.write r v).Sys_mainClk = s.Sys_mainClk := rfl

@[simp] theorem write_trace (s : State) (r : Reg) (v : Nat) :
    (s.write r v).trace = s.trace ++ [Event.write r (wrap32 v)] := rfl

@[simp] theorem write_regs_same (s : State) (r : Reg) (v : Nat) :
    (s.write r v).regs r = wrap32 v := by
  simp [State.write]

theorem write_regs_other (s : State) {r x : Reg} (v : Nat) (h : x ≠ r) :
    (s.write r v).regs x = s.regs x := by
  simp [State.write, h]

/-- Every entry of the base-frequency table is at most 4.6 MHz. -/
theorem freqsel_le {i f : Nat} (h : freqsel[i]? = some f) : f ≤ 4600000 := by
  have hi : i < 16 := by
    by_contra hc
    have : freqsel[i]? = none := List.getElem?_eq_none (by simp [freqsel]; omega)
    simp [this] at h
  interval_cases i <;> simp [freqsel] at h <;> omega

/-- A selector in 0..15 indexes the table. -/
theorem freqsel_some {i : Nat} (h : i ≤ 15) : ∃ f, freqsel[i]? = some f := by
  interval_cases i <;> simp [freqsel]

/-- The table lookup of `Wdt_calcOscCtrl` succeeds on a table entry. -/
theorem Wdt_calcOscCtrl_eq (freq div f : Nat) (st : State)
    (h : freqsel[freq]? = some f) :
    Wdt_calcOscCtrl freq div st =
      some (wrap32 (freq <<< 5) ||| (wrap32 (div + 4294967296 - 2) / 2),
            { st with Wdt_freq := f, Wdt_div := div }) := by
  simp [Wdt_calcOscCtrl, h]

/-- With a table frequency and a divider in 1..64 the 64-bit computation of
`Wdt_getMs` is the exact quotient, clamped. -/
theorem Wdt_getMs_eq (st : State) (ms max : Nat)
    (hf : st.Wdt_freq ≤ 4600000) (hd1 : 1 ≤ st.Wdt_div) (hd64 : st.Wdt_div ≤ 64)
    (hms : ms < 4294967296) (hmax : max < 4294967296) :
    Wdt_getMs ms max st
      = some (min (st.Wdt_freq * ms / (st.Wdt_div * 4 * 1000)) max) := by
  have h1 : wrap32 (st.Wdt_div * 4) = st.Wdt_div * 4 := wrap32_of_lt (by omega)
  have h2 : wrap32 (st.Wdt_div * 4 * 1000) = st.Wdt_div * 4 * 1000 :=
    wrap32_of_lt (by omega)
  have h3 : st.Wdt_freq * ms < 18446744073709551616 :=
    calc st.Wdt_freq * ms ≤ 4600000 * 4294967296 :=
          Nat.mul_le_mul hf (Nat.le_of_lt hms)
      _ < 18446744073709551616 := by norm_num
  have hne : st.Wdt_div * 4 * 1000 ≠ 0 := by omega
  unfold Wdt_getMs
  simp only [h1, h2, wrap64_of_lt h3, hne, if_false]
  by_cases hc : st.Wdt_freq * ms / (st.Wdt_div * 4 * 1000) > max
  · rw [if_pos hc, Nat.min_eq_right (Nat.le_of_lt hc)]
  · rw [if_neg hc, Nat.min_eq_left (Nat.le_of_not_gt hc),
      wrap32_of_lt (by omega)]

/-! ## Time-to-ticks converter -/

/-- C1: for every selector `s` in 0..15 with base frequency `f = freqsel[s]`,
every divider `d` in 2..64 (even or not) and all 32-bit `ms` and `counterMax`,
`Wdt_getMs ms counterMax` evaluated after `Wdt_calcOscCtrl s d` returns
`min (f * ms / (d * 4 * 1000)) counterMax` computed over the naturals. -/
theorem C1_Wdt_getMs_formula (st : State) (s d ms counterMax : Nat)
    (hs : s ≤ 15) (hd2 : 2 ≤ d) (hd64 : d ≤ 64)
    (hms : ms < 4294967296) (hmax : counterMax < 4294967296) :
    ∃ f ctrl st', freqsel[s]? = some f ∧
      Wdt_calcOscCtrl s d st = some (ctrl, st') ∧
      Wdt_getMs ms counterMax st' = some (min (f * ms / (d * 4 * 1000)) counterMax) := by
  obtain ⟨f, hf⟩ := freqsel_some hs
  refine ⟨f, _, _, hf, Wdt_calcOscCtrl_eq s d f st hf, ?_⟩
  exact Wdt_getMs_eq _ ms counterMax (freqsel_le hf) (by show 1 ≤ d; omega) hd64 hms hmax

theorem C1_Wdt_getMs_formula_witness :
    ∃ f ctrl st', freqsel[15]? = some f ∧
      Wdt_calcOscCtrl 15 2 resetZero = some (ctrl, st') ∧
      Wdt_getMs 29000 0xFFFFFF st' = some (min (f * 29000 / (2 * 4 * 1000)) 0xFFFFFF) :=
  C1_Wdt_getMs_formula resetZero 15 2 29000 0xFFFFFF (by decide) (by decide) (by decide)
    (by decide) (by decide)

/-- C2: for every configured oscillator (selector 0..15, divider 2..64) and
all 32-bit `ms` and `max`, `Wdt_getMs ms max` returns a value `≤ max`. -/
theorem C2_Wdt_getMs_le_max (st : State) (s d ms max : Nat)
    (hs : s ≤ 15) (hd2 : 2 ≤ d) (hd64 : d ≤ 64)
    (hms : ms < 4294967296) (hmax : max < 4294967296) :
    ∃ ctrl st' r, Wdt_calcOscCtrl s d st = some (ctrl, st') ∧
      Wdt_getMs ms max st' = some r ∧ r ≤ max := by
  obtain ⟨f, hf⟩ := freqsel_some hs
  refine ⟨_, _, _, Wdt_calcOscCtrl_eq s d f st hf,
    Wdt_getMs_eq _ ms max (freqsel_le hf) (by show 1 ≤ d; omega) hd64 hms hmax, ?_⟩
  exact Nat.min_le_right _ _

theorem C2_Wdt_getMs_le_max_witness :
    ∃ ctrl st' r, Wdt_calcOscCtrl 15 2 resetZero = some (ctrl, st') ∧
      Wdt_getMs 4294967295 0x3FF st' = some r ∧ r ≤ 0x3FF :=
  C2_Wdt_getMs_le_max resetZero 15 2 4294967295 0x3FF (by decide) (by decide) (by decide)
    (by decide) (by decide)

/-- C3 as stated fails: at 600 kHz with divider 64 (9375 Hz) the call
`Wdt_getMs 1000000 0xFFFFFF` returns 2343750, not 0xFFFFFF. -/
theorem C3_not_saturated_counterexample :
    (Wdt_calcOscCtrl 1 64 resetZero).bind (fun p => Wdt_getMs 1000000 0xFFFFFF p.2)
      = some 2343750 ∧
    (Wdt_calcOscCtrl 1 64 resetZero).bind (fun p => Wdt_getMs 1000000 0xFFFFFF p.2)
      ≠ some 0xFFFFFF := by
  constructor <;> decide

/-- C3 amended: at 600 kHz with divider 64 (9375 Hz) and max = 0xFFFFFF,
`Wdt_getMs 1000000 0xFFFFFF` returns exactly 2343750, the unwrapped quotient
`600000 * 1000000 / 256000`, which is below 0xFFFFFF; the largest unclamped
input is 7158278 ms and 7158279 ms is the first that returns 0xFFFFFF. -/
theorem C3_value_at_9375Hz (st : State) :
    ∃ ctrl st', Wdt_calcOscCtrl 1 64 st = some (ctrl, st') ∧
      Wdt_getMs 1000000 0xFFFFFF st' = some 2343750 ∧
      2343750 = 600000 * 1000000 / 256000 ∧ 2343750 < 0xFFFFFF ∧
      Wdt_getMs 7158278 0xFFFFFF st' = some 16777214 ∧
      Wdt_getMs 7158279 0xFFFFFF st' = some 0xFFFFFF := by
  have hf : freqsel[1]? = some 600000 := by decide
  refine ⟨_, _, Wdt_calcOscCtrl_eq 1 64 600000 st hf, ?_, by norm_num, by norm_num, ?_, ?_⟩ <;>
  · rw [Wdt_getMs_eq _ _ _ (by show 600000 ≤ 4600000; norm_num) (by show 1 ≤ 64; norm_num)
      (by show 64 ≤ 64; norm_num) (by norm_num) (by norm_num)]
    show some (min (600000 * _ / (64 * 4 * 1000)) _) = _
    norm_num

/-- C4: for a fixed oscillator configuration (selector 0..15, divider 2..64)
and a fixed 32-bit `max`, `Wdt_getMs` is monotonic non-decreasing in `ms`. -/
theorem C4_Wdt_getMs_monotone (st : State) (s d ms1 ms2 max : Nat)
    (hs : s ≤ 15) (hd2 : 2 ≤ d) (hd64 : d ≤ 64)
    (h12 : ms1 ≤ ms2) (hms : ms2 < 4294967296) (hmax : max < 4294967296) :
    ∃ ctrl st' r1 r2, Wdt_calcOscCtrl s d st = some (ctrl, st') ∧
      Wdt_getMs ms1 max st' = some r1 ∧ Wdt_getMs ms2 max st' = some r2 ∧ r1 ≤ r2 := by
  obtain ⟨f, hf⟩ := freqsel_some hs
  have hd1 : 1 ≤ d := by omega
  refine ⟨_, _, _, _, Wdt_calcOscCtrl_eq s d f st hf,
    Wdt_getMs_eq _ ms1 max (freqsel_le hf) hd1 hd64 (by omega) hmax,
    Wdt_getMs_eq _ ms2 max (freqsel_le hf) hd1 hd64 hms hmax, ?_⟩
  show min (f * ms1 / (d * 4 * 1000)) max ≤ min (f * ms2 / (d * 4 * 1000)) max
  exact min_le_min (Nat.div_le_div_right (Nat.mul_le_mul_left f h12)) (le_refl max)

theorem C4_Wdt_getMs_monotone_witness :
    ∃ ctrl st' r1 r2, Wdt_calcOscCtrl 1 64 resetZero = some (ctrl, st') ∧
      Wdt_getMs 200 0xFFFFFF st' = some r1 ∧ Wdt_getMs 2000 0xFFFFFF st' = some r2 ∧
      r1 ≤ r2 :=
  C4_Wdt_getMs_monotone resetZero 1 64 200 2000 0xFFFFFF (by decide) (by decide) (by decide)
    (by decide) (by decide) (by decide)

/-! ## Watchdog oscillator frequency -/

/-- C5: for every selector `s` in 0..15 and divider `d` in 2..64, after
`Wdt_calcOscCtrl s d` the accessor `Wdt_getOscClk` returns `freqsel[s] / d`
(truncating); 600 kHz with divider 64 gives 9375 and 4.6 MHz with divider 2
gives 2300000. -/
theorem C5_Wdt_getOscClk (st : State) (s d : Nat)
    (hs : s ≤ 15) (hd2 : 2 ≤ d) (hd64 : d ≤ 64) :
    (∃ f ctrl st', freqsel[s]? = some f ∧ Wdt_calcOscCtrl s d st = some (ctrl, st') ∧
      Wdt_getOscClk st' = some (f / d)) ∧
    (∃ ctrl st', Wdt_calcOscCtrl 1 64 st = some (ctrl, st') ∧
      Wdt_getOscClk st' = some 9375) ∧
    (∃ ctrl st', Wdt_calcOscCtrl 15 2 st = some (ctrl, st') ∧
      Wdt_getOscClk st' = some 2300000) := by
  obtain ⟨f, hf⟩ := freqsel_some hs
  refine ⟨⟨f, _, _, hf, Wdt_calcOscCtrl_eq s d f st hf, ?_⟩,
    ⟨_, _, Wdt_calcOscCtrl_eq 1 64 600000 st (by decide), ?_⟩,
    ⟨_, _, Wdt_calcOscCtrl_eq 15 2 4600000 st (by decide), ?_⟩⟩
  · have hd : d ≠ 0 := by omega
    unfold Wdt_getOscClk
    rw [if_neg hd]
  · unfold Wdt_getOscClk
    norm_num
  · unfold Wdt_getOscClk
    norm_num

theorem C5_Wdt_getOscClk_witness :
    (∃ f ctrl st', freqsel[8]? = some f ∧
      Wdt_calcOscCtrl 8 6 resetZero = some (ctrl, st') ∧
      Wdt_getOscClk st' = some (f / 6)) ∧
    (∃ ctrl st', Wdt_calcOscCtrl 1 64 resetZero = some (ctrl, st') ∧
      Wdt_getOscClk st' = some 9375) ∧
    (∃ ctrl st', Wdt_calcOscCtrl 15 2 resetZero = some (ctrl, st') ∧
      Wdt_getOscClk st' = some 2300000) :=
  C5_Wdt_getOscClk resetZero 8 6 (by decide) (by decide) (by decide)

@[simp] theorem Wdt_getMs_write (s : State) (r : Reg) (v ms max : Nat) :
    Wdt_getMs ms max (s.write r v) = Wdt_getMs ms max s := rfl

@[simp] theorem Wdt_getMs_setBits (s : State) (r : Reg) (m ms max : Nat) :
    Wdt_getMs ms max (s.setBits r m) = Wdt_getMs ms max s := rfl

@[simp] theorem Wdt_getMs_clearBits (s : State) (r : Reg) (m ms max : Nat) :
    Wdt_getMs ms max (s.clearBits r m) = Wdt_getMs ms max s := rfl

@[simp] theorem Wdt_getMs_nvicEnable (s : State) (ms max : Nat) :
    Wdt_getMs ms max s.nvicEnable = Wdt_getMs ms max s := rfl

@[simp] theorem Wdt_getMs_Wdt_clr (s : State) (ms max : Nat) :
    Wdt_getMs ms max (Wdt_clr s) = Wdt_getMs ms max s := rfl

theorem toU32_lt (z : Int) : toU32 z < 4294967296 := by
  unfold toU32
  have h1 : 0 ≤ z % 4294967296 := Int.emod_nonneg z (by norm_num)
  have h2 : z % 4294967296 < 4294967296 := Int.emod_lt_of_pos z (by norm_num)
  omega

/-- The whole of `Wdt_ini` for a table frequency and a divider in 1..64. -/
theorem Wdt_ini_eq (cfg : Config) (st : State) (f : Nat)
    (hf : freqsel[cfg.WWDT_FREQ]? = some f)
    (hd1 : 1 ≤ cfg.WWDT_DIV) (hd64 : cfg.WWDT_DIV ≤ 64) :
    Wdt_ini cfg st = some
      ((Wdt_clr
        (((((((({ st with Wdt_freq := f, Wdt_div := cfg.WWDT_DIV } : State).write
          Reg.WDTOSCCTRL
            (wrap32 (cfg.WWDT_FREQ <<< 5) ||| (wrap32 (cfg.WWDT_DIV + 4294967296 - 2) / 2))
          ).clearBits Reg.PDRUNCFG SYS_WDTOSC_PD
          ).setBits Reg.SYSAHBCLKCTRL SYS_AHB_CLK_WWDT
          ).write Reg.TC
            (min (f * wrap32 cfg.WWDT_TIM_OUT / (cfg.WWDT_DIV * 4 * 1000)) WWDT_CNT_MAX)
          ).write Reg.WINDOW
            (min (f * toU32 ((cfg.WWDT_TIM_OUT : Int) - (cfg.WWDT_TIM_GUARD : Int))
              / (cfg.WWDT_DIV * 4 * 1000)) WWDT_WINDOW_MAX)
          ).nvicEnable
          ).write Reg.MOD cfg.WWDT_MODE)
        ).write Reg.WARNINT
          (min (f * wrap32 cfg.WWDT_TIM_WARN / (cfg.WWDT_DIV * 4 * 1000)) WWDT_WARN_MAX)) := by
  have hfreq : wrap32 cfg.WWDT_FREQ = cfg.WWDT_FREQ := by
    apply wrap32_of_lt
    by_contra hc
    have : freqsel[cfg.WWDT_FREQ]? = none :=
      List.getElem?_eq_none (by simp [freqsel]; omega)
    simp [this] at hf
  have hdiv : wrap32 cfg.WWDT_DIV = cfg.WWDT_DIV := wrap32_of_lt (by omega)
  have hg : ∀ ms max, ms < 4294967296 → max < 4294967296 →
      Wdt_getMs ms max { st with Wdt_freq := f, Wdt_div := cfg.WWDT_DIV }
        = some (min (f * ms / (cfg.WWDT_DIV * 4 * 1000)) max) :=
    fun ms max hms hmax => Wdt_getMs_eq _ ms max (freqsel_le hf) hd1 hd64 hms hmax
  unfold Wdt_ini
  rw [hfreq, hdiv, Wdt_calcOscCtrl_eq _ _ f st hf]
  simp only [Option.bind_eq_bind, Option.some_bind, Wdt_getMs_write, Wdt_getMs_setBits,
    Wdt_getMs_clearBits, Wdt_getMs_nvicEnable, Wdt_getMs_Wdt_clr]
  rw [hg _ _ (wrap32_lt _) (by norm_num [WWDT_CNT_MAX]),
    hg _ _ (toU32_lt _) (by norm_num [WWDT_WINDOW_MAX]),
    hg _ _ (wrap32_lt _) (by norm_num [WWDT_WARN_MAX])]
  rfl
/-! ## Watchdog configurator -/

/-- C6: running `Wdt_ini` with timeout 2000 ms, guard 0 ms, warning 200 ms,
selector 600 kHz and divider 64 writes a WINDOW value equal to the TC value
(both 4687) and a WARNINT value (468) strictly less than the TC value, for
every mode, every other setting and every initial state. -/
theorem C6_Wdt_ini_roundtrip (cfg : Config) (st : State)
    (hfreq : cfg.WWDT_FREQ = 1) (hdiv : cfg.WWDT_DIV = 64)
    (hout : cfg.WWDT_TIM_OUT = 2000) (hguard : cfg.WWDT_TIM_GUARD = 0)
    (hwarn : cfg.WWDT_TIM_WARN = 200) :
    ∃ st' tc win warn, Wdt_ini cfg st = some st' ∧
      st'.trace = st.trace ++
        [Event.write Reg.WDTOSCCTRL 63,
         Event.write Reg.PDRUNCFG (wrap32 (st.regs Reg.PDRUNCFG &&& not32 SYS_WDTOSC_PD)),
         Event.write Reg.SYSAHBCLKCTRL
           (wrap32 (st.regs Reg.SYSAHBCLKCTRL ||| SYS_AHB_CLK_WWDT)),
         Event.write Reg.TC tc,
         Event.write Reg.WINDOW win,
         Event.nvicEnableWdtIrq,
         Event.write Reg.MOD (wrap32 cfg.WWDT_MODE),
         Event.write Reg.FEED 0xAA,
         Event.write Reg.FEED 0x55,
         Event.write Reg.WARNINT warn] ∧
      st'.regs Reg.TC = tc ∧ st'.regs Reg.WINDOW = win ∧ st'.regs Reg.WARNINT = warn ∧
      win = tc ∧ warn < tc ∧ tc = 4687 ∧ warn = 468 := by
  have hf : freqsel[cfg.WWDT_FREQ]? = some 600000 := by rw [hfreq]; decide
  refine ⟨_, 4687, 4687, 468, Wdt_ini_eq cfg st 600000 hf (by omega) (by omega), ?_⟩
  rw [hfreq, hdiv, hout, hguard, hwarn]
  simp [State.write, State.setBits, State.clearBits, State.nvicEnable, Wdt_clr, wrap32, toU32,
    WWDT_CNT_MAX, WWDT_WINDOW_MAX, WWDT_WARN_MAX]
theorem C6_Wdt_ini_roundtrip_witness :
    ∃ st' tc win warn, Wdt_ini coreConfig resetZero = some st' ∧
      st'.trace = resetZero.trace ++
        [Event.write Reg.WDTOSCCTRL 63,
         Event.write Reg.PDRUNCFG
           (wrap32 (resetZero.regs Reg.PDRUNCFG &&& not32 SYS_WDTOSC_PD)),
         Event.write Reg.SYSAHBCLKCTRL
           (wrap32 (resetZero.regs Reg.SYSAHBCLKCTRL ||| SYS_AHB_CLK_WWDT)),
         Event.write Reg.TC tc,
         Event.write Reg.WINDOW win,
         Event.nvicEnableWdtIrq,
         Event.write Reg.MOD (wrap32 coreConfig.WWDT_MODE),
         Event.write Reg.FEED 0xAA,
         Event.write Reg.FEED 0x55,
         Event.write Reg.WARNINT warn] ∧
      st'.regs Reg.TC = tc ∧ st'.regs Reg.WINDOW = win ∧ st'.regs Reg.WARNINT = warn ∧
      win = tc ∧ warn < tc ∧ tc = 4687 ∧ warn = 468 :=
  C6_Wdt_ini_roundtrip coreConfig resetZero rfl rfl rfl rfl rfl

/-! ## Clock selection engine -/

theorem pollEvents_zero (r : Reg) (read : Nat → Nat) (i : Nat) :
    pollEvents r read i 0 = [] := rfl

theorem pollEvents_succ (r : Reg) (read : Nat → Nat) (i n : Nat) :
    pollEvents r read i (n + 1) = Event.poll r (read i) :: pollEvents r read (i + 1) n := by
  unfold pollEvents
  rw [List.range_succ_eq_map, List.map_cons, List.map_map]
  refine congrArg₂ _ rfl (List.map_congr_left ?_)
  intro k _
  show Event.poll r (read (i + (k + 1))) = Event.poll r (read (i + 1 + k))
  rw [Nat.add_right_comm, Nat.add_assoc]

@[simp] theorem polled_regs (s : State) (r : Reg) (read : Nat → Nat) (n : Nat) :
    (s.polled r read n).regs = s.regs := rfl

@[simp] theorem polled_Wdt_freq (s : State) (r : Reg) (read : Nat → Nat) (n : Nat) :
    (s.polled r read n).Wdt_freq = s.Wdt_freq := rfl

@[simp] theorem polled_Wdt_div (s : State) (r : Reg) (read : Nat → Nat) (n : Nat) :
    (s.polled r read n).Wdt_div = s.Wdt_div := rfl

@[simp] theorem polled_Sys_mainClk (s : State) (r : Reg) (read : Nat → Nat) (n : Nat) :
    (s.polled r read n).Sys_mainClk = s.Sys_mainClk := rfl

@[simp] theorem polled_trace (s : State) (r : Reg) (read : Nat → Nat) (n : Nat) :
    (s.polled r read n).trace = s.trace ++ pollEvents r read 0 n := rfl

@[simp] theorem Sys_switchEntry_regs (fuel : Nat) (hw : Hw) (cfg : Config) (sw : State) :
    (Sys_switchEntry fuel hw cfg sw).regs = (Sys_selectPllIn cfg sw).2.regs := rfl

@[simp] theorem Sys_switchEntry_Wdt_freq (fuel : Nat) (hw : Hw) (cfg : Config) (sw : State) :
    (Sys_switchEntry fuel hw cfg sw).Wdt_freq = (Sys_selectPllIn cfg sw).2.Wdt_freq := rfl

@[simp] theorem Sys_switchEntry_Wdt_div (fuel : Nat) (hw : Hw) (cfg : Config) (sw : State) :
    (Sys_switchEntry fuel hw cfg sw).Wdt_div = (Sys_selectPllIn cfg sw).2.Wdt_div := rfl

theorem Sys_switchEntry_trace (fuel : Nat) (hw : Hw) (cfg : Config) (sw : State) :
    (Sys_switchEntry fuel hw cfg sw).trace = (Sys_selectPllIn cfg sw).2.trace ++
      pollEvents Reg.SYSPLLCLKUEN hw.SYSPLLCLKUEN 0
        (pollCount hw.SYSPLLCLKUEN SYS_PLL_CLK_UPDATE SYS_PLL_CLK_UPDATE fuel 0) := rfl

@[simp] theorem Sys_publishEntry_regs (fuel : Nat) (hw : Hw) (cfg : Config) (s3 : State) :
    (Sys_publishEntry fuel hw cfg s3).regs = (Sys_updateMain cfg s3).regs := rfl

@[simp] theorem Sys_publishEntry_Sys_mainClk (fuel : Nat) (hw : Hw) (cfg : Config)
    (s3 : State) :
    (Sys_publishEntry fuel hw cfg s3).Sys_mainClk = s3.Sys_mainClk := rfl

@[simp] theorem Sys_publishEntry_Wdt_freq (fuel : Nat) (hw : Hw) (cfg : Config)
    (s3 : State) :
    (Sys_publishEntry fuel hw cfg s3).Wdt_freq = s3.Wdt_freq := rfl

@[simp] theorem Sys_publishEntry_Wdt_div (fuel : Nat) (hw : Hw) (cfg : Config)
    (s3 : State) :
    (Sys_publishEntry fuel hw cfg s3).Wdt_div = s3.Wdt_div := rfl

theorem Sys_publishEntry_trace (fuel : Nat) (hw : Hw) (cfg : Config) (s3 : State) :
    (Sys_publishEntry fuel hw cfg s3).trace = s3.trace ++
      [Event.write Reg.MAINCLKSEL (wrap32 cfg.MAIN_CLK_SEL),
       Event.write Reg.MAINCLKUEN (wrap32 SYS_MAIN_CLK_UPDATE)] ++
      pollEvents Reg.MAINCLKUEN hw.MAINCLKUEN 0
        (pollCount hw.MAINCLKUEN SYS_MAIN_CLK_UPDATE SYS_MAIN_CLK_UPDATE fuel 0) := by
  simp [Sys_publishEntry, Sys_updateMain, List.append_assoc]

/-- A wait that returns has appended its reads to the trace, at least one,
and changed nothing else. -/
theorem busyWait_eq_some (r : Reg) (read : Nat → Nat) (mask expected : Nat) :
    ∀ fuel i s s', busyWait r read mask expected fuel i s = some s' →
      1 ≤ pollCount read mask expected fuel i ∧
      s' = { s with
        trace := s.trace ++ pollEvents r read i (pollCount read mask expected fuel i) } := by
  intro fuel
  induction fuel with
  | zero =>
    intro i s s' h
    unfold busyWait at h
    exact absurd h (by simp)
  | succ fuel ih =>
    intro i s s' h
    unfold busyWait at h
    unfold pollCount
    by_cases hc : read i &&& mask ≠ expected
    · simp only [if_pos hc] at h ⊢
      obtain ⟨_, hn⟩ := ih (i + 1) (s.poll r (read i)) s' h
      refine ⟨by omega, ?_⟩
      rw [hn, pollEvents_succ]
      simp [State.poll]
    · simp only [if_neg hc] at h ⊢
      refine ⟨Nat.le_refl 1, ?_⟩
      rw [← Option.some.inj h, pollEvents_succ, pollEvents_zero]
      rfl

/-- A wait whose condition is met within the fuel returns. -/
theorem busyWait_of_ack (r : Reg) (read : Nat → Nat) (mask expected : Nat) :
    ∀ fuel i s, (∃ k, k < fuel ∧ read (i + k) &&& mask = expected) →
      ∃ s', busyWait r read mask expected fuel i s = some s' := by
  intro fuel
  induction fuel with
  | zero => intro i s ⟨k, hk, _⟩; omega
  | succ fuel ih =>
    intro i s ⟨k, hk, hread⟩
    unfold busyWait
    by_cases hc : read i &&& mask ≠ expected
    · simp only [if_pos hc]
      apply ih
      cases k with
      | zero => exact absurd hread hc
      | succ k => exact ⟨k, by omega, by rw [← hread]; congr 2; omega⟩
    · simp only [if_neg hc]
      exact ⟨_, rfl⟩

/-- A wait acknowledged within the fuel returns the state with its
`pollCount` reads appended; it makes at least one read. -/
theorem busyWait_of_Acks {read : Nat → Nat} {mask expected fuel : Nat}
    (h : Acks read mask expected fuel) (r : Reg) (s : State) :
    1 ≤ pollCount read mask expected fuel 0 ∧
    busyWait r read mask expected fuel 0 s
      = some (s.polled r read (pollCount read mask expected fuel 0)) := by
  obtain ⟨k, hk, hread⟩ := h
  obtain ⟨s', hs'⟩ := busyWait_of_ack r read mask expected fuel 0 s
    ⟨k, hk, by rw [Nat.zero_add]; exact hread⟩
  obtain ⟨h1, heq⟩ := busyWait_eq_some r read mask expected fuel 0 s s' hs'
  refine ⟨h1, ?_⟩
  rw [hs', heq]
  rfl

@[simp] theorem nopDelay_eq (n : Nat) (s : State) : nopDelay n s = s := by
  induction n with
  | zero => rfl
  | succ n ih => rw [nopDelay, ih]

theorem Sys_selectPllIn_Wdt_freq (cfg : Config) (s : State) :
    (Sys_selectPllIn cfg s).2.Wdt_freq = s.Wdt_freq := by
  unfold Sys_selectPllIn
  by_cases h : cfg.SYS_PLL_CLK &&& SYS_PLL_CLK_SEL = SYS_PLL_CLK_CLKIN <;>
    simp [h, State.setBits, State.clearBits]

theorem Sys_selectPllIn_Wdt_div (cfg : Config) (s : State) :
    (Sys_selectPllIn cfg s).2.Wdt_div = s.Wdt_div := by
  unfold Sys_selectPllIn
  by_cases h : cfg.SYS_PLL_CLK &&& SYS_PLL_CLK_SEL = SYS_PLL_CLK_CLKIN <;>
    simp [h, State.setBits, State.clearBits]

theorem Sys_selectPllIn_pllsrc (cfg : Config) (s : State) :
    (Sys_selectPllIn cfg s).1.pllsrc =
      if cfg.SYS_PLL_CLK &&& SYS_PLL_CLK_SEL = SYS_PLL_CLK_CLKIN then CLKIN_HZ else IRC_HZ := by
  unfold Sys_selectPllIn
  by_cases h : cfg.SYS_PLL_CLK &&& SYS_PLL_CLK_SEL = SYS_PLL_CLK_CLKIN <;> simp [h]

/-- `Sys_iniLpc810` in terms of its phases, once the watchdog is set up, both
clock-update waits are acknowledged and the `switch` has returned. -/
theorem Sys_iniLpc810_of_parts (fuel : Nat) (hw : Hw) (cfg : Config) (st sw s3 : State)
    (l : Locals) (hwdt : Wdt_ini cfg st = some sw)
    (h1 : Acks hw.SYSPLLCLKUEN SYS_PLL_CLK_UPDATE SYS_PLL_CLK_UPDATE fuel)
    (h3 : Acks hw.MAINCLKUEN SYS_MAIN_CLK_UPDATE SYS_MAIN_CLK_UPDATE fuel)
    (hsel : Sys_selectMain fuel hw cfg (Sys_selectPllIn cfg sw).1 (Sys_switchEntry fuel hw cfg sw)
      = some (l, s3)) :
    Sys_iniLpc810 fuel hw cfg st = Sys_publish cfg l (Sys_publishEntry fuel hw cfg s3) := by
  have hn1 := (busyWait_of_Acks h1 Reg.SYSPLLCLKUEN (Sys_selectPllIn cfg sw).2).2
  have hn3 := (busyWait_of_Acks h3 Reg.MAINCLKUEN (Sys_updateMain cfg s3)).2
  unfold Sys_switchEntry at hsel
  unfold Sys_iniLpc810 Sys_publishEntry
  simp only [hwdt, hn1, hn3, hsel, Option.bind_eq_bind, Option.some_bind]

/-- The last phase publishes `main / divider` when the divider is non-zero. -/
theorem Sys_publish_some (cfg : Config) (l : Locals) (s : State)
    (hdiv : wrap32 cfg.SYS_CLK_DIV ≠ 0) :
    ∃ st', Sys_publish cfg l s = some st' ∧
      st'.Sys_mainClk = s.Sys_mainClk ∧
      st'.SystemCoreClock = s.Sys_mainClk / wrap32 cfg.SYS_CLK_DIV ∧
      st'.regs Reg.SYSAHBCLKDIV = wrap32 cfg.SYS_CLK_DIV ∧
      st'.trace = s.trace ++
        (if cfg.IRC_PDWON ≠ 0 ∧ (!l.irc) = true then
          [Event.write Reg.PDRUNCFG
            (wrap32 (s.regs Reg.PDRUNCFG ||| (SYS_IRCOUT_PD ||| SYS_IRC_PD)))]
         else []) ++
        [Event.write Reg.SYSAHBCLKDIV (wrap32 cfg.SYS_CLK_DIV)] := by
  have hm : ∀ c : Prop, ∀ _ : Decidable c,
      (if c then s.setBits Reg.PDRUNCFG (SYS_IRCOUT_PD ||| SYS_IRC_PD) else s).Sys_mainClk
        = s.Sys_mainClk := by
    intro c _
    split <;> rfl
  unfold Sys_publish
  simp only [hdiv, if_false]
  refine ⟨_, rfl, ?_, ?_, ?_, ?_⟩
  · dsimp only
    rw [write_Sys_mainClk, hm]
  · dsimp only
    rw [write_Sys_mainClk, hm]
  · dsimp only
    rw [write_regs_same]
  · dsimp only
    rw [write_trace]
    split
    · rw [State.setBits, write_trace]
    · rw [List.append_nil]

/-- After `Wdt_ini` with a legal oscillator setting the statics hold the table
frequency and the divider; `Sys_mainClk` is untouched. -/
theorem Wdt_ini_some (cfg : Config) (st : State) (h : ValidWdtOsc cfg) :
    ∃ sw f, freqsel[cfg.WWDT_FREQ]? = some f ∧ Wdt_ini cfg st = some sw ∧
      sw.Wdt_freq = f ∧ sw.Wdt_div = cfg.WWDT_DIV := by
  obtain ⟨hs, hd2, hd64⟩ := h
  obtain ⟨f, hf⟩ := freqsel_some hs
  exact ⟨_, f, hf, Wdt_ini_eq cfg st f hf (by omega) hd64, rfl, rfl⟩

theorem mainSel_lt (cfg : Config) : cfg.MAIN_CLK_SEL &&& SYS_MAIN_CLK_SEL < 4 :=
  Nat.lt_succ_of_le Nat.and_le_right

/-- The `case SYS_MAIN_CLK_IRC` branch. -/
theorem Sys_selectMain_irc (fuel : Nat) (hw : Hw) (cfg : Config) (l : Locals) (s : State)
    (hmain : cfg.MAIN_CLK_SEL &&& SYS_MAIN_CLK_SEL = SYS_MAIN_CLK_IRC) :
    Sys_selectMain fuel hw cfg l s = some (l, { s with Sys_mainClk := IRC_HZ }) := by
  unfold Sys_selectMain
  simp only [hmain, if_true]

/-- The `case SYS_MAIN_CLK_PLLIN` branch. -/
theorem Sys_selectMain_pllin (fuel : Nat) (hw : Hw) (cfg : Config) (l : Locals) (s : State)
    (hmain : cfg.MAIN_CLK_SEL &&& SYS_MAIN_CLK_SEL = SYS_MAIN_CLK_PLLIN) :
    Sys_selectMain fuel hw cfg l s =
      some (if !l.pllirc then { l with irc := false } else l,
            { s with Sys_mainClk := l.pllsrc }) := by
  unfold Sys_selectMain
  simp [hmain, SYS_MAIN_CLK_PLLIN, SYS_MAIN_CLK_IRC]

/-- The `case SYS_MAIN_CLK_PLLOUT` branch, once the PLL reports lock. -/
theorem Sys_selectMain_pllout (fuel : Nat) (hw : Hw) (cfg : Config) (l : Locals) (s : State)
    (hmain : cfg.MAIN_CLK_SEL &&& SYS_MAIN_CLK_SEL = SYS_MAIN_CLK_PLLOUT)
    (hlock : Acks hw.SYSPLLSTAT SYS_PLL_STAT SYS_PLL_LOCKED fuel) :
    Sys_selectMain fuel hw cfg l s =
      some (if !l.pllirc then { l with irc := false } else l,
            { (((s.write Reg.SYSPLLCTRL (toU32 ((cfg.SYS_PLL_RATE : Int) - 1))).clearBits
                Reg.PDRUNCFG SYS_SYSPLL_PD).polled Reg.SYSPLLSTAT hw.SYSPLLSTAT
                (pollCount hw.SYSPLLSTAT SYS_PLL_STAT SYS_PLL_LOCKED fuel 0)) with
              Sys_mainClk := wrap32 (l.pllsrc * wrap32 cfg.SYS_PLL_RATE) }) := by
  have hn := (busyWait_of_Acks hlock Reg.SYSPLLSTAT
    ((s.write Reg.SYSPLLCTRL (toU32 ((cfg.SYS_PLL_RATE : Int) - 1))).clearBits
      Reg.PDRUNCFG SYS_SYSPLL_PD)).2
  unfold Sys_selectMain
  simp [hmain, hn, SYS_MAIN_CLK_PLLOUT, SYS_MAIN_CLK_PLLIN, SYS_MAIN_CLK_IRC]

/-- The `case SYS_MAIN_CLK_PLLOUT` branch, when the `switch` has returned. -/
theorem Sys_selectMain_pllout_inv (fuel : Nat) (hw : Hw) (cfg : Config) (l l' : Locals)
    (s s3 : State)
    (hmain : cfg.MAIN_CLK_SEL &&& SYS_MAIN_CLK_SEL = SYS_MAIN_CLK_PLLOUT)
    (hsel : Sys_selectMain fuel hw cfg l s = some (l', s3)) :
    1 ≤ pollCount hw.SYSPLLSTAT SYS_PLL_STAT SYS_PLL_LOCKED fuel 0 ∧
    l' = (if !l.pllirc then { l with irc := false } else l) ∧
    s3 = { (((s.write Reg.SYSPLLCTRL (toU32 ((cfg.SYS_PLL_RATE : Int) - 1))).clearBits
              Reg.PDRUNCFG SYS_SYSPLL_PD).polled Reg.SYSPLLSTAT hw.SYSPLLSTAT
              (pollCount hw.SYSPLLSTAT SYS_PLL_STAT SYS_PLL_LOCKED fuel 0)) with
            Sys_mainClk := wrap32 (l.pllsrc * wrap32 cfg.SYS_PLL_RATE) } := by
  cases hb : busyWait Reg.SYSPLLSTAT hw.SYSPLLSTAT SYS_PLL_STAT SYS_PLL_LOCKED fuel 0
      ((s.write Reg.SYSPLLCTRL (toU32 ((cfg.SYS_PLL_RATE : Int) - 1))).clearBits
        Reg.PDRUNCFG SYS_SYSPLL_PD) with
  | none =>
    unfold Sys_selectMain at hsel
    simp [hmain, hb, SYS_MAIN_CLK_PLLOUT, SYS_MAIN_CLK_PLLIN, SYS_MAIN_CLK_IRC] at hsel
  | some s' =>
    obtain ⟨h1, heq⟩ := busyWait_eq_some _ _ _ _ _ _ _ _ hb
    unfold Sys_selectMain at hsel
    simp only [hmain, hb, Option.bind_eq_bind, Option.some_bind] at hsel
    simp only [SYS_MAIN_CLK_PLLOUT, SYS_MAIN_CLK_PLLIN, SYS_MAIN_CLK_IRC,
      show ¬ ((3 : Nat) = 0) by decide, show ¬ ((3 : Nat) = 1) by decide, if_false,
      if_true] at hsel
    have hp := Prod.mk.inj (Option.some.inj hsel)
    refine ⟨h1, hp.1.symm, ?_⟩
    rw [← hp.2, heq]
    rfl

/-- The `case SYS_MAIN_CLK_WDTOSC` branch, with a non-zero stored divider. -/
theorem Sys_selectMain_wdtosc (fuel : Nat) (hw : Hw) (cfg : Config) (l : Locals) (s : State)
    (hmain : cfg.MAIN_CLK_SEL &&& SYS_MAIN_CLK_SEL = SYS_MAIN_CLK_WDTOSC)
    (hdiv : s.Wdt_div ≠ 0) :
    Sys_selectMain fuel hw cfg l s =
      some ({ l with irc := false }, { s with Sys_mainClk := s.Wdt_freq / s.Wdt_div }) := by
  unfold Sys_selectMain
  simp [hmain, Wdt_getOscClk, hdiv, SYS_MAIN_CLK_WDTOSC, SYS_MAIN_CLK_PLLOUT,
    SYS_MAIN_CLK_PLLIN, SYS_MAIN_CLK_IRC]

/-- The `switch` returns for every selector when the stored watchdog divider
is non-zero and the PLL locks whenever it is the selected source. -/
theorem Sys_selectMain_some (fuel : Nat) (hw : Hw) (cfg : Config) (l : Locals) (s : State)
    (hdiv : s.Wdt_div ≠ 0)
    (hlock : cfg.MAIN_CLK_SEL &&& SYS_MAIN_CLK_SEL = SYS_MAIN_CLK_PLLOUT →
      Acks hw.SYSPLLSTAT SYS_PLL_STAT SYS_PLL_LOCKED fuel) :
    ∃ l' s', Sys_selectMain fuel hw cfg l s = some (l', s') := by
  have hlt := mainSel_lt cfg
  have hcases : cfg.MAIN_CLK_SEL &&& SYS_MAIN_CLK_SEL = SYS_MAIN_CLK_IRC ∨
      cfg.MAIN_CLK_SEL &&& SYS_MAIN_CLK_SEL = SYS_MAIN_CLK_PLLIN ∨
      cfg.MAIN_CLK_SEL &&& SYS_MAIN_CLK_SEL = SYS_MAIN_CLK_WDTOSC ∨
      cfg.MAIN_CLK_SEL &&& SYS_MAIN_CLK_SEL = SYS_MAIN_CLK_PLLOUT := by
    unfold SYS_MAIN_CLK_IRC SYS_MAIN_CLK_PLLIN SYS_MAIN_CLK_WDTOSC SYS_MAIN_CLK_PLLOUT
    omega
  rcases hcases with h | h | h | h
  · exact ⟨_, _, Sys_selectMain_irc fuel hw cfg l s h⟩
  · exact ⟨_, _, Sys_selectMain_pllin fuel hw cfg l s h⟩
  · exact ⟨_, _, Sys_selectMain_wdtosc fuel hw cfg l s h hdiv⟩
  · exact ⟨_, _, Sys_selectMain_pllout fuel hw cfg l s h (hlock h)⟩

/-- `Sys_iniLpc810` returns for every legal watchdog oscillator setting and
non-zero divider when the hardware completes the waits; the result is
described in terms of the state `s3` the `switch` leaves. -/
theorem Sys_iniLpc810_some (fuel : Nat) (hw : Hw) (cfg : Config) (st : State)
    (hwdt : ValidWdtOsc cfg) (hhw : HwResponds fuel hw cfg)
    (hdiv : wrap32 cfg.SYS_CLK_DIV ≠ 0) :
    ∃ sw l s3 st', Wdt_ini cfg st = some sw ∧ sw.Wdt_div = cfg.WWDT_DIV ∧
      Sys_selectMain fuel hw cfg (Sys_selectPllIn cfg sw).1 (Sys_switchEntry fuel hw cfg sw)
        = some (l, s3) ∧
      Sys_iniLpc810 fuel hw cfg st = some st' ∧
      st'.Sys_mainClk = s3.Sys_mainClk ∧
      st'.SystemCoreClock = s3.Sys_mainClk / wrap32 cfg.SYS_CLK_DIV ∧
      st'.regs Reg.SYSAHBCLKDIV = wrap32 cfg.SYS_CLK_DIV ∧
      st'.trace = s3.trace ++
        [Event.write Reg.MAINCLKSEL (wrap32 cfg.MAIN_CLK_SEL),
         Event.write Reg.MAINCLKUEN (wrap32 SYS_MAIN_CLK_UPDATE)] ++
        pollEvents Reg.MAINCLKUEN hw.MAINCLKUEN 0
          (pollCount hw.MAINCLKUEN SYS_MAIN_CLK_UPDATE SYS_MAIN_CLK_UPDATE fuel 0) ++
        (if cfg.IRC_PDWON ≠ 0 ∧ (!l.irc) = true then
          [Event.write Reg.PDRUNCFG
            (wrap32 (s3.regs Reg.PDRUNCFG ||| (SYS_IRCOUT_PD ||| SYS_IRC_PD)))]
         else []) ++
        [Event.write Reg.SYSAHBCLKDIV (wrap32 cfg.SYS_CLK_DIV)] := by
  obtain ⟨sw, f, _, hsw, _, hswd⟩ := Wdt_ini_some cfg st hwdt
  obtain ⟨h1, h3, hlock⟩ := hhw
  have hd : (Sys_switchEntry fuel hw cfg sw).Wdt_div ≠ 0 := by
    rw [Sys_switchEntry_Wdt_div, Sys_selectPllIn_Wdt_div, hswd]
    have := hwdt.2.1
    omega
  obtain ⟨l, s3, hsel⟩ := Sys_selectMain_some fuel hw cfg _ _ hd hlock
  obtain ⟨st', hp, hm, hc, hr, ht⟩ :=
    Sys_publish_some cfg l (Sys_publishEntry fuel hw cfg s3) hdiv
  refine ⟨sw, l, s3, st', hsw, hswd, hsel, ?_, hm, hc, hr, ?_⟩
  · rw [Sys_iniLpc810_of_parts fuel hw cfg st sw s3 l hsw h1 h3 hsel, hp]
  · rw [ht, Sys_publishEntry_trace]
    have hregs : (Sys_publishEntry fuel hw cfg s3).regs Reg.PDRUNCFG
        = s3.regs Reg.PDRUNCFG := by
      simp [Sys_updateMain, State.write]
    rw [hregs]

/-- C7: for every configuration that selects the internal oscillator as main
clock with system clock divider 1 (any PLL input source, any multiplier, any
legal watchdog setting), `Sys_iniLpc810` returns when the hardware completes
its waits, and afterwards `Sys_getMainClk` and `Sys_getSysClk` both return
`IRC_HZ` = 12000000. -/
theorem C7_irc_clock (fuel : Nat) (hw : Hw) (cfg : Config) (st : State)
    (hmain : cfg.MAIN_CLK_SEL &&& SYS_MAIN_CLK_SEL = SYS_MAIN_CLK_IRC)
    (hdiv : cfg.SYS_CLK_DIV = 1)
    (hwdt : ValidWdtOsc cfg) (hhw : HwResponds fuel hw cfg) :
    ∃ st', Sys_iniLpc810 fuel hw cfg st = some st' ∧
      Sys_getMainClk st' = IRC_HZ ∧ Sys_getSysClk st' = IRC_HZ ∧ IRC_HZ = 12000000 := by
  have hd : wrap32 cfg.SYS_CLK_DIV ≠ 0 := by rw [hdiv]; decide
  obtain ⟨sw, l, s3, st', _, _, hsel, hini, hm, hc, _⟩ :=
    Sys_iniLpc810_some fuel hw cfg st hwdt hhw hd
  rw [Sys_selectMain_irc fuel hw cfg _ _ hmain] at hsel
  have hs3 : s3.Sys_mainClk = IRC_HZ := by
    have := (Prod.mk.inj (Option.some.inj hsel)).2
    rw [← this]
  refine ⟨st', hini, ?_, ?_, rfl⟩
  · show st'.Sys_mainClk = IRC_HZ
    rw [hm, hs3]
  · show st'.SystemCoreClock = IRC_HZ
    rw [hc, hs3, hdiv]
    decide

theorem C7_irc_clock_witness :
    ∃ st', Sys_iniLpc810 3 hwSlow coreConfig resetZero = some st' ∧
      Sys_getMainClk st' = IRC_HZ ∧ Sys_getSysClk st' = IRC_HZ ∧ IRC_HZ = 12000000 :=
  C7_irc_clock 3 hwSlow coreConfig resetZero (by decide) (by decide) (by decide) (by decide)

/-! ## Write traces of the phases -/

@[simp] theorem writesTo_nil (r : Reg) : writesTo r [] = [] := rfl

@[simp] theorem writesTo_append (r : Reg) (a b : List Event) :
    writesTo r (a ++ b) = writesTo r a ++ writesTo r b := by
  unfold writesTo
  rw [List.filterMap_append]

@[simp] theorem writesTo_cons_write (r r' : Reg) (v : Nat) (t : List Event) :
    writesTo r (Event.write r' v :: t) =
      if r' = r then v :: writesTo r t else writesTo r t := by
  unfold writesTo
  by_cases h : r' = r <;> simp [List.filterMap_cons, h]

@[simp] theorem writesTo_cons_nvic (r : Reg) (t : List Event) :
    writesTo r (Event.nvicEnableWdtIrq :: t) = writesTo r t := by
  unfold writesTo
  simp [List.filterMap_cons]

@[simp] theorem writesTo_cons_poll (r r' : Reg) (v : Nat) (t : List Event) :
    writesTo r (Event.poll r' v :: t) = writesTo r t := by
  unfold writesTo
  simp [List.filterMap_cons]

@[simp] theorem writesTo_pollEvents (r r' : Reg) (read : Nat → Nat) (i n : Nat) :
    writesTo r (pollEvents r' read i n) = [] := by
  induction n generalizing i with
  | zero => rfl
  | succ n ih => rw [pollEvents_succ, writesTo_cons_poll, ih]

@[simp] theorem pollsIn_nil : pollsIn [] = [] := rfl

@[simp] theorem pollsIn_append (a b : List Event) :
    pollsIn (a ++ b) = pollsIn a ++ pollsIn b := by
  unfold pollsIn
  rw [List.filterMap_append]

@[simp] theorem pollsIn_cons_write (r : Reg) (v : Nat) (t : List Event) :
    pollsIn (Event.write r v :: t) = pollsIn t := by
  unfold pollsIn
  simp [List.filterMap_cons]

@[simp] theorem pollsIn_cons_nvic (t : List Event) :
    pollsIn (Event.nvicEnableWdtIrq :: t) = pollsIn t := by
  unfold pollsIn
  simp [List.filterMap_cons]

@[simp] theorem pollsIn_cons_poll (r : Reg) (v : Nat) (t : List Event) :
    pollsIn (Event.poll r v :: t) = (r, v) :: pollsIn t := by
  unfold pollsIn
  simp [List.filterMap_cons]

theorem pollsIn_pollEvents (r : Reg) (read : Nat → Nat) (i n : Nat) :
    pollsIn (pollEvents r read i n) = (List.range n).map fun k => (r, read (i + k)) := by
  induction n generalizing i with
  | zero => rfl
  | succ n ih =>
    rw [pollEvents_succ, pollsIn_cons_poll, ih, List.range_succ_eq_map, List.map_cons,
      List.map_map]
    refine congrArg₂ _ rfl (List.map_congr_left ?_)
    intro k _
    show (r, read (i + 1 + k)) = (r, read (i + (k + 1)))
    rw [Nat.add_right_comm, Nat.add_assoc]

/-- The ten trace entries of `Wdt_ini`. -/
theorem Wdt_ini_trace (cfg : Config) (st sw : State) (hwdt : ValidWdtOsc cfg)
    (hsw : Wdt_ini cfg st = some sw) :
    ∃ ctrl tc win warn, sw.trace = st.trace ++
      [Event.write Reg.WDTOSCCTRL ctrl,
       Event.write Reg.PDRUNCFG (wrap32 (st.regs Reg.PDRUNCFG &&& not32 SYS_WDTOSC_PD)),
       Event.write Reg.SYSAHBCLKCTRL (wrap32 (st.regs Reg.SYSAHBCLKCTRL ||| SYS_AHB_CLK_WWDT)),
       Event.write Reg.TC tc,
       Event.write Reg.WINDOW win,
       Event.nvicEnableWdtIrq,
       Event.write Reg.MOD (wrap32 cfg.WWDT_MODE),
       Event.write Reg.FEED 0xAA,
       Event.write Reg.FEED 0x55,
       Event.write Reg.WARNINT warn] := by
  obtain ⟨hs, hd2, hd64⟩ := hwdt
  obtain ⟨f, hf⟩ := freqsel_some hs
  rw [Wdt_ini_eq cfg st f hf (by omega) hd64] at hsw
  rw [← Option.some.inj hsw]
  refine ⟨wrap32 (wrap32 (cfg.WWDT_FREQ <<< 5) ||| wrap32 (cfg.WWDT_DIV + 4294967296 - 2) / 2),
    wrap32 (min (f * wrap32 cfg.WWDT_TIM_OUT / (cfg.WWDT_DIV * 4 * 1000)) WWDT_CNT_MAX),
    wrap32 (min (f * toU32 ((cfg.WWDT_TIM_OUT : Int) - (cfg.WWDT_TIM_GUARD : Int))
      / (cfg.WWDT_DIV * 4 * 1000)) WWDT_WINDOW_MAX),
    wrap32 (min (f * wrap32 cfg.WWDT_TIM_WARN / (cfg.WWDT_DIV * 4 * 1000)) WWDT_WARN_MAX), ?_⟩
  simp only [Wdt_clr, State.setBits, State.clearBits, State.nvicEnable, write_trace,
    List.append_assoc, List.singleton_append, List.cons_append, List.nil_append]
  rfl

/-- The trace entries of the PLL input selection. -/
theorem Sys_selectPllIn_trace (cfg : Config) (s : State) :
    (Sys_selectPllIn cfg s).2.trace = s.trace ++
      [Event.write Reg.SYSAHBCLKCTRL
        (wrap32 (s.regs Reg.SYSAHBCLKCTRL ||| (SYS_AHB_CLK_SWM ||| SYS_AHB_CLK_IOCON)))] ++
      (if cfg.SYS_PLL_CLK &&& SYS_PLL_CLK_SEL = SYS_PLL_CLK_CLKIN then
        [Event.write Reg.PIO0_1 (wrap32 (s.regs Reg.PIO0_1 &&& not32 IOCON_MODE)),
         Event.write Reg.PINENABLE0 (wrap32 (s.regs Reg.PINENABLE0 &&& not32 SWM_CLKIN_DIS))]
       else []) ++
      [Event.write Reg.SYSPLLCLKSEL (wrap32 cfg.SYS_PLL_CLK),
       Event.write Reg.SYSPLLCLKUEN (wrap32 SYS_PLL_CLK_UPDATE)] := by
  unfold Sys_selectPllIn
  by_cases h : cfg.SYS_PLL_CLK &&& SYS_PLL_CLK_SEL = SYS_PLL_CLK_CLKIN
  · simp only [h, if_true, nopDelay_eq, State.setBits, State.clearBits, write_trace,
      List.append_assoc, List.singleton_append, List.cons_append, List.nil_append]
    rfl
  · simp only [h, if_false, State.setBits, write_trace,
      List.append_assoc, List.singleton_append, List.cons_append, List.nil_append,
      List.append_nil]

/-- The trace entries of the `switch`: two writes and the reads of the lock
wait on the PLL output branch, none on the other branches. -/
theorem Sys_selectMain_trace (fuel : Nat) (hw : Hw) (cfg : Config) (l l' : Locals)
    (s s3 : State) (hsel : Sys_selectMain fuel hw cfg l s = some (l', s3)) :
    s3.trace = s.trace ++
      (if cfg.MAIN_CLK_SEL &&& SYS_MAIN_CLK_SEL = SYS_MAIN_CLK_PLLOUT then
        [Event.write Reg.SYSPLLCTRL (wrap32 (toU32 ((cfg.SYS_PLL_RATE : Int) - 1))),
         Event.write Reg.PDRUNCFG (wrap32 (s.regs Reg.PDRUNCFG &&& not32 SYS_SYSPLL_PD))] ++
        pollEvents Reg.SYSPLLSTAT hw.SYSPLLSTAT 0
          (pollCount hw.SYSPLLSTAT SYS_PLL_STAT SYS_PLL_LOCKED fuel 0)
       else []) := by
  have hlt := mainSel_lt cfg
  have hcases : cfg.MAIN_CLK_SEL &&& SYS_MAIN_CLK_SEL = SYS_MAIN_CLK_IRC ∨
      cfg.MAIN_CLK_SEL &&& SYS_MAIN_CLK_SEL = SYS_MAIN_CLK_PLLIN ∨
      cfg.MAIN_CLK_SEL &&& SYS_MAIN_CLK_SEL = SYS_MAIN_CLK_WDTOSC ∨
      cfg.MAIN_CLK_SEL &&& SYS_MAIN_CLK_SEL = SYS_MAIN_CLK_PLLOUT := by
    unfold SYS_MAIN_CLK_IRC SYS_MAIN_CLK_PLLIN SYS_MAIN_CLK_WDTOSC SYS_MAIN_CLK_PLLOUT
    omega
  rcases hcases with h | h | h | h
  · rw [Sys_selectMain_irc fuel hw cfg l s h] at hsel
    rw [← (Prod.mk.inj (Option.some.inj hsel)).2, h]
    simp [SYS_MAIN_CLK_IRC, SYS_MAIN_CLK_PLLOUT]
  · rw [Sys_selectMain_pllin fuel hw cfg l s h] at hsel
    rw [← (Prod.mk.inj (Option.some.inj hsel)).2, h]
    simp [SYS_MAIN_CLK_PLLIN, SYS_MAIN_CLK_PLLOUT]
  · by_cases hd : s.Wdt_div = 0
    · unfold Sys_selectMain at hsel
      simp [h, hd, SYS_MAIN_CLK_WDTOSC, SYS_MAIN_CLK_PLLOUT, SYS_MAIN_CLK_PLLIN,
        SYS_MAIN_CLK_IRC, Wdt_getOscClk] at hsel
    · rw [Sys_selectMain_wdtosc fuel hw cfg l s h hd] at hsel
      rw [← (Prod.mk.inj (Option.some.inj hsel)).2, h]
      simp [SYS_MAIN_CLK_WDTOSC, SYS_MAIN_CLK_PLLOUT]
  · rw [(Sys_selectMain_pllout_inv fuel hw cfg l l' s s3 h hsel).2.2, if_pos h]
    simp [State.clearBits, State.write, List.append_assoc]

/-- The complete trace of `Sys_iniLpc810`: the ten entries of `Wdt_ini`, then
the PLL input selection and the reads of its wait, the `switch` with the reads
of the lock wait, the main clock selection and the reads of its wait, the
optional power-down and the divider. -/
theorem Sys_iniLpc810_trace (fuel : Nat) (hw : Hw) (cfg : Config) (st : State)
    (hwdt : ValidWdtOsc cfg) (hhw : HwResponds fuel hw cfg)
    (hdiv : wrap32 cfg.SYS_CLK_DIV ≠ 0) :
    ∃ sw l s3 st' ctrl tc win warn, Wdt_ini cfg st = some sw ∧
      Sys_selectMain fuel hw cfg (Sys_selectPllIn cfg sw).1 (Sys_switchEntry fuel hw cfg sw)
        = some (l, s3) ∧
      Sys_iniLpc810 fuel hw cfg st = some st' ∧
      st'.Sys_mainClk = s3.Sys_mainClk ∧
      st'.SystemCoreClock = s3.Sys_mainClk / wrap32 cfg.SYS_CLK_DIV ∧
      st'.regs Reg.SYSAHBCLKDIV = wrap32 cfg.SYS_CLK_DIV ∧
      st'.trace = st.trace ++
        [Event.write Reg.WDTOSCCTRL ctrl,
         Event.write Reg.PDRUNCFG (wrap32 (st.regs Reg.PDRUNCFG &&& not32 SYS_WDTOSC_PD)),
         Event.write Reg.SYSAHBCLKCTRL
           (wrap32 (st.regs Reg.SYSAHBCLKCTRL ||| SYS_AHB_CLK_WWDT)),
         Event.write Reg.TC tc,
         Event.write Reg.WINDOW win,
         Event.nvicEnableWdtIrq,
         Event.write Reg.MOD (wrap32 cfg.WWDT_MODE),
         Event.write Reg.FEED 0xAA,
         Event.write Reg.FEED 0x55,
         Event.write Reg.WARNINT warn] ++
        [Event.write Reg.SYSAHBCLKCTRL
          (wrap32 (sw.regs Reg.SYSAHBCLKCTRL ||| (SYS_AHB_CLK_SWM ||| SYS_AHB_CLK_IOCON)))] ++
        (if cfg.SYS_PLL_CLK &&& SYS_PLL_CLK_SEL = SYS_PLL_CLK_CLKIN then
          [Event.write Reg.PIO0_1 (wrap32 (sw.regs Reg.PIO0_1 &&& not32 IOCON_MODE)),
           Event.write Reg.PINENABLE0
             (wrap32 (sw.regs Reg.PINENABLE0 &&& not32 SWM_CLKIN_DIS))]
         else []) ++
        [Event.write Reg.SYSPLLCLKSEL (wrap32 cfg.SYS_PLL_CLK),
         Event.write Reg.SYSPLLCLKUEN (wrap32 SYS_PLL_CLK_UPDATE)] ++
        pollEvents Reg.SYSPLLCLKUEN hw.SYSPLLCLKUEN 0
          (pollCount hw.SYSPLLCLKUEN SYS_PLL_CLK_UPDATE SYS_PLL_CLK_UPDATE fuel 0) ++
        (if cfg.MAIN_CLK_SEL &&& SYS_MAIN_CLK_SEL = SYS_MAIN_CLK_PLLOUT then
          [Event.write Reg.SYSPLLCTRL (wrap32 (toU32 ((cfg.SYS_PLL_RATE : Int) - 1))),
           Event.write Reg.PDRUNCFG
             (wrap32 ((Sys_selectPllIn cfg sw).2.regs Reg.PDRUNCFG &&& not32 SYS_SYSPLL_PD))] ++
          pollEvents Reg.SYSPLLSTAT hw.SYSPLLSTAT 0
            (pollCount hw.SYSPLLSTAT SYS_PLL_STAT SYS_PLL_LOCKED fuel 0)
         else []) ++
        [Event.write Reg.MAINCLKSEL (wrap32 cfg.MAIN_CLK_SEL),
         Event.write Reg.MAINCLKUEN (wrap32 SYS_MAIN_CLK_UPDATE)] ++
        pollEvents Reg.MAINCLKUEN hw.MAINCLKUEN 0
          (pollCount hw.MAINCLKUEN SYS_MAIN_CLK_UPDATE SYS_MAIN_CLK_UPDATE fuel 0) ++
        (if cfg.IRC_PDWON ≠ 0 ∧ (!l.irc) = true then
          [Event.write Reg.PDRUNCFG
            (wrap32 (s3.regs Reg.PDRUNCFG ||| (SYS_IRCOUT_PD ||| SYS_IRC_PD)))]
         else []) ++
        [Event.write Reg.SYSAHBCLKDIV (wrap32 cfg.SYS_CLK_DIV)] := by
  obtain ⟨sw, l, s3, st', hsw, _, hsel, hini, hm, hc, hr, ht⟩ :=
    Sys_iniLpc810_some fuel hw cfg st hwdt hhw hdiv
  obtain ⟨ctrl, tc, win, warn, hwt⟩ := Wdt_ini_trace cfg st sw hwdt hsw
  refine ⟨sw, l, s3, st', ctrl, tc, win, warn, hsw, hsel, hini, hm, hc, hr, ?_⟩
  rw [ht, Sys_selectMain_trace fuel hw cfg _ l _ s3 hsel, Sys_switchEntry_trace,
    Sys_switchEntry_regs, Sys_selectPllIn_trace, hwt]

/-- What `Sys_iniLpc810` publishes and what it writes to the clock selection
registers, for every main clock source. -/
theorem Sys_iniLpc810_clockWrites (fuel : Nat) (hw : Hw) (cfg : Config) (st : State)
    (hwdt : ValidWdtOsc cfg) (hhw : HwResponds fuel hw cfg)
    (hdiv : wrap32 cfg.SYS_CLK_DIV ≠ 0) :
    ∃ sw l s3 st', Wdt_ini cfg st = some sw ∧
      Sys_selectMain fuel hw cfg (Sys_selectPllIn cfg sw).1 (Sys_switchEntry fuel hw cfg sw)
        = some (l, s3) ∧
      Sys_iniLpc810 fuel hw cfg st = some st' ∧
      st'.Sys_mainClk = s3.Sys_mainClk ∧
      st'.SystemCoreClock = s3.Sys_mainClk / wrap32 cfg.SYS_CLK_DIV ∧
      st'.regs Reg.SYSAHBCLKDIV = wrap32 cfg.SYS_CLK_DIV ∧
      writesTo Reg.SYSPLLCLKSEL st'.trace =
        writesTo Reg.SYSPLLCLKSEL st.trace ++ [wrap32 cfg.SYS_PLL_CLK] ∧
      writesTo Reg.SYSPLLCTRL st'.trace = writesTo Reg.SYSPLLCTRL st.trace ++
        (if cfg.MAIN_CLK_SEL &&& SYS_MAIN_CLK_SEL = SYS_MAIN_CLK_PLLOUT then
          [wrap32 (toU32 ((cfg.SYS_PLL_RATE : Int) - 1))] else []) ∧
      writesTo Reg.MAINCLKSEL st'.trace =
        writesTo Reg.MAINCLKSEL st.trace ++ [wrap32 cfg.MAIN_CLK_SEL] ∧
      writesTo Reg.SYSAHBCLKDIV st'.trace =
        writesTo Reg.SYSAHBCLKDIV st.trace ++ [wrap32 cfg.SYS_CLK_DIV] := by
  obtain ⟨sw, l, s3, st', ctrl, tc, win, warn, hsw, hsel, hini, hm, hc, hr, ht⟩ :=
    Sys_iniLpc810_trace fuel hw cfg st hwdt hhw hdiv
  refine ⟨sw, l, s3, st', hsw, hsel, hini, hm, hc, hr, ?_, ?_, ?_, ?_⟩ <;>
  · rw [ht]
    split_ifs <;> simp

theorem toU32_pred {n : Nat} (h1 : 1 ≤ n) (h : n ≤ 4294967296) :
    toU32 ((n : Int) - 1) = n - 1 := by
  unfold toU32
  omega

/-- The PLL output branch of `Sys_iniLpc810` for a multiplier of at most 32:
the published main clock is the unwrapped product, and the clock selection
registers are written whatever that product is. -/
theorem Sys_iniLpc810_pllout (fuel : Nat) (hw : Hw) (cfg : Config) (st : State)
    (hmain : cfg.MAIN_CLK_SEL &&& SYS_MAIN_CLK_SEL = SYS_MAIN_CLK_PLLOUT)
    (hm1 : 1 ≤ cfg.SYS_PLL_RATE) (hm32 : cfg.SYS_PLL_RATE ≤ 32)
    (hwdt : ValidWdtOsc cfg) (hhw : HwResponds fuel hw cfg)
    (hdiv : wrap32 cfg.SYS_CLK_DIV ≠ 0) :
    ∃ st', Sys_iniLpc810 fuel hw cfg st = some st' ∧
      st'.Sys_mainClk =
        (if cfg.SYS_PLL_CLK &&& SYS_PLL_CLK_SEL = SYS_PLL_CLK_CLKIN then CLKIN_HZ
         else IRC_HZ) * cfg.SYS_PLL_RATE ∧
      st'.SystemCoreClock = st'.Sys_mainClk / wrap32 cfg.SYS_CLK_DIV ∧
      writesTo Reg.SYSPLLCLKSEL st'.trace =
        writesTo Reg.SYSPLLCLKSEL st.trace ++ [wrap32 cfg.SYS_PLL_CLK] ∧
      writesTo Reg.SYSPLLCTRL st'.trace =
        writesTo Reg.SYSPLLCTRL st.trace ++ [cfg.SYS_PLL_RATE - 1] ∧
      writesTo Reg.MAINCLKSEL st'.trace =
        writesTo Reg.MAINCLKSEL st.trace ++ [wrap32 cfg.MAIN_CLK_SEL] ∧
      writesTo Reg.SYSAHBCLKDIV st'.trace =
        writesTo Reg.SYSAHBCLKDIV st.trace ++ [wrap32 cfg.SYS_CLK_DIV] := by
  obtain ⟨sw, l, s3, st', _, hsel, hini, hm, hc, _, hw1, hw2, hw3, hw4⟩ :=
    Sys_iniLpc810_clockWrites fuel hw cfg st hwdt hhw hdiv
  rw [Sys_selectMain_pllout fuel hw cfg _ _ hmain (hhw.2.2 hmain)] at hsel
  have hs3 : s3.Sys_mainClk =
      (if cfg.SYS_PLL_CLK &&& SYS_PLL_CLK_SEL = SYS_PLL_CLK_CLKIN then CLKIN_HZ
       else IRC_HZ) * cfg.SYS_PLL_RATE := by
    rw [← (Prod.mk.inj (Option.some.inj hsel)).2]
    show wrap32 ((Sys_selectPllIn cfg sw).1.pllsrc * wrap32 cfg.SYS_PLL_RATE) = _
    rw [Sys_selectPllIn_pllsrc, wrap32_of_lt (show cfg.SYS_PLL_RATE < 4294967296 by omega)]
    apply wrap32_of_lt
    split <;> simp only [CLKIN_HZ, IRC_HZ] <;> omega
  refine ⟨st', hini, by rw [hm, hs3], by rw [hc, hm], hw1, ?_, hw3, hw4⟩
  rw [hw2, if_pos hmain, toU32_pred hm1 (by omega), wrap32_of_lt (by omega)]

/-- C8: for every configuration that selects the PLL output as main clock
with multiplier `m` in 1..32 (divider in 1..255, legal watchdog setting),
`Sys_iniLpc810` returns when the hardware completes its waits, and afterwards
`Sys_getMainClk` is the PLL input frequency times `m` over the naturals,
where the PLL input frequency is `CLKIN_HZ` if the PLL input selector is
CLKIN and `IRC_HZ` otherwise; with `m = 2` over the internal oscillator and
divider 1, `Sys_getSysClk` is `2 * IRC_HZ` = 24000000. -/
theorem C8_pllout_clock (fuel : Nat) (hw : Hw) (cfg : Config) (st : State)
    (hmain : cfg.MAIN_CLK_SEL &&& SYS_MAIN_CLK_SEL = SYS_MAIN_CLK_PLLOUT)
    (hm1 : 1 ≤ cfg.SYS_PLL_RATE) (hm32 : cfg.SYS_PLL_RATE ≤ 32)
    (hd1 : 1 ≤ cfg.SYS_CLK_DIV) (hd255 : cfg.SYS_CLK_DIV ≤ 255)
    (hwdt : ValidWdtOsc cfg) (hhw : HwResponds fuel hw cfg) :
    ∃ st', Sys_iniLpc810 fuel hw cfg st = some st' ∧
      Sys_getMainClk st' =
        (if cfg.SYS_PLL_CLK &&& SYS_PLL_CLK_SEL = SYS_PLL_CLK_CLKIN then CLKIN_HZ
         else IRC_HZ) * cfg.SYS_PLL_RATE ∧
      (cfg.SYS_PLL_CLK &&& SYS_PLL_CLK_SEL ≠ SYS_PLL_CLK_CLKIN → cfg.SYS_PLL_RATE = 2 →
        cfg.SYS_CLK_DIV = 1 → Sys_getSysClk st' = 2 * IRC_HZ ∧ 2 * IRC_HZ = 24000000) := by
  have hdw : wrap32 cfg.SYS_CLK_DIV = cfg.SYS_CLK_DIV := wrap32_of_lt (by omega)
  obtain ⟨st', hini, hm, hc, _⟩ :=
    Sys_iniLpc810_pllout fuel hw cfg st hmain hm1 hm32 hwdt hhw (by rw [hdw]; omega)
  refine ⟨st', hini, hm, ?_⟩
  intro hirc h2 hdiv
  refine ⟨?_, by decide⟩
  show st'.SystemCoreClock = 2 * IRC_HZ
  rw [hc, hm, if_neg hirc, hdw, hdiv, h2, Nat.div_one, Nat.mul_comm]

theorem C8_pllout_clock_witness :
    ∃ st', Sys_iniLpc810 3 hwSlow pll2Config resetZero = some st' ∧
      Sys_getMainClk st' =
        (if pll2Config.SYS_PLL_CLK &&& SYS_PLL_CLK_SEL = SYS_PLL_CLK_CLKIN then CLKIN_HZ
         else IRC_HZ) * pll2Config.SYS_PLL_RATE ∧
      (pll2Config.SYS_PLL_CLK &&& SYS_PLL_CLK_SEL ≠ SYS_PLL_CLK_CLKIN →
        pll2Config.SYS_PLL_RATE = 2 → pll2Config.SYS_CLK_DIV = 1 →
        Sys_getSysClk st' = 2 * IRC_HZ ∧ 2 * IRC_HZ = 24000000) :=
  C8_pllout_clock 3 hwSlow pll2Config resetZero (by decide) (by decide) (by decide)
    (by decide) (by decide) (by decide) (by decide)

/-- C9 as stated fails: with the PLL output over the 12 MHz internal
oscillator and multiplier 3 the resulting main clock is 36 MHz, above the
rated 30 MHz, yet `Sys_iniLpc810` returns normally and has written the clock
registers SYSPLLCLKSEL, SYSPLLCTRL (value 2), MAINCLKSEL and SYSAHBCLKDIV. -/
theorem C9_no_rejection_counterexample :
    ∃ st', Sys_iniLpc810 3 hwSlow pll3Config resetZero = some st' ∧
      Sys_getMainClk st' = 36000000 ∧ 30000000 < Sys_getMainClk st' ∧
      writesTo Reg.SYSPLLCLKSEL st'.trace = [0] ∧
      writesTo Reg.SYSPLLCTRL st'.trace = [2] ∧
      writesTo Reg.MAINCLKSEL st'.trace = [3] ∧
      writesTo Reg.SYSAHBCLKDIV st'.trace = [1] := by
  obtain ⟨st', hini, hm, _, hw1, hw2, hw3, hw4⟩ :=
    Sys_iniLpc810_pllout 3 hwSlow pll3Config resetZero (by decide) (by decide) (by decide)
      (by decide) (by decide) (by decide)
  have hmc : Sys_getMainClk st' = 36000000 := by
    show st'.Sys_mainClk = 36000000
    rw [hm]
    decide
  refine ⟨st', hini, hmc, by rw [hmc]; decide, ?_, ?_, ?_, ?_⟩
  · rw [hw1]; decide
  · rw [hw2]; decide
  · rw [hw3]; decide
  · rw [hw4]; decide

/-- C9 amended: `Sys_iniLpc810` has no range check. For every configuration
with the PLL output as main clock and multiplier in 1..32 whose resulting main
clock exceeds 30 MHz, it returns when the hardware completes its waits, having
written SYSPLLCLKSEL, SYSPLLCTRL (multiplier - 1), MAINCLKSEL and
SYSAHBCLKDIV, and it publishes the main clock above 30 MHz unchanged. -/
theorem C9_overclock_is_programmed (fuel : Nat) (hw : Hw) (cfg : Config) (st : State)
    (hmain : cfg.MAIN_CLK_SEL &&& SYS_MAIN_CLK_SEL = SYS_MAIN_CLK_PLLOUT)
    (hm1 : 1 ≤ cfg.SYS_PLL_RATE) (hm32 : cfg.SYS_PLL_RATE ≤ 32)
    (hover : 30000000 <
      (if cfg.SYS_PLL_CLK &&& SYS_PLL_CLK_SEL = SYS_PLL_CLK_CLKIN then CLKIN_HZ
       else IRC_HZ) * cfg.SYS_PLL_RATE)
    (hd1 : 1 ≤ cfg.SYS_CLK_DIV) (hd255 : cfg.SYS_CLK_DIV ≤ 255)
    (hwdt : ValidWdtOsc cfg) (hhw : HwResponds fuel hw cfg) :
    ∃ st', Sys_iniLpc810 fuel hw cfg st = some st' ∧
      Sys_getMainClk st' =
        (if cfg.SYS_PLL_CLK &&& SYS_PLL_CLK_SEL = SYS_PLL_CLK_CLKIN then CLKIN_HZ
         else IRC_HZ) * cfg.SYS_PLL_RATE ∧
      30000000 < Sys_getMainClk st' ∧
      writesTo Reg.SYSPLLCLKSEL st'.trace =
        writesTo Reg.SYSPLLCLKSEL st.trace ++ [wrap32 cfg.SYS_PLL_CLK] ∧
      writesTo Reg.SYSPLLCTRL st'.trace =
        writesTo Reg.SYSPLLCTRL st.trace ++ [cfg.SYS_PLL_RATE - 1] ∧
      writesTo Reg.MAINCLKSEL st'.trace =
        writesTo Reg.MAINCLKSEL st.trace ++ [wrap32 cfg.MAIN_CLK_SEL] ∧
      writesTo Reg.SYSAHBCLKDIV st'.trace =
        writesTo Reg.SYSAHBCLKDIV st.trace ++ [cfg.SYS_CLK_DIV] := by
  have hdw : wrap32 cfg.SYS_CLK_DIV = cfg.SYS_CLK_DIV := wrap32_of_lt (by omega)
  obtain ⟨st', hini, hm, _, hw1, hw2, hw3, hw4⟩ :=
    Sys_iniLpc810_pllout fuel hw cfg st hmain hm1 hm32 hwdt hhw (by rw [hdw]; omega)
  refine ⟨st', hini, hm, ?_, hw1, hw2, hw3, by rw [hw4, hdw]⟩
  show 30000000 < st'.Sys_mainClk
  rw [hm]
  exact hover

theorem C9_overclock_is_programmed_witness :
    ∃ st', Sys_iniLpc810 3 hwSlow pll3Config resetZero = some st' ∧
      Sys_getMainClk st' =
        (if pll3Config.SYS_PLL_CLK &&& SYS_PLL_CLK_SEL = SYS_PLL_CLK_CLKIN then CLKIN_HZ
         else IRC_HZ) * pll3Config.SYS_PLL_RATE ∧
      30000000 < Sys_getMainClk st' ∧
      writesTo Reg.SYSPLLCLKSEL st'.trace =
        writesTo Reg.SYSPLLCLKSEL resetZero.trace ++ [wrap32 pll3Config.SYS_PLL_CLK] ∧
      writesTo Reg.SYSPLLCTRL st'.trace =
        writesTo Reg.SYSPLLCTRL resetZero.trace ++ [pll3Config.SYS_PLL_RATE - 1] ∧
      writesTo Reg.MAINCLKSEL st'.trace =
        writesTo Reg.MAINCLKSEL resetZero.trace ++ [wrap32 pll3Config.MAIN_CLK_SEL] ∧
      writesTo Reg.SYSAHBCLKDIV st'.trace =
        writesTo Reg.SYSAHBCLKDIV resetZero.trace ++ [pll3Config.SYS_CLK_DIV] :=
  C9_overclock_is_programmed 3 hwSlow pll3Config resetZero (by decide) (by decide)
    (by decide) (by decide) (by decide) (by decide) (by decide) (by decide)

/-- C10: for every clock configuration with divider in 1..255 and every
main clock source (legal watchdog setting), `Sys_iniLpc810` returns when the
hardware completes its waits, and afterwards `Sys_getSysClk` equals
`Sys_getMainClk / SYS_CLK_DIV` (truncating) and the one value written to
SYSAHBCLKDIV is that divider. -/
theorem C10_sysclk_is_main_over_div (fuel : Nat) (hw : Hw) (cfg : Config) (st : State)
    (hd1 : 1 ≤ cfg.SYS_CLK_DIV) (hd255 : cfg.SYS_CLK_DIV ≤ 255)
    (hwdt : ValidWdtOsc cfg) (hhw : HwResponds fuel hw cfg) :
    ∃ st', Sys_iniLpc810 fuel hw cfg st = some st' ∧
      Sys_getSysClk st' = Sys_getMainClk st' / cfg.SYS_CLK_DIV ∧
      st'.regs Reg.SYSAHBCLKDIV = cfg.SYS_CLK_DIV ∧
      writesTo Reg.SYSAHBCLKDIV st'.trace =
        writesTo Reg.SYSAHBCLKDIV st.trace ++ [cfg.SYS_CLK_DIV] := by
  have hdw : wrap32 cfg.SYS_CLK_DIV = cfg.SYS_CLK_DIV := wrap32_of_lt (by omega)
  obtain ⟨_, _, s3, st', _, _, hini, hm, hc, hr, _, _, _, hw4⟩ :=
    Sys_iniLpc810_clockWrites fuel hw cfg st hwdt hhw (by rw [hdw]; omega)
  refine ⟨st', hini, ?_, by rw [hr, hdw], by rw [hw4, hdw]⟩
  show st'.SystemCoreClock = st'.Sys_mainClk / cfg.SYS_CLK_DIV
  rw [hc, hm, hdw]

theorem C10_sysclk_is_main_over_div_witness :
    ∃ st', Sys_iniLpc810 3 hwSlow wdtMainConfig resetZero = some st' ∧
      Sys_getSysClk st' = Sys_getMainClk st' / wdtMainConfig.SYS_CLK_DIV ∧
      st'.regs Reg.SYSAHBCLKDIV = wdtMainConfig.SYS_CLK_DIV ∧
      writesTo Reg.SYSAHBCLKDIV st'.trace =
        writesTo Reg.SYSAHBCLKDIV resetZero.trace ++ [wdtMainConfig.SYS_CLK_DIV] :=
  C10_sysclk_is_main_over_div 3 hwSlow wdtMainConfig resetZero (by decide) (by decide)
    (by decide) (by decide)

/-! ## Watchdog runtime service -/

/-- C14: `Wdt_clr` appends exactly two trace entries, the writes of 0xAA and
then 0x55 to FEED; afterwards FEED holds 0x55, every other register and all
statics are unchanged; two calls in a row give the writes 0xAA, 0x55, 0xAA,
0x55. -/
theorem C14_Wdt_clr_feed_sequence (s : State) :
    (Wdt_clr s).trace = s.trace ++ [Event.write Reg.FEED 0xAA, Event.write Reg.FEED 0x55] ∧
    (∀ r, (Wdt_clr s).regs r = if r = Reg.FEED then 0x55 else s.regs r) ∧
    (Wdt_clr s).Wdt_freq = s.Wdt_freq ∧ (Wdt_clr s).Wdt_div = s.Wdt_div ∧
    (Wdt_clr s).Sys_mainClk = s.Sys_mainClk ∧
    (Wdt_clr s).SystemCoreClock = s.SystemCoreClock ∧
    (Wdt_clr (Wdt_clr s)).trace = s.trace ++
      [Event.write Reg.FEED 0xAA, Event.write Reg.FEED 0x55,
       Event.write Reg.FEED 0xAA, Event.write Reg.FEED 0x55] ∧
    writesTo Reg.FEED (Wdt_clr (Wdt_clr s)).trace =
      writesTo Reg.FEED s.trace ++ [0xAA, 0x55, 0xAA, 0x55] := by
  have ht : (Wdt_clr s).trace =
      s.trace ++ [Event.write Reg.FEED 0xAA, Event.write Reg.FEED 0x55] := by
    simp only [Wdt_clr, write_trace, List.append_assoc, List.singleton_append]
    rfl
  have ht2 : (Wdt_clr (Wdt_clr s)).trace = s.trace ++
      [Event.write Reg.FEED 0xAA, Event.write Reg.FEED 0x55,
       Event.write Reg.FEED 0xAA, Event.write Reg.FEED 0x55] := by
    simp only [Wdt_clr, write_trace, List.append_assoc, List.singleton_append,
      List.cons_append, List.nil_append]
    rfl
  refine ⟨ht, ?_, rfl, rfl, rfl, rfl, ht2, ?_⟩
  · intro r
    by_cases h : r = Reg.FEED
    · rw [if_pos h, h]
      rfl
    · rw [if_neg h]
      simp [Wdt_clr, State.write, h]
  · rw [ht2]
    simp

/-- C15: in the trace of `Wdt_ini`, for every legal watchdog oscillator
setting and any timing and mode, the appended entries are, in this order:
WDTOSCCTRL, PDRUNCFG, SYSAHBCLKCTRL, TC, WINDOW, the interrupt enable, MOD,
FEED 0xAA, FEED 0x55, WARNINT. So TC and WINDOW precede MOD, MOD precedes the
feed, the feed precedes WARNINT, and WARNINT is the last entry. -/
theorem C15_Wdt_ini_order (cfg : Config) (st : State) (hwdt : ValidWdtOsc cfg) :
    ∃ sw ctrl pd ahb tc win warn, Wdt_ini cfg st = some sw ∧
      sw.trace = st.trace ++
        [Event.write Reg.WDTOSCCTRL ctrl,
         Event.write Reg.PDRUNCFG pd,
         Event.write Reg.SYSAHBCLKCTRL ahb,
         Event.write Reg.TC tc,
         Event.write Reg.WINDOW win,
         Event.nvicEnableWdtIrq,
         Event.write Reg.MOD (wrap32 cfg.WWDT_MODE),
         Event.write Reg.FEED 0xAA,
         Event.write Reg.FEED 0x55,
         Event.write Reg.WARNINT warn] ∧
      sw.trace.getLast? = some (Event.write Reg.WARNINT warn) := by
  obtain ⟨sw, _, _, hsw, _, _⟩ := Wdt_ini_some cfg st hwdt
  obtain ⟨ctrl, tc, win, warn, ht⟩ := Wdt_ini_trace cfg st sw hwdt hsw
  refine ⟨sw, ctrl, _, _, tc, win, warn, hsw, ht, ?_⟩
  rw [ht, List.getLast?_append]
  rfl

theorem C15_Wdt_ini_order_witness :
    ∃ sw ctrl pd ahb tc win warn, Wdt_ini fastWdtConfig resetZero = some sw ∧
      sw.trace = resetZero.trace ++
        [Event.write Reg.WDTOSCCTRL ctrl,
         Event.write Reg.PDRUNCFG pd,
         Event.write Reg.SYSAHBCLKCTRL ahb,
         Event.write Reg.TC tc,
         Event.write Reg.WINDOW win,
         Event.nvicEnableWdtIrq,
         Event.write Reg.MOD (wrap32 fastWdtConfig.WWDT_MODE),
         Event.write Reg.FEED 0xAA,
         Event.write Reg.FEED 0x55,
         Event.write Reg.WARNINT warn] ∧
      sw.trace.getLast? = some (Event.write Reg.WARNINT warn) :=
  C15_Wdt_ini_order fastWdtConfig resetZero (by decide)

theorem or_lt_u32 {x y : Nat} (hx : x < 4294967296) (hy : y < 4294967296) :
    x ||| y < 4294967296 := by
  have h : (4294967296 : Nat) = 2 ^ 32 := by norm_num
  rw [h] at hx hy ⊢
  exact Nat.or_lt_two_pow hx hy

theorem and_not32_lt (x m : Nat) : x &&& not32 m < 4294967296 := by
  have h1 : x &&& not32 m ≤ not32 m := Nat.and_le_right
  have h2 : not32 m ≤ 4294967295 := Nat.sub_le _ _
  omega

/-- C17: `WDT_IRQHandler` runs the hook first, then writes `MOD | WWDT_WDINT`
to MOD, then writes that value with the `WWDT_WDTOF` bit cleared; these two
writes are all it adds to the trace the hook leaves. With the no-op hook
`Wdt_procWarn` and a 32-bit initial MOD value `m`, the final MOD value is
`(m | 0x8) & ~0x4`, no other register changes and the statics are unchanged. -/
theorem C17_WDT_IRQHandler_clear_order (hook : State → State) (s : State)
    (hm : s.regs Reg.MOD < 4294967296) :
    (WDT_IRQHandler hook s).trace = (hook s).trace ++
      [Event.write Reg.MOD (wrap32 ((hook s).regs Reg.MOD ||| WWDT_WDINT)),
       Event.write Reg.MOD
         (wrap32 (wrap32 ((hook s).regs Reg.MOD ||| WWDT_WDINT) &&& not32 WWDT_WDTOF))] ∧
    (WDT_IRQHandler Wdt_procWarn s).trace = s.trace ++
      [Event.write Reg.MOD (s.regs Reg.MOD ||| 0x8),
       Event.write Reg.MOD ((s.regs Reg.MOD ||| 0x8) &&& 0xFFFFFFFB)] ∧
    (∀ r, (WDT_IRQHandler Wdt_procWarn s).regs r =
      if r = Reg.MOD then (s.regs Reg.MOD ||| 0x8) &&& 0xFFFFFFFB else s.regs r) ∧
    (WDT_IRQHandler Wdt_procWarn s).Wdt_freq = s.Wdt_freq ∧
    (WDT_IRQHandler Wdt_procWarn s).Wdt_div = s.Wdt_div ∧
    (WDT_IRQHandler Wdt_procWarn s).Sys_mainClk = s.Sys_mainClk ∧
    (WDT_IRQHandler Wdt_procWarn s).SystemCoreClock = s.SystemCoreClock := by
  have hnot : not32 WWDT_WDTOF = 0xFFFFFFFB := by decide
  have h1 : wrap32 (s.regs Reg.MOD ||| 0x8) = s.regs Reg.MOD ||| 0x8 :=
    wrap32_of_lt (or_lt_u32 hm (by norm_num))
  have h2 : wrap32 ((s.regs Reg.MOD ||| 0x8) &&& 0xFFFFFFFB)
      = (s.regs Reg.MOD ||| 0x8) &&& 0xFFFFFFFB := by
    rw [← hnot]
    exact wrap32_of_lt (and_not32_lt _ _)
  have hgen : ∀ h : State → State, (WDT_IRQHandler h s).trace = (h s).trace ++
      [Event.write Reg.MOD (wrap32 ((h s).regs Reg.MOD ||| WWDT_WDINT)),
       Event.write Reg.MOD
         (wrap32 (wrap32 ((h s).regs Reg.MOD ||| WWDT_WDINT) &&& not32 WWDT_WDTOF))] := by
    intro h
    simp only [WDT_IRQHandler, State.clearBits, State.setBits, write_trace, write_regs_same,
      List.append_assoc, List.singleton_append]
  refine ⟨hgen hook, ?_, ?_, rfl, rfl, rfl, rfl⟩
  · rw [hgen Wdt_procWarn]
    show s.trace ++ [Event.write Reg.MOD (wrap32 (s.regs Reg.MOD ||| 0x8)),
      Event.write Reg.MOD (wrap32 (wrap32 (s.regs Reg.MOD ||| 0x8) &&& not32 WWDT_WDTOF))] = _
    rw [h1, hnot, h2]
  · intro r
    by_cases h : r = Reg.MOD
    · rw [if_pos h, h]
      show wrap32 (wrap32 (s.regs Reg.MOD ||| 0x8) &&& not32 WWDT_WDTOF) = _
      rw [h1, hnot, h2]
    · rw [if_neg h]
      simp [WDT_IRQHandler, Wdt_procWarn, State.clearBits, State.setBits, State.write, h]

theorem C17_WDT_IRQHandler_clear_order_witness :
    (WDT_IRQHandler Wdt_clr modExpired).trace = (Wdt_clr modExpired).trace ++
      [Event.write Reg.MOD (wrap32 ((Wdt_clr modExpired).regs Reg.MOD ||| WWDT_WDINT)),
       Event.write Reg.MOD
         (wrap32 (wrap32 ((Wdt_clr modExpired).regs Reg.MOD ||| WWDT_WDINT)
           &&& not32 WWDT_WDTOF))] ∧
    (WDT_IRQHandler Wdt_procWarn modExpired).trace = modExpired.trace ++
      [Event.write Reg.MOD (modExpired.regs Reg.MOD ||| 0x8),
       Event.write Reg.MOD ((modExpired.regs Reg.MOD ||| 0x8) &&& 0xFFFFFFFB)] ∧
    (∀ r, (WDT_IRQHandler Wdt_procWarn modExpired).regs r =
      if r = Reg.MOD then (modExpired.regs Reg.MOD ||| 0x8) &&& 0xFFFFFFFB
      else modExpired.regs r) ∧
    (WDT_IRQHandler Wdt_procWarn modExpired).Wdt_freq = modExpired.Wdt_freq ∧
    (WDT_IRQHandler Wdt_procWarn modExpired).Wdt_div = modExpired.Wdt_div ∧
    (WDT_IRQHandler Wdt_procWarn modExpired).Sys_mainClk = modExpired.Sys_mainClk ∧
    (WDT_IRQHandler Wdt_procWarn modExpired).SystemCoreClock = modExpired.SystemCoreClock :=
  C17_WDT_IRQHandler_clear_order Wdt_clr modExpired (by decide)

/-! ## Documented ranges of the watchdog times -/

/-- Every enabled table entry (selector 1..15) is at least 600 kHz. -/
theorem freqsel_ge {i f : Nat} (h1 : 1 ≤ i) (h : freqsel[i]? = some f) : 600000 ≤ f := by
  have hi : i < 16 := by
    by_contra hc
    have : freqsel[i]? = none := List.getElem?_eq_none (by simp [freqsel]; omega)
    simp [this] at h
  interval_cases i <;> simp [freqsel] at h <;> omega

/-- C18: for every watchdog oscillator setting with selector in 1..15 and
divider in 2..64 (even or not) and every timeout of 200..29000 ms, the value
`Wdt_getMs (timeout, 0xFFFFFF)` that `Wdt_ini` writes to TC is not clamped:
it is `f * ms / (d * 4000)` and lies in 0xFF..0xFFFFFF. -/
theorem C18_timeout_not_clamped (cfg : Config) (st : State)
    (hs1 : 1 ≤ cfg.WWDT_FREQ) (hs15 : cfg.WWDT_FREQ ≤ 15)
    (hd2 : 2 ≤ cfg.WWDT_DIV) (hd64 : cfg.WWDT_DIV ≤ 64)
    (hms200 : 200 ≤ cfg.WWDT_TIM_OUT) (hms29000 : cfg.WWDT_TIM_OUT ≤ 29000) :
    ∃ f sw, freqsel[cfg.WWDT_FREQ]? = some f ∧ Wdt_ini cfg st = some sw ∧
      Wdt_getMs cfg.WWDT_TIM_OUT 0xFFFFFF sw
        = some (f * cfg.WWDT_TIM_OUT / (cfg.WWDT_DIV * 4000)) ∧
      writesTo Reg.TC sw.trace =
        writesTo Reg.TC st.trace ++ [f * cfg.WWDT_TIM_OUT / (cfg.WWDT_DIV * 4000)] ∧
      0xFF ≤ f * cfg.WWDT_TIM_OUT / (cfg.WWDT_DIV * 4000) ∧
      f * cfg.WWDT_TIM_OUT / (cfg.WWDT_DIV * 4000) ≤ 0xFFFFFF := by
  obtain ⟨f, hf⟩ := freqsel_some hs15
  have hfl := freqsel_ge hs1 hf
  have hfu := freqsel_le hf
  have hlo : 0xFF ≤ f * cfg.WWDT_TIM_OUT / (cfg.WWDT_DIV * 4000) := by
    rw [Nat.le_div_iff_mul_le (by omega)]
    calc 0xFF * (cfg.WWDT_DIV * 4000) ≤ 600000 * 200 := by omega
      _ ≤ f * cfg.WWDT_TIM_OUT := Nat.mul_le_mul hfl hms200
  have hhi : f * cfg.WWDT_TIM_OUT / (cfg.WWDT_DIV * 4000) ≤ 0xFFFFFF := by
    calc f * cfg.WWDT_TIM_OUT / (cfg.WWDT_DIV * 4000)
        ≤ 4600000 * 29000 / (cfg.WWDT_DIV * 4000) :=
          Nat.div_le_div_right (Nat.mul_le_mul hfu hms29000)
      _ ≤ 4600000 * 29000 / 8000 := Nat.div_le_div_left (by omega) (by norm_num)
      _ ≤ 0xFFFFFF := by norm_num
  have hmul : cfg.WWDT_DIV * 4 * 1000 = cfg.WWDT_DIV * 4000 := by omega
  have hsw := Wdt_ini_eq cfg st f hf (by omega) hd64
  have hg : Wdt_getMs cfg.WWDT_TIM_OUT 0xFFFFFF
      ({ st with Wdt_freq := f, Wdt_div := cfg.WWDT_DIV } : State)
      = some (f * cfg.WWDT_TIM_OUT / (cfg.WWDT_DIV * 4000)) := by
    rw [Wdt_getMs_eq _ _ _ hfu (by show 1 ≤ cfg.WWDT_DIV; omega) hd64 (by omega)
      (by norm_num)]
    show some (min (f * cfg.WWDT_TIM_OUT / (cfg.WWDT_DIV * 4 * 1000)) 0xFFFFFF) = _
    rw [hmul, Nat.min_eq_left hhi]
  refine ⟨f, _, hf, hsw, ?_, ?_, hlo, hhi⟩
  · simp only [Wdt_getMs_write, Wdt_getMs_setBits, Wdt_getMs_clearBits,
      Wdt_getMs_nvicEnable, Wdt_getMs_Wdt_clr]
    exact hg
  · have hw : wrap32 cfg.WWDT_TIM_OUT = cfg.WWDT_TIM_OUT := wrap32_of_lt (by omega)
    simp only [Wdt_clr, State.setBits, State.clearBits, State.nvicEnable, write_trace,
      List.append_assoc, List.singleton_append, writesTo_append, writesTo_cons_write,
      writesTo_cons_nvic, writesTo_nil]
    simp only [hw, hmul, WWDT_CNT_MAX, Nat.min_eq_left hhi,
      wrap32_of_lt (show f * cfg.WWDT_TIM_OUT / (cfg.WWDT_DIV * 4000) < 4294967296 by omega)]
    simp

theorem C18_timeout_not_clamped_witness :
    ∃ f sw, freqsel[fastWdtConfig.WWDT_FREQ]? = some f ∧
      Wdt_ini fastWdtConfig resetZero = some sw ∧
      Wdt_getMs fastWdtConfig.WWDT_TIM_OUT 0xFFFFFF sw
        = some (f * fastWdtConfig.WWDT_TIM_OUT / (fastWdtConfig.WWDT_DIV * 4000)) ∧
      writesTo Reg.TC sw.trace = writesTo Reg.TC resetZero.trace ++
        [f * fastWdtConfig.WWDT_TIM_OUT / (fastWdtConfig.WWDT_DIV * 4000)] ∧
      0xFF ≤ f * fastWdtConfig.WWDT_TIM_OUT / (fastWdtConfig.WWDT_DIV * 4000) ∧
      f * fastWdtConfig.WWDT_TIM_OUT / (fastWdtConfig.WWDT_DIV * 4000) ≤ 0xFFFFFF :=
  C18_timeout_not_clamped fastWdtConfig resetZero (by decide) (by decide) (by decide)
    (by decide) (by decide) (by decide)

/-- C19: at the slowest oscillator setting (600 kHz, divider 64) every warning
time of 0..400 ms gives the unclamped value `600000 * ms / 256000`, which is
at most 0x3FF; at the fastest setting (4.6 MHz, divider 2) 1 ms gives the
unclamped value 575 and every 32-bit time of 2 ms or more is clamped to
0x3FF. -/
theorem C19_warning_limits (st : State) (ms1 ms2 : Nat)
    (h1 : ms1 ≤ 400) (h2 : 2 ≤ ms2) (h3 : ms2 < 4294967296) :
    (∃ ctrl st', Wdt_calcOscCtrl 1 64 st = some (ctrl, st') ∧
      Wdt_getMs ms1 0x3FF st' = some (600000 * ms1 / 256000) ∧
      600000 * ms1 / 256000 ≤ 0x3FF) ∧
    (∃ ctrl st', Wdt_calcOscCtrl 15 2 st = some (ctrl, st') ∧
      Wdt_getMs 1 0x3FF st' = some 575 ∧ 575 ≤ 0x3FF ∧
      Wdt_getMs ms2 0x3FF st' = some 0x3FF ∧ 0x3FF < 4600000 * ms2 / 8000) := by
  have hslow : 600000 * ms1 / 256000 ≤ 0x3FF := by omega
  have hfast : 0x3FF < 4600000 * ms2 / 8000 := by omega
  refine ⟨⟨_, _, Wdt_calcOscCtrl_eq 1 64 600000 st (by decide), ?_, hslow⟩,
    ⟨_, _, Wdt_calcOscCtrl_eq 15 2 4600000 st (by decide), ?_, by norm_num, ?_, hfast⟩⟩
  · rw [Wdt_getMs_eq _ _ _ (by show 600000 ≤ 4600000; norm_num) (by show 1 ≤ 64; norm_num)
      (by show 64 ≤ 64; norm_num) (by omega) (by norm_num)]
    show some (min (600000 * ms1 / (64 * 4 * 1000)) 0x3FF) = _
    rw [show 64 * 4 * 1000 = 256000 by norm_num, Nat.min_eq_left hslow]
  · rw [Wdt_getMs_eq _ _ _ (by show 4600000 ≤ 4600000; norm_num) (by show 1 ≤ 2; norm_num)
      (by show 2 ≤ 64; norm_num) (by norm_num) (by norm_num)]
    show some (min (4600000 * 1 / (2 * 4 * 1000)) 0x3FF) = _
    norm_num
  · rw [Wdt_getMs_eq _ _ _ (by show 4600000 ≤ 4600000; norm_num) (by show 1 ≤ 2; norm_num)
      (by show 2 ≤ 64; norm_num) h3 (by norm_num)]
    show some (min (4600000 * ms2 / (2 * 4 * 1000)) 0x3FF) = _
    rw [show 2 * 4 * 1000 = 8000 by norm_num, Nat.min_eq_right (Nat.le_of_lt hfast)]

theorem C19_warning_limits_witness :
    (∃ ctrl st', Wdt_calcOscCtrl 1 64 resetZero = some (ctrl, st') ∧
      Wdt_getMs 400 0x3FF st' = some (600000 * 400 / 256000) ∧
      600000 * 400 / 256000 ≤ 0x3FF) ∧
    (∃ ctrl st', Wdt_calcOscCtrl 15 2 resetZero = some (ctrl, st') ∧
      Wdt_getMs 1 0x3FF st' = some 575 ∧ 575 ≤ 0x3FF ∧
      Wdt_getMs 2 0x3FF st' = some 0x3FF ∧ 0x3FF < 4600000 * 2 / 8000) :=
  C19_warning_limits resetZero 400 2 (by decide) (by decide) (by decide)

/-! ## Clock selection engine: sources, power-down and ordering -/

/-- The last phase in closed form. -/
theorem Sys_publish_eq (cfg : Config) (l : Locals) (s : State)
    (hdiv : wrap32 cfg.SYS_CLK_DIV ≠ 0) :
    Sys_publish cfg l s = some
      { ((if cfg.IRC_PDWON ≠ 0 ∧ (!l.irc) = true then
            s.setBits Reg.PDRUNCFG (SYS_IRCOUT_PD ||| SYS_IRC_PD)
          else s).write Reg.SYSAHBCLKDIV cfg.SYS_CLK_DIV) with
        SystemCoreClock :=
          ((if cfg.IRC_PDWON ≠ 0 ∧ (!l.irc) = true then
              s.setBits Reg.PDRUNCFG (SYS_IRCOUT_PD ||| SYS_IRC_PD)
            else s).write Reg.SYSAHBCLKDIV cfg.SYS_CLK_DIV).Sys_mainClk
            / wrap32 cfg.SYS_CLK_DIV } := by
  unfold Sys_publish
  simp only [hdiv, if_false]

/-- The last phase keeps the statics of the watchdog library. -/
theorem Sys_publish_Wdt (cfg : Config) (l : Locals) (s st' : State)
    (h : Sys_publish cfg l s = some st') :
    st'.Wdt_freq = s.Wdt_freq ∧ st'.Wdt_div = s.Wdt_div := by
  by_cases hdiv : wrap32 cfg.SYS_CLK_DIV = 0
  · unfold Sys_publish at h
    simp [hdiv] at h
  · rw [Sys_publish_eq cfg l s hdiv] at h
    rw [← Option.some.inj h]
    constructor <;> dsimp only <;> split <;> rfl

/-- What the `switch` returns, by selector. -/
theorem Sys_selectMain_cases (fuel : Nat) (hw : Hw) (cfg : Config) (l l' : Locals)
    (s s3 : State) (hsel : Sys_selectMain fuel hw cfg l s = some (l', s3)) :
    (cfg.MAIN_CLK_SEL &&& SYS_MAIN_CLK_SEL = SYS_MAIN_CLK_IRC ∧ l' = l ∧
      s3 = { s with Sys_mainClk := IRC_HZ }) ∨
    (cfg.MAIN_CLK_SEL &&& SYS_MAIN_CLK_SEL = SYS_MAIN_CLK_PLLIN ∧
      l' = (if !l.pllirc then { l with irc := false } else l) ∧
      s3 = { s with Sys_mainClk := l.pllsrc }) ∨
    (cfg.MAIN_CLK_SEL &&& SYS_MAIN_CLK_SEL = SYS_MAIN_CLK_WDTOSC ∧ s.Wdt_div ≠ 0 ∧
      l' = { l with irc := false } ∧
      s3 = { s with Sys_mainClk := s.Wdt_freq / s.Wdt_div }) ∨
    (cfg.MAIN_CLK_SEL &&& SYS_MAIN_CLK_SEL = SYS_MAIN_CLK_PLLOUT ∧
      l' = (if !l.pllirc then { l with irc := false } else l) ∧
      s3 = { (((s.write Reg.SYSPLLCTRL (toU32 ((cfg.SYS_PLL_RATE : Int) - 1))).clearBits
                Reg.PDRUNCFG SYS_SYSPLL_PD).polled Reg.SYSPLLSTAT hw.SYSPLLSTAT
                (pollCount hw.SYSPLLSTAT SYS_PLL_STAT SYS_PLL_LOCKED fuel 0)) with
              Sys_mainClk := wrap32 (l.pllsrc * wrap32 cfg.SYS_PLL_RATE) }) := by
  have hlt := mainSel_lt cfg
  have hcases : cfg.MAIN_CLK_SEL &&& SYS_MAIN_CLK_SEL = SYS_MAIN_CLK_IRC ∨
      cfg.MAIN_CLK_SEL &&& SYS_MAIN_CLK_SEL = SYS_MAIN_CLK_PLLIN ∨
      cfg.MAIN_CLK_SEL &&& SYS_MAIN_CLK_SEL = SYS_MAIN_CLK_WDTOSC ∨
      cfg.MAIN_CLK_SEL &&& SYS_MAIN_CLK_SEL = SYS_MAIN_CLK_PLLOUT := by
    unfold SYS_MAIN_CLK_IRC SYS_MAIN_CLK_PLLIN SYS_MAIN_CLK_WDTOSC SYS_MAIN_CLK_PLLOUT
    omega
  rcases hcases with h | h | h | h
  · rw [Sys_selectMain_irc fuel hw cfg l s h] at hsel
    have hp := Prod.mk.inj (Option.some.inj hsel)
    exact Or.inl ⟨h, hp.1.symm, hp.2.symm⟩
  · rw [Sys_selectMain_pllin fuel hw cfg l s h] at hsel
    have hp := Prod.mk.inj (Option.some.inj hsel)
    exact Or.inr (Or.inl ⟨h, hp.1.symm, hp.2.symm⟩)
  · by_cases hd : s.Wdt_div = 0
    · unfold Sys_selectMain at hsel
      simp [h, hd, SYS_MAIN_CLK_WDTOSC, SYS_MAIN_CLK_PLLOUT, SYS_MAIN_CLK_PLLIN,
        SYS_MAIN_CLK_IRC, Wdt_getOscClk] at hsel
    · rw [Sys_selectMain_wdtosc fuel hw cfg l s h hd] at hsel
      have hp := Prod.mk.inj (Option.some.inj hsel)
      exact Or.inr (Or.inr (Or.inl ⟨h, hd, hp.1.symm, hp.2.symm⟩))
  · obtain ⟨_, hl, hs⟩ := Sys_selectMain_pllout_inv fuel hw cfg l l' s s3 h hsel
    exact Or.inr (Or.inr (Or.inr ⟨h, hl, hs⟩))

/-- The locals after the PLL input selection. -/
theorem Sys_selectPllIn_locals (cfg : Config) (s : State) :
    (Sys_selectPllIn cfg s).1.irc = true ∧
    ((Sys_selectPllIn cfg s).1.pllirc = false ↔
      cfg.SYS_PLL_CLK &&& SYS_PLL_CLK_SEL = SYS_PLL_CLK_CLKIN) := by
  unfold Sys_selectPllIn
  by_cases h : cfg.SYS_PLL_CLK &&& SYS_PLL_CLK_SEL = SYS_PLL_CLK_CLKIN <;> simp [h]

/-- The PLL input selection leaves PDRUNCFG alone. -/
theorem Sys_selectPllIn_PDRUNCFG (cfg : Config) (s : State) :
    (Sys_selectPllIn cfg s).2.regs Reg.PDRUNCFG = s.regs Reg.PDRUNCFG := by
  unfold Sys_selectPllIn
  by_cases h : cfg.SYS_PLL_CLK &&& SYS_PLL_CLK_SEL = SYS_PLL_CLK_CLKIN <;>
    simp [h, State.setBits, State.clearBits, State.write]

/-- The `irc` flag the `switch` leaves is cleared exactly when the internal
oscillator is not required. -/
theorem Sys_selectMain_irc_flag (fuel : Nat) (hw : Hw) (cfg : Config) (sw s3 : State)
    (l : Locals)
    (hsel : Sys_selectMain fuel hw cfg (Sys_selectPllIn cfg sw).1 (Sys_switchEntry fuel hw cfg sw)
      = some (l, s3)) :
    (!l.irc) = true ↔ IrcNotRequired cfg := by
  obtain ⟨hirc, hpll⟩ := Sys_selectPllIn_locals cfg sw
  unfold IrcNotRequired
  rcases Sys_selectMain_cases fuel hw cfg _ l _ s3 hsel with
    ⟨h, hl, _⟩ | ⟨h, hl, _⟩ | ⟨h, _, hl, _⟩ | ⟨h, hl, _⟩
  · rw [hl, hirc, h]
    simp [SYS_MAIN_CLK_IRC, SYS_MAIN_CLK_WDTOSC, SYS_MAIN_CLK_PLLIN, SYS_MAIN_CLK_PLLOUT]
  · rw [hl, h]
    by_cases hc : cfg.SYS_PLL_CLK &&& SYS_PLL_CLK_SEL = SYS_PLL_CLK_CLKIN
    · simp [hpll.2 hc, hc, SYS_MAIN_CLK_WDTOSC, SYS_MAIN_CLK_PLLIN]
    · have hp : (Sys_selectPllIn cfg sw).1.pllirc = true := by
        cases hb : (Sys_selectPllIn cfg sw).1.pllirc with
        | true => rfl
        | false => exact absurd (hpll.1 hb) hc
      simp [hp, hirc, hc, SYS_MAIN_CLK_WDTOSC, SYS_MAIN_CLK_PLLIN]
  · rw [hl, h]
    simp
  · rw [hl, h]
    by_cases hc : cfg.SYS_PLL_CLK &&& SYS_PLL_CLK_SEL = SYS_PLL_CLK_CLKIN
    · simp [hpll.2 hc, hc, SYS_MAIN_CLK_WDTOSC, SYS_MAIN_CLK_PLLOUT]
    · have hp : (Sys_selectPllIn cfg sw).1.pllirc = true := by
        cases hb : (Sys_selectPllIn cfg sw).1.pllirc with
        | true => rfl
        | false => exact absurd (hpll.1 hb) hc
      simp [hp, hirc, hc, SYS_MAIN_CLK_WDTOSC, SYS_MAIN_CLK_PLLOUT]

/-- The published clocks of `Sys_iniLpc810` by main clock source, and the
statics of the watchdog library afterwards. -/
theorem Sys_iniLpc810_mainClk (fuel : Nat) (hw : Hw) (cfg : Config) (st : State)
    (hwdt : ValidWdtOsc cfg) (hhw : HwResponds fuel hw cfg)
    (hdiv : wrap32 cfg.SYS_CLK_DIV ≠ 0) :
    ∃ f st', freqsel[cfg.WWDT_FREQ]? = some f ∧
      Sys_iniLpc810 fuel hw cfg st = some st' ∧
      st'.SystemCoreClock = st'.Sys_mainClk / wrap32 cfg.SYS_CLK_DIV ∧
      st'.Wdt_freq = f ∧ st'.Wdt_div = cfg.WWDT_DIV ∧
      (cfg.MAIN_CLK_SEL &&& SYS_MAIN_CLK_SEL = SYS_MAIN_CLK_IRC →
        st'.Sys_mainClk = IRC_HZ) ∧
      (cfg.MAIN_CLK_SEL &&& SYS_MAIN_CLK_SEL = SYS_MAIN_CLK_PLLIN →
        st'.Sys_mainClk =
          if cfg.SYS_PLL_CLK &&& SYS_PLL_CLK_SEL = SYS_PLL_CLK_CLKIN then CLKIN_HZ
          else IRC_HZ) ∧
      (cfg.MAIN_CLK_SEL &&& SYS_MAIN_CLK_SEL = SYS_MAIN_CLK_WDTOSC →
        st'.Sys_mainClk = f / cfg.WWDT_DIV) ∧
      (cfg.MAIN_CLK_SEL &&& SYS_MAIN_CLK_SEL = SYS_MAIN_CLK_PLLOUT →
        st'.Sys_mainClk = wrap32
          ((if cfg.SYS_PLL_CLK &&& SYS_PLL_CLK_SEL = SYS_PLL_CLK_CLKIN then CLKIN_HZ
            else IRC_HZ) * wrap32 cfg.SYS_PLL_RATE)) := by
  obtain ⟨sw0, f, hf, hsw0, hfreq, hdv⟩ := Wdt_ini_some cfg st hwdt
  obtain ⟨sw, l, s3, st', hsw, _, hsel, hini, hm, hc, _, _⟩ :=
    Sys_iniLpc810_some fuel hw cfg st hwdt hhw hdiv
  have hsweq : sw0 = sw := Option.some.inj (hsw0.symm.trans hsw)
  rw [hsweq] at hfreq hdv
  have hpub : Sys_publish cfg l (Sys_publishEntry fuel hw cfg s3) = some st' := by
    rw [← Sys_iniLpc810_of_parts fuel hw cfg st sw s3 l hsw hhw.1 hhw.2.1 hsel]
    exact hini
  obtain ⟨hpf, hpd⟩ := Sys_publish_Wdt cfg l _ st' hpub
  have hsrc := Sys_selectPllIn_pllsrc cfg sw
  have hkeep : s3.Wdt_freq = sw.Wdt_freq ∧ s3.Wdt_div = sw.Wdt_div ∧
      (cfg.MAIN_CLK_SEL &&& SYS_MAIN_CLK_SEL = SYS_MAIN_CLK_IRC →
        s3.Sys_mainClk = IRC_HZ) ∧
      (cfg.MAIN_CLK_SEL &&& SYS_MAIN_CLK_SEL = SYS_MAIN_CLK_PLLIN →
        s3.Sys_mainClk = (Sys_selectPllIn cfg sw).1.pllsrc) ∧
      (cfg.MAIN_CLK_SEL &&& SYS_MAIN_CLK_SEL = SYS_MAIN_CLK_WDTOSC →
        s3.Sys_mainClk = sw.Wdt_freq / sw.Wdt_div) ∧
      (cfg.MAIN_CLK_SEL &&& SYS_MAIN_CLK_SEL = SYS_MAIN_CLK_PLLOUT →
        s3.Sys_mainClk =
          wrap32 ((Sys_selectPllIn cfg sw).1.pllsrc * wrap32 cfg.SYS_PLL_RATE)) := by
    have hF := Sys_selectPllIn_Wdt_freq cfg sw
    have hD := Sys_selectPllIn_Wdt_div cfg sw
    rcases Sys_selectMain_cases fuel hw cfg _ l _ s3 hsel with
      ⟨h, _, hs⟩ | ⟨h, _, hs⟩ | ⟨h, _, _, hs⟩ | ⟨h, _, hs⟩ <;>
    · rw [hs]
      refine ⟨hF, hD, ?_, ?_, ?_, ?_⟩ <;> intro h' <;> rw [h] at h' <;>
        first
        | exact absurd h' (by decide)
        | rfl
        | (show (Sys_selectPllIn cfg sw).2.Wdt_freq / (Sys_selectPllIn cfg sw).2.Wdt_div = _
           rw [hF, hD])
  obtain ⟨hkf, hkd, hk1, hk2, hk3, hk4⟩ := hkeep
  refine ⟨f, st', hf, hini, by rw [hc, hm], ?_, ?_, ?_, ?_, ?_, ?_⟩
  · rw [hpf]
    show s3.Wdt_freq = f
    rw [hkf, hfreq]
  · rw [hpd]
    show s3.Wdt_div = cfg.WWDT_DIV
    rw [hkd, hdv]
  · intro h
    rw [hm, hk1 h]
  · intro h
    rw [hm, hk2 h, hsrc]
  · intro h
    rw [hm, hk3 h, hfreq, hdv]
  · intro h
    rw [hm, hk4 h, hsrc]

/-- C11: for every configuration that selects the PLL input as main clock
(divider in 1..255, legal watchdog oscillator setting), `Sys_iniLpc810`
returns when the hardware completes its waits, and afterwards
`Sys_getMainClk` is `CLKIN_HZ` when the PLL input selector masked with 0x3 is
CLKIN and `IRC_HZ` otherwise. -/
theorem C11_pllin_clock (fuel : Nat) (hw : Hw) (cfg : Config) (st : State)
    (hmain : cfg.MAIN_CLK_SEL &&& SYS_MAIN_CLK_SEL = SYS_MAIN_CLK_PLLIN)
    (hd1 : 1 ≤ cfg.SYS_CLK_DIV) (hd255 : cfg.SYS_CLK_DIV ≤ 255)
    (hwdt : ValidWdtOsc cfg) (hhw : HwResponds fuel hw cfg) :
    ∃ st', Sys_iniLpc810 fuel hw cfg st = some st' ∧
      Sys_getMainClk st' =
        if cfg.SYS_PLL_CLK &&& 0x3 = SYS_PLL_CLK_CLKIN then CLKIN_HZ else IRC_HZ := by
  have hdw : wrap32 cfg.SYS_CLK_DIV = cfg.SYS_CLK_DIV := wrap32_of_lt (by omega)
  obtain ⟨_, st', _, hini, _, _, _, _, h2, _, _⟩ :=
    Sys_iniLpc810_mainClk fuel hw cfg st hwdt hhw (by rw [hdw]; omega)
  exact ⟨st', hini, h2 hmain⟩

theorem C11_pllin_clock_witness :
    ∃ st', Sys_iniLpc810 3 hwSlow clkinConfig resetZero = some st' ∧
      Sys_getMainClk st' =
        if clkinConfig.SYS_PLL_CLK &&& 0x3 = SYS_PLL_CLK_CLKIN then CLKIN_HZ else IRC_HZ :=
  C11_pllin_clock 3 hwSlow clkinConfig resetZero (by decide) (by decide) (by decide)
    (by decide) (by decide)

/-- C12: for every configuration that selects the watchdog oscillator as main
clock (any PLL input selector and multiplier, divider in 1..255, legal
watchdog oscillator setting), `Sys_iniLpc810` returns when the hardware
completes its waits, and afterwards `Sys_getMainClk` is
`freqsel[WWDT_FREQ] / WWDT_DIV`, the value `Wdt_getOscClk` returns. -/
theorem C12_wdtosc_clock (fuel : Nat) (hw : Hw) (cfg : Config) (st : State)
    (hmain : cfg.MAIN_CLK_SEL &&& SYS_MAIN_CLK_SEL = SYS_MAIN_CLK_WDTOSC)
    (hd1 : 1 ≤ cfg.SYS_CLK_DIV) (hd255 : cfg.SYS_CLK_DIV ≤ 255)
    (hwdt : ValidWdtOsc cfg) (hhw : HwResponds fuel hw cfg) :
    ∃ f st', freqsel[cfg.WWDT_FREQ]? = some f ∧
      Sys_iniLpc810 fuel hw cfg st = some st' ∧
      Sys_getMainClk st' = f / cfg.WWDT_DIV ∧
      Wdt_getOscClk st' = some (Sys_getMainClk st') := by
  have hdw : wrap32 cfg.SYS_CLK_DIV = cfg.SYS_CLK_DIV := wrap32_of_lt (by omega)
  obtain ⟨f, st', hf, hini, _, hfreq, hdv, _, _, h3, _⟩ :=
    Sys_iniLpc810_mainClk fuel hw cfg st hwdt hhw (by rw [hdw]; omega)
  refine ⟨f, st', hf, hini, h3 hmain, ?_⟩
  have hne : st'.Wdt_div ≠ 0 := by
    rw [hdv]
    have := hwdt.2.1
    omega
  unfold Wdt_getOscClk
  rw [if_neg hne, hfreq, hdv]
  show some (f / cfg.WWDT_DIV) = some st'.Sys_mainClk
  rw [h3 hmain]

theorem C12_wdtosc_clock_witness :
    ∃ f st', freqsel[wdtMainConfig.WWDT_FREQ]? = some f ∧
      Sys_iniLpc810 3 hwSlow wdtMainConfig resetZero = some st' ∧
      Sys_getMainClk st' = f / wdtMainConfig.WWDT_DIV ∧
      Wdt_getOscClk st' = some (Sys_getMainClk st') :=
  C12_wdtosc_clock 3 hwSlow wdtMainConfig resetZero (by decide) (by decide) (by decide)
    (by decide) (by decide)

/-- C20: for every clock configuration of `core.h` with system clock divider
in 2..255 (multiplier in 1..32, watchdog oscillator selector one of the
fifteen frequencies 1..15, watchdog divider in 2..64), `Sys_iniLpc810` returns
when the hardware completes its waits, and afterwards the main clock differs
from the system clock: the main clock is non-zero and the system clock is
`main / SYS_CLK_DIV`, which is strictly smaller. -/
theorem C20_main_differs_from_sys (fuel : Nat) (hw : Hw) (cfg : Config) (st : State)
    (hd2 : 2 ≤ cfg.SYS_CLK_DIV) (hd255 : cfg.SYS_CLK_DIV ≤ 255)
    (hm1 : 1 ≤ cfg.SYS_PLL_RATE) (hm32 : cfg.SYS_PLL_RATE ≤ 32)
    (hs1 : 1 ≤ cfg.WWDT_FREQ)
    (hwdt : ValidWdtOsc cfg) (hhw : HwResponds fuel hw cfg) :
    ∃ st', Sys_iniLpc810 fuel hw cfg st = some st' ∧
      Sys_getMainClk st' ≠ Sys_getSysClk st' ∧
      0 < Sys_getMainClk st' ∧
      Sys_getSysClk st' = Sys_getMainClk st' / cfg.SYS_CLK_DIV ∧
      Sys_getSysClk st' < Sys_getMainClk st' := by
  have hdw : wrap32 cfg.SYS_CLK_DIV = cfg.SYS_CLK_DIV := wrap32_of_lt (by omega)
  obtain ⟨f, st', hf, hini, hc, _, _, h1, h2, h3, h4⟩ :=
    Sys_iniLpc810_mainClk fuel hw cfg st hwdt hhw (by rw [hdw]; omega)
  rw [hdw] at hc
  have hsrcpos : 0 < (if cfg.SYS_PLL_CLK &&& SYS_PLL_CLK_SEL = SYS_PLL_CLK_CLKIN
      then CLKIN_HZ else IRC_HZ) := by
    split <;> decide
  have hpos : 0 < st'.Sys_mainClk := by
    have hlt := mainSel_lt cfg
    have hcases : cfg.MAIN_CLK_SEL &&& SYS_MAIN_CLK_SEL = SYS_MAIN_CLK_IRC ∨
        cfg.MAIN_CLK_SEL &&& SYS_MAIN_CLK_SEL = SYS_MAIN_CLK_PLLIN ∨
        cfg.MAIN_CLK_SEL &&& SYS_MAIN_CLK_SEL = SYS_MAIN_CLK_WDTOSC ∨
        cfg.MAIN_CLK_SEL &&& SYS_MAIN_CLK_SEL = SYS_MAIN_CLK_PLLOUT := by
      unfold SYS_MAIN_CLK_IRC SYS_MAIN_CLK_PLLIN SYS_MAIN_CLK_WDTOSC SYS_MAIN_CLK_PLLOUT
      omega
    rcases hcases with h | h | h | h
    · rw [h1 h]
      decide
    · rw [h2 h]
      exact hsrcpos
    · rw [h3 h]
      have hfl := freqsel_ge hs1 hf
      have hd64 := hwdt.2.2
      exact Nat.div_pos (by omega) (by have := hwdt.2.1; omega)
    · rw [h4 h, wrap32_of_lt (show cfg.SYS_PLL_RATE < 4294967296 by omega)]
      have hle : (if cfg.SYS_PLL_CLK &&& SYS_PLL_CLK_SEL = SYS_PLL_CLK_CLKIN
          then CLKIN_HZ else IRC_HZ) * cfg.SYS_PLL_RATE < 4294967296 := by
        split <;> simp only [CLKIN_HZ, IRC_HZ] <;> omega
      rw [wrap32_of_lt hle]
      exact Nat.mul_pos hsrcpos (by omega)
  have hlt : st'.SystemCoreClock < st'.Sys_mainClk := by
    rw [hc]
    exact Nat.div_lt_self hpos (by omega)
  exact ⟨st', hini, Nat.ne_of_gt hlt, hpos, hc, hlt⟩

theorem C20_main_differs_from_sys_witness :
    ∃ st', Sys_iniLpc810 3 hwSlow wdtMainConfig resetZero = some st' ∧
      Sys_getMainClk st' ≠ Sys_getSysClk st' ∧
      0 < Sys_getMainClk st' ∧
      Sys_getSysClk st' = Sys_getMainClk st' / wdtMainConfig.SYS_CLK_DIV ∧
      Sys_getSysClk st' < Sys_getMainClk st' :=
  C20_main_differs_from_sys 3 hwSlow wdtMainConfig resetZero (by decide) (by decide)
    (by decide) (by decide) (by decide) (by decide) (by decide)

/-- Clearing a mask that spares the two low bits leaves them as they were. -/
theorem and_not32_low (x m : Nat) (h : not32 m &&& 3 = 3) :
    wrap32 (x &&& not32 m) &&& 3 = x &&& 3 := by
  rw [wrap32_of_lt (and_not32_lt x m), Nat.and_assoc, h]

/-- Setting the two low bits of a 32-bit value. -/
theorem or3_low (x : Nat) (hx : x < 4294967296) : wrap32 (x ||| 3) &&& 3 = 3 := by
  rw [wrap32_of_lt (or_lt_u32 hx (by norm_num)), Nat.and_distrib_right]
  have h : x &&& 3 ≤ 3 := Nat.and_le_right
  generalize x &&& 3 = y at h
  interval_cases y <;> decide

/-- PDRUNCFG after `Wdt_ini`: the watchdog oscillator power-down bit cleared. -/
theorem Wdt_ini_PDRUNCFG (cfg : Config) (st sw : State) (hwdt : ValidWdtOsc cfg)
    (hsw : Wdt_ini cfg st = some sw) :
    sw.regs Reg.PDRUNCFG = wrap32 (st.regs Reg.PDRUNCFG &&& not32 SYS_WDTOSC_PD) := by
  obtain ⟨hs, hd2, hd64⟩ := hwdt
  obtain ⟨f, hf⟩ := freqsel_some hs
  rw [Wdt_ini_eq cfg st f hf (by omega) hd64] at hsw
  rw [← Option.some.inj hsw]
  simp [Wdt_clr, State.setBits, State.clearBits, State.nvicEnable, State.write]

/-- PDRUNCFG after the `switch`: the PLL power-down bit cleared on the PLL
output branch, untouched otherwise. -/
theorem Sys_selectMain_PDRUNCFG (fuel : Nat) (hw : Hw) (cfg : Config) (l l' : Locals)
    (s s3 : State) (hsel : Sys_selectMain fuel hw cfg l s = some (l', s3)) :
    s3.regs Reg.PDRUNCFG =
      if cfg.MAIN_CLK_SEL &&& SYS_MAIN_CLK_SEL = SYS_MAIN_CLK_PLLOUT then
        wrap32 (s.regs Reg.PDRUNCFG &&& not32 SYS_SYSPLL_PD)
      else s.regs Reg.PDRUNCFG := by
  rcases Sys_selectMain_cases fuel hw cfg l l' s s3 hsel with
    ⟨h, _, hs⟩ | ⟨h, _, hs⟩ | ⟨h, _, _, hs⟩ | ⟨h, _, hs⟩
  · rw [hs, h, if_neg (by decide)]
  · rw [hs, h, if_neg (by decide)]
  · rw [hs, h, if_neg (by decide)]
  · rw [hs, if_pos h]
    simp [State.clearBits, State.write]

/-- C13: `Sys_iniLpc810` executes `PDRUNCFG |= SYS_IRCOUT_PD | SYS_IRC_PD` if
and only if `IRC_PDWON` is non-zero and the internal oscillator is not
required (`IrcNotRequired`: main clock is the watchdog oscillator, or PLL
input or PLL output with the PLL fed from CLKIN). Here `x0` is PDRUNCFG after
`Wdt_ini` and `prev` is PDRUNCFG before the final step. When the step runs the
two bits are set in the final PDRUNCFG; when it does not, they are as in the
initial PDRUNCFG; with the internal oscillator as main clock it never runs. -/
theorem C13_irc_power_down (fuel : Nat) (hw : Hw) (cfg : Config) (st : State)
    (hd1 : 1 ≤ cfg.SYS_CLK_DIV) (hd255 : cfg.SYS_CLK_DIV ≤ 255)
    (hwdt : ValidWdtOsc cfg) (hhw : HwResponds fuel hw cfg) :
    ∃ st' x0 prev, Sys_iniLpc810 fuel hw cfg st = some st' ∧
      x0 = wrap32 (st.regs Reg.PDRUNCFG &&& not32 SYS_WDTOSC_PD) ∧
      prev = (if cfg.MAIN_CLK_SEL &&& SYS_MAIN_CLK_SEL = SYS_MAIN_CLK_PLLOUT then
                wrap32 (x0 &&& not32 SYS_SYSPLL_PD) else x0) ∧
      writesTo Reg.PDRUNCFG st'.trace = writesTo Reg.PDRUNCFG st.trace ++ [x0] ++
        (if cfg.MAIN_CLK_SEL &&& SYS_MAIN_CLK_SEL = SYS_MAIN_CLK_PLLOUT then
          [wrap32 (x0 &&& not32 SYS_SYSPLL_PD)] else []) ++
        (if cfg.IRC_PDWON ≠ 0 ∧ IrcNotRequired cfg then
          [wrap32 (prev ||| (SYS_IRCOUT_PD ||| SYS_IRC_PD))] else []) ∧
      st'.regs Reg.PDRUNCFG =
        (if cfg.IRC_PDWON ≠ 0 ∧ IrcNotRequired cfg then
          wrap32 (prev ||| (SYS_IRCOUT_PD ||| SYS_IRC_PD)) else prev) ∧
      (cfg.IRC_PDWON ≠ 0 ∧ IrcNotRequired cfg →
        st'.regs Reg.PDRUNCFG &&& (SYS_IRCOUT_PD ||| SYS_IRC_PD)
          = SYS_IRCOUT_PD ||| SYS_IRC_PD) ∧
      (¬ (cfg.IRC_PDWON ≠ 0 ∧ IrcNotRequired cfg) →
        st'.regs Reg.PDRUNCFG &&& (SYS_IRCOUT_PD ||| SYS_IRC_PD)
          = st.regs Reg.PDRUNCFG &&& (SYS_IRCOUT_PD ||| SYS_IRC_PD)) ∧
      (cfg.MAIN_CLK_SEL &&& SYS_MAIN_CLK_SEL = SYS_MAIN_CLK_IRC → ¬ IrcNotRequired cfg) := by
  have hdw : wrap32 cfg.SYS_CLK_DIV = cfg.SYS_CLK_DIV := wrap32_of_lt (by omega)
  have hdiv : wrap32 cfg.SYS_CLK_DIV ≠ 0 := by rw [hdw]; omega
  obtain ⟨sw, l, s3, st', ctrl, tc, win, warn, hsw, hsel, hini, _, _, _, ht⟩ :=
    Sys_iniLpc810_trace fuel hw cfg st hwdt hhw hdiv
  have hflag := Sys_selectMain_irc_flag fuel hw cfg sw s3 l hsel
  have hx0 := Wdt_ini_PDRUNCFG cfg st sw hwdt hsw
  have hpin := Sys_selectPllIn_PDRUNCFG cfg sw
  have hs3 := Sys_selectMain_PDRUNCFG fuel hw cfg _ l _ s3 hsel
  rw [Sys_switchEntry_regs, hpin, hx0] at hs3
  have h3 : SYS_IRCOUT_PD ||| SYS_IRC_PD = 3 := by decide
  have hprevlt : s3.regs Reg.PDRUNCFG < 4294967296 := by
    rw [hs3]
    split <;> exact wrap32_lt _
  have hprevlow : s3.regs Reg.PDRUNCFG &&& 3 = st.regs Reg.PDRUNCFG &&& 3 := by
    rw [hs3]
    split
    · rw [and_not32_low _ SYS_SYSPLL_PD (by decide),
        and_not32_low _ SYS_WDTOSC_PD (by decide)]
    · rw [and_not32_low _ SYS_WDTOSC_PD (by decide)]
  have hregs : st'.regs Reg.PDRUNCFG =
      (if cfg.IRC_PDWON ≠ 0 ∧ IrcNotRequired cfg then
        wrap32 (s3.regs Reg.PDRUNCFG ||| (SYS_IRCOUT_PD ||| SYS_IRC_PD))
       else s3.regs Reg.PDRUNCFG) := by
    have hpub : Sys_publish cfg l (Sys_publishEntry fuel hw cfg s3) = some st' := by
      rw [← Sys_iniLpc810_of_parts fuel hw cfg st sw s3 l hsw hhw.1 hhw.2.1 hsel]
      exact hini
    rw [Sys_publish_eq cfg l _ hdiv] at hpub
    rw [← Option.some.inj hpub]
    have hupd : (Sys_publishEntry fuel hw cfg s3).regs Reg.PDRUNCFG
        = s3.regs Reg.PDRUNCFG := by
      simp [Sys_updateMain, State.write]
    show ((if cfg.IRC_PDWON ≠ 0 ∧ (!l.irc) = true then
        (Sys_publishEntry fuel hw cfg s3).setBits Reg.PDRUNCFG (SYS_IRCOUT_PD ||| SYS_IRC_PD)
      else Sys_publishEntry fuel hw cfg s3).write Reg.SYSAHBCLKDIV cfg.SYS_CLK_DIV).regs
        Reg.PDRUNCFG = _
    rw [write_regs_other _ _ (by decide)]
    by_cases hc : cfg.IRC_PDWON ≠ 0 ∧ IrcNotRequired cfg
    · have hc' : cfg.IRC_PDWON ≠ 0 ∧ (!l.irc) = true := ⟨hc.1, hflag.2 hc.2⟩
      rw [if_pos hc, if_pos hc', State.setBits, write_regs_same, hupd]
    · have hc' : ¬ (cfg.IRC_PDWON ≠ 0 ∧ (!l.irc) = true) := fun h => hc ⟨h.1, hflag.1 h.2⟩
      rw [if_neg hc, if_neg hc', hupd]
  refine ⟨st', _, _, hini, rfl, rfl, ?_, ?_, ?_, ?_, ?_⟩
  · rw [ht, hpin, hx0]
    have hcond : (cfg.IRC_PDWON ≠ 0 ∧ (!l.irc) = true) ↔
        (cfg.IRC_PDWON ≠ 0 ∧ IrcNotRequired cfg) := and_congr_right fun _ => hflag
    simp only [hcond, hs3]
    split_ifs <;> simp
  · rw [hregs, hs3]
  · intro hc
    rw [hregs, if_pos hc, h3]
    exact or3_low _ hprevlt
  · intro hc
    rw [hregs, if_neg hc, h3]
    exact hprevlow
  · intro hirc hnr
    unfold IrcNotRequired at hnr
    rw [hirc] at hnr
    rcases hnr with h | ⟨h | h, _⟩ <;> exact absurd h (by decide)

theorem C13_irc_power_down_witness :
    ∃ st' x0 prev, Sys_iniLpc810 3 hwSlow clkinConfig resetZero = some st' ∧
      x0 = wrap32 (resetZero.regs Reg.PDRUNCFG &&& not32 SYS_WDTOSC_PD) ∧
      prev = (if clkinConfig.MAIN_CLK_SEL &&& SYS_MAIN_CLK_SEL = SYS_MAIN_CLK_PLLOUT then
                wrap32 (x0 &&& not32 SYS_SYSPLL_PD) else x0) ∧
      writesTo Reg.PDRUNCFG st'.trace = writesTo Reg.PDRUNCFG resetZero.trace ++ [x0] ++
        (if clkinConfig.MAIN_CLK_SEL &&& SYS_MAIN_CLK_SEL = SYS_MAIN_CLK_PLLOUT then
          [wrap32 (x0 &&& not32 SYS_SYSPLL_PD)] else []) ++
        (if clkinConfig.IRC_PDWON ≠ 0 ∧ IrcNotRequired clkinConfig then
          [wrap32 (prev ||| (SYS_IRCOUT_PD ||| SYS_IRC_PD))] else []) ∧
      st'.regs Reg.PDRUNCFG =
        (if clkinConfig.IRC_PDWON ≠ 0 ∧ IrcNotRequired clkinConfig then
          wrap32 (prev ||| (SYS_IRCOUT_PD ||| SYS_IRC_PD)) else prev) ∧
      (clkinConfig.IRC_PDWON ≠ 0 ∧ IrcNotRequired clkinConfig →
        st'.regs Reg.PDRUNCFG &&& (SYS_IRCOUT_PD ||| SYS_IRC_PD)
          = SYS_IRCOUT_PD ||| SYS_IRC_PD) ∧
      (¬ (clkinConfig.IRC_PDWON ≠ 0 ∧ IrcNotRequired clkinConfig) →
        st'.regs Reg.PDRUNCFG &&& (SYS_IRCOUT_PD ||| SYS_IRC_PD)
          = resetZero.regs Reg.PDRUNCFG &&& (SYS_IRCOUT_PD ||| SYS_IRC_PD)) ∧
      (clkinConfig.MAIN_CLK_SEL &&& SYS_MAIN_CLK_SEL = SYS_MAIN_CLK_IRC →
        ¬ IrcNotRequired clkinConfig) :=
  C13_irc_power_down 3 hwSlow clkinConfig resetZero (by decide) (by decide) (by decide)
    (by decide)

/-- C16: for every clock configuration (divider in 1..255, legal watchdog
oscillator setting) and hardware that completes the waits, the trace of
`Sys_iniLpc810`, which holds the writes and the reads of the busy-waits in
program order, begins with the complete trace of `Wdt_ini` (WDTOSCCTRL,
PDRUNCFG, SYSAHBCLKCTRL, TC, WINDOW, interrupt enable, MOD, the feed,
WARNINT). Then come the pin and clock-supply writes, the first clock
selection write SYSPLLCLKSEL and the SYSPLLCLKUEN write, and only then the
first read of a busy-wait. `Wdt_ini` makes no such read; the reads of the run
are those of the SYSPLLCLKUEN wait, of the lock wait on the PLL output branch
and of the MAINCLKUEN wait, at least one each; after the `Wdt_ini` part no
watchdog register is written again. -/
theorem C16_watchdog_first (fuel : Nat) (hw : Hw) (cfg : Config) (st : State)
    (hd1 : 1 ≤ cfg.SYS_CLK_DIV) (hd255 : cfg.SYS_CLK_DIV ≤ 255)
    (hwdt : ValidWdtOsc cfg) (hhw : HwResponds fuel hw cfg) :
    ∃ sw st' ctrl tc win warn pd n1 n2 n3, Wdt_ini cfg st = some sw ∧
      Sys_iniLpc810 fuel hw cfg st = some st' ∧
      1 ≤ n1 ∧
      (cfg.MAIN_CLK_SEL &&& SYS_MAIN_CLK_SEL = SYS_MAIN_CLK_PLLOUT → 1 ≤ n2) ∧
      1 ≤ n3 ∧
      sw.trace = st.trace ++
        [Event.write Reg.WDTOSCCTRL ctrl,
         Event.write Reg.PDRUNCFG (wrap32 (st.regs Reg.PDRUNCFG &&& not32 SYS_WDTOSC_PD)),
         Event.write Reg.SYSAHBCLKCTRL
           (wrap32 (st.regs Reg.SYSAHBCLKCTRL ||| SYS_AHB_CLK_WWDT)),
         Event.write Reg.TC tc,
         Event.write Reg.WINDOW win,
         Event.nvicEnableWdtIrq,
         Event.write Reg.MOD (wrap32 cfg.WWDT_MODE),
         Event.write Reg.FEED 0xAA,
         Event.write Reg.FEED 0x55,
         Event.write Reg.WARNINT warn] ∧
      st'.trace = sw.trace ++
        [Event.write Reg.SYSAHBCLKCTRL
          (wrap32 (sw.regs Reg.SYSAHBCLKCTRL ||| (SYS_AHB_CLK_SWM ||| SYS_AHB_CLK_IOCON)))] ++
        (if cfg.SYS_PLL_CLK &&& SYS_PLL_CLK_SEL = SYS_PLL_CLK_CLKIN then
          [Event.write Reg.PIO0_1 (wrap32 (sw.regs Reg.PIO0_1 &&& not32 IOCON_MODE)),
           Event.write Reg.PINENABLE0
             (wrap32 (sw.regs Reg.PINENABLE0 &&& not32 SWM_CLKIN_DIS))]
         else []) ++
        [Event.write Reg.SYSPLLCLKSEL (wrap32 cfg.SYS_PLL_CLK),
         Event.write Reg.SYSPLLCLKUEN (wrap32 SYS_PLL_CLK_UPDATE)] ++
        pollEvents Reg.SYSPLLCLKUEN hw.SYSPLLCLKUEN 0 n1 ++
        (if cfg.MAIN_CLK_SEL &&& SYS_MAIN_CLK_SEL = SYS_MAIN_CLK_PLLOUT then
          [Event.write Reg.SYSPLLCTRL (wrap32 (toU32 ((cfg.SYS_PLL_RATE : Int) - 1))),
           Event.write Reg.PDRUNCFG (wrap32 (sw.regs Reg.PDRUNCFG &&& not32 SYS_SYSPLL_PD))] ++
          pollEvents Reg.SYSPLLSTAT hw.SYSPLLSTAT 0 n2
         else []) ++
        [Event.write Reg.MAINCLKSEL (wrap32 cfg.MAIN_CLK_SEL),
         Event.write Reg.MAINCLKUEN (wrap32 SYS_MAIN_CLK_UPDATE)] ++
        pollEvents Reg.MAINCLKUEN hw.MAINCLKUEN 0 n3 ++
        (if cfg.IRC_PDWON ≠ 0 ∧ IrcNotRequired cfg then [Event.write Reg.PDRUNCFG pd]
         else []) ++
        [Event.write Reg.SYSAHBCLKDIV (wrap32 cfg.SYS_CLK_DIV)] ∧
      pollsIn sw.trace = pollsIn st.trace ∧
      pollsIn st'.trace = pollsIn st.trace ++
        (List.range n1).map (fun k => (Reg.SYSPLLCLKUEN, hw.SYSPLLCLKUEN k)) ++
        (if cfg.MAIN_CLK_SEL &&& SYS_MAIN_CLK_SEL = SYS_MAIN_CLK_PLLOUT then
          (List.range n2).map (fun k => (Reg.SYSPLLSTAT, hw.SYSPLLSTAT k)) else []) ++
        (List.range n3).map (fun k => (Reg.MAINCLKUEN, hw.MAINCLKUEN k)) ∧
      writesTo Reg.SYSPLLCLKSEL sw.trace = writesTo Reg.SYSPLLCLKSEL st.trace ∧
      (∀ r, r ∈ [Reg.WDTOSCCTRL, Reg.TC, Reg.WINDOW, Reg.MOD, Reg.FEED, Reg.WARNINT] →
        writesTo r st'.trace = writesTo r sw.trace) := by
  have hdw : wrap32 cfg.SYS_CLK_DIV = cfg.SYS_CLK_DIV := wrap32_of_lt (by omega)
  have hdiv : wrap32 cfg.SYS_CLK_DIV ≠ 0 := by rw [hdw]; omega
  obtain ⟨sw, l, s3, st', hsw, _, hsel, hini, _, _, _, ht⟩ :=
    Sys_iniLpc810_some fuel hw cfg st hwdt hhw hdiv
  obtain ⟨ctrl, tc, win, warn, hwt⟩ := Wdt_ini_trace cfg st sw hwdt hsw
  have hflag := Sys_selectMain_irc_flag fuel hw cfg sw s3 l hsel
  have hcond : (cfg.IRC_PDWON ≠ 0 ∧ (!l.irc) = true) ↔
      (cfg.IRC_PDWON ≠ 0 ∧ IrcNotRequired cfg) := and_congr_right fun _ => hflag
  have hn1 := (busyWait_of_Acks hhw.1 Reg.SYSPLLCLKUEN st).1
  have hn3 := (busyWait_of_Acks hhw.2.1 Reg.MAINCLKUEN st).1
  have hn2 : cfg.MAIN_CLK_SEL &&& SYS_MAIN_CLK_SEL = SYS_MAIN_CLK_PLLOUT →
      1 ≤ pollCount hw.SYSPLLSTAT SYS_PLL_STAT SYS_PLL_LOCKED fuel 0 :=
    fun h => (busyWait_of_Acks (hhw.2.2 h) Reg.SYSPLLSTAT st).1
  have htr : st'.trace = sw.trace ++
      [Event.write Reg.SYSAHBCLKCTRL
        (wrap32 (sw.regs Reg.SYSAHBCLKCTRL ||| (SYS_AHB_CLK_SWM ||| SYS_AHB_CLK_IOCON)))] ++
      (if cfg.SYS_PLL_CLK &&& SYS_PLL_CLK_SEL = SYS_PLL_CLK_CLKIN then
        [Event.write Reg.PIO0_1 (wrap32 (sw.regs Reg.PIO0_1 &&& not32 IOCON_MODE)),
         Event.write Reg.PINENABLE0
           (wrap32 (sw.regs Reg.PINENABLE0 &&& not32 SWM_CLKIN_DIS))]
       else []) ++
      [Event.write Reg.SYSPLLCLKSEL (wrap32 cfg.SYS_PLL_CLK),
       Event.write Reg.SYSPLLCLKUEN (wrap32 SYS_PLL_CLK_UPDATE)] ++
      pollEvents Reg.SYSPLLCLKUEN hw.SYSPLLCLKUEN 0
        (pollCount hw.SYSPLLCLKUEN SYS_PLL_CLK_UPDATE SYS_PLL_CLK_UPDATE fuel 0) ++
      (if cfg.MAIN_CLK_SEL &&& SYS_MAIN_CLK_SEL = SYS_MAIN_CLK_PLLOUT then
        [Event.write Reg.SYSPLLCTRL (wrap32 (toU32 ((cfg.SYS_PLL_RATE : Int) - 1))),
         Event.write Reg.PDRUNCFG (wrap32 (sw.regs Reg.PDRUNCFG &&& not32 SYS_SYSPLL_PD))] ++
        pollEvents Reg.SYSPLLSTAT hw.SYSPLLSTAT 0
          (pollCount hw.SYSPLLSTAT SYS_PLL_STAT SYS_PLL_LOCKED fuel 0)
       else []) ++
      [Event.write Reg.MAINCLKSEL (wrap32 cfg.MAIN_CLK_SEL),
       Event.write Reg.MAINCLKUEN (wrap32 SYS_MAIN_CLK_UPDATE)] ++
      pollEvents Reg.MAINCLKUEN hw.MAINCLKUEN 0
        (pollCount hw.MAINCLKUEN SYS_MAIN_CLK_UPDATE SYS_MAIN_CLK_UPDATE fuel 0) ++
      (if cfg.IRC_PDWON ≠ 0 ∧ IrcNotRequired cfg then
        [Event.write Reg.PDRUNCFG
          (wrap32 (s3.regs Reg.PDRUNCFG ||| (SYS_IRCOUT_PD ||| SYS_IRC_PD)))]
       else []) ++
      [Event.write Reg.SYSAHBCLKDIV (wrap32 cfg.SYS_CLK_DIV)] := by
    rw [ht, Sys_selectMain_trace fuel hw cfg _ l _ s3 hsel, Sys_switchEntry_trace,
      Sys_switchEntry_regs, Sys_selectPllIn_trace, Sys_selectPllIn_PDRUNCFG]
    simp only [hcond]
  refine ⟨sw, st', ctrl, tc, win, warn,
    wrap32 (s3.regs Reg.PDRUNCFG ||| (SYS_IRCOUT_PD ||| SYS_IRC_PD)),
    pollCount hw.SYSPLLCLKUEN SYS_PLL_CLK_UPDATE SYS_PLL_CLK_UPDATE fuel 0,
    pollCount hw.SYSPLLSTAT SYS_PLL_STAT SYS_PLL_LOCKED fuel 0,
    pollCount hw.MAINCLKUEN SYS_MAIN_CLK_UPDATE SYS_MAIN_CLK_UPDATE fuel 0,
    hsw, hini, hn1, hn2, hn3, hwt, htr, ?_, ?_, ?_, ?_⟩
  · rw [hwt]
    simp
  · rw [htr, hwt]
    split_ifs <;> simp [pollsIn_pollEvents]
  · rw [hwt]
    simp
  · intro r hr
    rw [htr]
    simp only [List.mem_cons, List.mem_singleton, List.not_mem_nil, or_false] at hr
    rcases hr with h | h | h | h | h | h <;> subst h <;> split_ifs <;> simp

theorem C16_watchdog_first_witness :
    ∃ sw st' ctrl tc win warn pd n1 n2 n3, Wdt_ini clkinConfig resetZero = some sw ∧
      Sys_iniLpc810 3 hwSlow clkinConfig resetZero = some st' ∧
      1 ≤ n1 ∧
      (clkinConfig.MAIN_CLK_SEL &&& SYS_MAIN_CLK_SEL = SYS_MAIN_CLK_PLLOUT → 1 ≤ n2) ∧
      1 ≤ n3 ∧
      sw.trace = resetZero.trace ++
        [Event.write Reg.WDTOSCCTRL ctrl,
         Event.write Reg.PDRUNCFG
           (wrap32 (resetZero.regs Reg.PDRUNCFG &&& not32 SYS_WDTOSC_PD)),
         Event.write Reg.SYSAHBCLKCTRL
           (wrap32 (resetZero.regs Reg.SYSAHBCLKCTRL ||| SYS_AHB_CLK_WWDT)),
         Event.write Reg.TC tc,
         Event.write Reg.WINDOW win,
         Event.nvicEnableWdtIrq,
         Event.write Reg.MOD (wrap32 clkinConfig.WWDT_MODE),
         Event.write Reg.FEED 0xAA,
         Event.write Reg.FEED 0x55,
         Event.write Reg.WARNINT warn] ∧
      st'.trace = sw.trace ++
        [Event.write Reg.SYSAHBCLKCTRL
          (wrap32 (sw.regs Reg.SYSAHBCLKCTRL ||| (SYS_AHB_CLK_SWM ||| SYS_AHB_CLK_IOCON)))] ++
        (if clkinConfig.SYS_PLL_CLK &&& SYS_PLL_CLK_SEL = SYS_PLL_CLK_CLKIN then
          [Event.write Reg.PIO0_1 (wrap32 (sw.regs Reg.PIO0_1 &&& not32 IOCON_MODE)),
           Event.write Reg.PINENABLE0
             (wrap32 (sw.regs Reg.PINENABLE0 &&& not32 SWM_CLKIN_DIS))]
         else []) ++
        [Event.write Reg.SYSPLLCLKSEL (wrap32 clkinConfig.SYS_PLL_CLK),
         Event.write Reg.SYSPLLCLKUEN (wrap32 SYS_PLL_CLK_UPDATE)] ++
        pollEvents Reg.SYSPLLCLKUEN hwSlow.SYSPLLCLKUEN 0 n1 ++
        (if clkinConfig.MAIN_CLK_SEL &&& SYS_MAIN_CLK_SEL = SYS_MAIN_CLK_PLLOUT then
          [Event.write Reg.SYSPLLCTRL (wrap32 (toU32 ((clkinConfig.SYS_PLL_RATE : Int) - 1))),
           Event.write Reg.PDRUNCFG (wrap32 (sw.regs Reg.PDRUNCFG &&& not32 SYS_SYSPLL_PD))] ++
          pollEvents Reg.SYSPLLSTAT hwSlow.SYSPLLSTAT 0 n2
         else []) ++
        [Event.write Reg.MAINCLKSEL (wrap32 clkinConfig.MAIN_CLK_SEL),
         Event.write Reg.MAINCLKUEN (wrap32 SYS_MAIN_CLK_UPDATE)] ++
        pollEvents Reg.MAINCLKUEN hwSlow.MAINCLKUEN 0 n3 ++
        (if clkinConfig.IRC_PDWON ≠ 0 ∧ IrcNotRequired clkinConfig then
          [Event.write Reg.PDRUNCFG pd]
         else []) ++
        [Event.write Reg.SYSAHBCLKDIV (wrap32 clkinConfig.SYS_CLK_DIV)] ∧
      pollsIn sw.trace = pollsIn resetZero.trace ∧
      pollsIn st'.trace = pollsIn resetZero.trace ++
        (List.range n1).map (fun k => (Reg.SYSPLLCLKUEN, hwSlow.SYSPLLCLKUEN k)) ++
        (if clkinConfig.MAIN_CLK_SEL &&& SYS_MAIN_CLK_SEL = SYS_MAIN_CLK_PLLOUT then
          (List.range n2).map (fun k => (Reg.SYSPLLSTAT, hwSlow.SYSPLLSTAT k)) else []) ++
        (List.range n3).map (fun k => (Reg.MAINCLKUEN, hwSlow.MAINCLKUEN k)) ∧
      writesTo Reg.SYSPLLCLKSEL sw.trace = writesTo Reg.SYSPLLCLKSEL resetZero.trace ∧
      (∀ r, r ∈ [Reg.WDTOSCCTRL, Reg.TC, Reg.WINDOW, Reg.MOD, Reg.FEED, Reg.WARNINT] →
        writesTo r st'.trace = writesTo r sw.trace) :=
  C16_watchdog_first 3 hwSlow clkinConfig resetZero (by decide) (by decide) (by decide)
    (by decide)

/-! ## Time-to-ticks converter: zero, overflow and definedness -/

/-- The divisor of `Wdt_getMs` for a stored divider of 1..64. -/
theorem Wdt_getMs_divisor (d : Nat) (hd1 : 1 ≤ d) (hd64 : d ≤ 64) :
    wrap32 (wrap32 (d * 4) * 1000) = d * 4 * 1000 ∧ d * 4 * 1000 ≠ 0 ∧
      d * 4 * 1000 < 4294967296 := by
  rw [wrap32_of_lt (show d * 4 < 4294967296 by omega),
    wrap32_of_lt (show d * 4 * 1000 < 4294967296 by omega)]
  exact ⟨rfl, by omega, by omega⟩

/-- C21: for every oscillator configuration (selector 0..15, divider 2..64,
even or not) and every `max`, `Wdt_getMs 0 max` returns 0. -/
theorem C21_Wdt_getMs_zero (st : State) (s d max : Nat)
    (hs : s ≤ 15) (hd2 : 2 ≤ d) (hd64 : d ≤ 64) :
    ∃ ctrl st', Wdt_calcOscCtrl s d st = some (ctrl, st') ∧
      Wdt_getMs 0 max st' = some 0 := by
  obtain ⟨f, hf⟩ := freqsel_some hs
  refine ⟨_, _, Wdt_calcOscCtrl_eq s d f st hf, ?_⟩
  obtain ⟨hdv, hne, _⟩ := Wdt_getMs_divisor d (by omega) hd64
  unfold Wdt_getMs
  simp only [hdv, hne, if_false, Nat.mul_zero]
  show some (if wrap64 0 / (d * 4 * 1000) > max then max
    else wrap32 (wrap64 0 / (d * 4 * 1000))) = some 0
  have h0 : wrap64 0 / (d * 4 * 1000) = 0 := Nat.zero_div _
  rw [h0, if_neg (Nat.not_lt_zero _)]
  rfl

theorem C21_Wdt_getMs_zero_witness :
    ∃ ctrl st', Wdt_calcOscCtrl 15 2 resetZero = some (ctrl, st') ∧
      Wdt_getMs 0 0 st' = some 0 :=
  C21_Wdt_getMs_zero resetZero 15 2 0 (by decide) (by decide) (by decide)

/-- C26: for every table frequency `f` (at most 4600000), every 32-bit `ms`
and every divider `d` in 2..64, the product `f * ms` is below 2^64 and the
divisor `d * 4 * 1000` is below 2^32, so neither machine operation of
`Wdt_getMs` wraps and the machine quotient is the exact floor; for instance
4.6 MHz, divider 2 and 29000 ms give a product above 2^32 and the exact
result 16675000. -/
theorem C26_Wdt_getMs_no_overflow (st : State) (s d ms max : Nat)
    (hs : s ≤ 15) (hd2 : 2 ≤ d) (hd64 : d ≤ 64)
    (hms : ms < 4294967296) (hmax : max < 4294967296) :
    (∃ f ctrl st', freqsel[s]? = some f ∧ Wdt_calcOscCtrl s d st = some (ctrl, st') ∧
      f ≤ 4600000 ∧ f * ms < 18446744073709551616 ∧ d * 4 * 1000 < 4294967296 ∧
      wrap64 (st'.Wdt_freq * ms) = f * ms ∧
      wrap32 (wrap32 (st'.Wdt_div * 4) * 1000) = d * 4 * 1000 ∧
      wrap64 (st'.Wdt_freq * ms) / wrap32 (wrap32 (st'.Wdt_div * 4) * 1000)
        = f * ms / (d * 4 * 1000) ∧
      Wdt_getMs ms max st' = some (min (f * ms / (d * 4 * 1000)) max)) ∧
    (∃ ctrl st', Wdt_calcOscCtrl 15 2 st = some (ctrl, st') ∧
      4294967296 ≤ 4600000 * 29000 ∧
      Wdt_getMs 29000 0xFFFFFF st' = some (4600000 * 29000 / (2 * 4 * 1000)) ∧
      4600000 * 29000 / (2 * 4 * 1000) = 16675000) := by
  obtain ⟨f, hf⟩ := freqsel_some hs
  have hfu := freqsel_le hf
  have hprod : f * ms < 18446744073709551616 :=
    calc f * ms ≤ 4600000 * 4294967296 := Nat.mul_le_mul hfu (Nat.le_of_lt hms)
      _ < 18446744073709551616 := by norm_num
  obtain ⟨hdv, _, hdlt⟩ := Wdt_getMs_divisor d (by omega) hd64
  refine ⟨⟨f, _, _, hf, Wdt_calcOscCtrl_eq s d f st hf, hfu, hprod, hdlt, ?_, hdv, ?_, ?_⟩,
    ⟨_, _, Wdt_calcOscCtrl_eq 15 2 4600000 st (by decide), by norm_num, ?_, by norm_num⟩⟩
  · exact wrap64_of_lt hprod
  · show wrap64 (f * ms) / wrap32 (wrap32 (d * 4) * 1000) = _
    rw [wrap64_of_lt hprod, hdv]
  · exact Wdt_getMs_eq _ ms max hfu (by show 1 ≤ d; omega) hd64 hms hmax
  · rw [Wdt_getMs_eq _ _ _ (by show 4600000 ≤ 4600000; norm_num) (by show 1 ≤ 2; norm_num)
      (by show 2 ≤ 64; norm_num) (by norm_num) (by norm_num)]
    show some (min (4600000 * 29000 / (2 * 4 * 1000)) 0xFFFFFF) = _
    norm_num

theorem C26_Wdt_getMs_no_overflow_witness :
    (∃ f ctrl st', freqsel[15]? = some f ∧
      Wdt_calcOscCtrl 15 2 resetZero = some (ctrl, st') ∧
      f ≤ 4600000 ∧ f * 4294967295 < 18446744073709551616 ∧ 2 * 4 * 1000 < 4294967296 ∧
      wrap64 (st'.Wdt_freq * 4294967295) = f * 4294967295 ∧
      wrap32 (wrap32 (st'.Wdt_div * 4) * 1000) = 2 * 4 * 1000 ∧
      wrap64 (st'.Wdt_freq * 4294967295) / wrap32 (wrap32 (st'.Wdt_div * 4) * 1000)
        = f * 4294967295 / (2 * 4 * 1000) ∧
      Wdt_getMs 4294967295 4294967295 st'
        = some (min (f * 4294967295 / (2 * 4 * 1000)) 4294967295)) ∧
    (∃ ctrl st', Wdt_calcOscCtrl 15 2 resetZero = some (ctrl, st') ∧
      4294967296 ≤ 4600000 * 29000 ∧
      Wdt_getMs 29000 0xFFFFFF st' = some (4600000 * 29000 / (2 * 4 * 1000)) ∧
      4600000 * 29000 / (2 * 4 * 1000) = 16675000) :=
  C26_Wdt_getMs_no_overflow resetZero 15 2 4294967295 4294967295 (by decide) (by decide)
    (by decide) (by decide) (by decide)

/-- C27: once `Wdt_calcOscCtrl` has run with a selector in 0..15 (a table
index in bounds) and a divider in 2..64, `Wdt_getMs` returns a value for
every `ms` and `counterMax`: its divisor is non-zero; likewise the stored
divider is non-zero and `Wdt_getOscClk` returns `f / d`. `Wdt_calcOscCtrl`
itself touches no register and adds nothing to the trace. `Wdt_getMs` and
`Wdt_getOscClk` return a value only: they have no state to change. -/
theorem C27_Wdt_getMs_defined (st : State) (s d ms counterMax : Nat)
    (hs : s ≤ 15) (hd2 : 2 ≤ d) (hd64 : d ≤ 64) :
    ∃ f ctrl st' r, s < freqsel.length ∧ freqsel[s]? = some f ∧
      Wdt_calcOscCtrl s d st = some (ctrl, st') ∧
      st'.Wdt_freq = f ∧ st'.Wdt_div = d ∧ st'.regs = st.regs ∧ st'.trace = st.trace ∧
      wrap32 (wrap32 (st'.Wdt_div * 4) * 1000) ≠ 0 ∧
      Wdt_getMs ms counterMax st' = some r ∧
      st'.Wdt_div ≠ 0 ∧ Wdt_getOscClk st' = some (f / d) := by
  obtain ⟨f, hf⟩ := freqsel_some hs
  obtain ⟨hdv, hne, _⟩ := Wdt_getMs_divisor d (by omega) hd64
  have hlen : s < freqsel.length := by
    simp only [freqsel, List.length_cons, List.length_nil]
    omega
  have hd0 : d ≠ 0 := by omega
  have hdiv : wrap32 (wrap32 (d * 4) * 1000) ≠ 0 := by
    rw [hdv]
    exact hne
  have hget : ∃ r, Wdt_getMs ms counterMax { st with Wdt_freq := f, Wdt_div := d } = some r := by
    unfold Wdt_getMs
    exact ⟨_, if_neg hdiv⟩
  obtain ⟨r, hr⟩ := hget
  refine ⟨f, _, _, r, hlen, hf, Wdt_calcOscCtrl_eq s d f st hf, rfl, rfl, rfl, rfl, hdiv, hr,
    hd0, ?_⟩
  unfold Wdt_getOscClk
  exact if_neg hd0

theorem C27_Wdt_getMs_defined_witness :
    ∃ f ctrl st' r, 0 < freqsel.length ∧ freqsel[0]? = some f ∧
      Wdt_calcOscCtrl 0 64 resetZero = some (ctrl, st') ∧
      st'.Wdt_freq = f ∧ st'.Wdt_div = 64 ∧ st'.regs = resetZero.regs ∧
      st'.trace = resetZero.trace ∧
      wrap32 (wrap32 (st'.Wdt_div * 4) * 1000) ≠ 0 ∧
      Wdt_getMs 4294967295 0 st' = some r ∧
      st'.Wdt_div ≠ 0 ∧ Wdt_getOscClk st' = some (f / 64) :=
  C27_Wdt_getMs_defined resetZero 0 64 4294967295 0 (by decide) (by decide) (by decide)

/-! ## Oscillator control word and base-frequency table -/

theorem and_low_of_mul32 (a b : Nat) (hb : b < 32) : (a * 32) &&& b = 0 := by
  have hb31 : b &&& 31 = b := by
    have h := Nat.and_pow_two_sub_one_eq_mod b 5
    norm_num at h
    rw [h]
    exact Nat.mod_eq_of_lt hb
  have ha31 : (a * 32) &&& 31 = 0 := by
    have h := Nat.and_pow_two_sub_one_eq_mod (a * 32) 5
    norm_num at h
    rw [h]
  rw [← hb31, Nat.and_comm b 31, ← Nat.and_assoc, ha31, Nat.zero_and]

theorem mul32_or_low (a b : Nat) (hb : b < 32) : (a * 32) ||| b = a * 32 + b := by
  have h := Nat.mul_add_lt_is_or (show b < 2 ^ 5 by norm_num; exact hb) a
  norm_num at h
  rw [Nat.mul_comm a 32]
  exact h.symm

theorem Wdt_calcOscCtrl_value (st : State) (s d : Nat)
    (hs : s ≤ 15) (hd2 : 2 ≤ d) (hd64 : d ≤ 64) :
    ∃ st', Wdt_calcOscCtrl s d st = some (s * 32 + (d / 2 - 1), st') := by
  obtain ⟨f, hf⟩ := freqsel_some hs
  refine ⟨{ st with Wdt_freq := f, Wdt_div := d }, ?_⟩
  rw [Wdt_calcOscCtrl_eq s d f st hf]
  have h1 : wrap32 (s <<< 5) = s * 32 := by
    rw [Nat.shiftLeft_eq]
    exact wrap32_of_lt (by omega)
  have h2 : wrap32 (d + 4294967296 - 2) / 2 = d / 2 - 1 := by
    unfold wrap32
    omega
  rw [h1, h2, mul32_or_low s (d / 2 - 1) (by omega)]

/-- C28: for selectors `s`, `s2` in 0..15 and even dividers `d`, `d2` in
2..64, `Wdt_calcOscCtrl s d` returns `s * 32 + (d / 2 - 1)`; bits 8:5 of the
result are `s`, bits 4:0 are `(d - 2) / 2`, twice one plus that field is `d`,
the two operands of the bitwise OR share no bit, and the results for
`(s, d)` and `(s2, d2)` are equal exactly when the pairs are equal. -/
theorem C28_Wdt_calcOscCtrl_encoding (st : State) (s d s2 d2 : Nat)
    (hs : s ≤ 15) (hd2 : 2 ≤ d) (hd64 : d ≤ 64) (hev : d % 2 = 0)
    (hs' : s2 ≤ 15) (hd2' : 2 ≤ d2) (hd64' : d2 ≤ 64) (hev' : d2 % 2 = 0) :
    ∃ ctrl ctrl2 st' st2, Wdt_calcOscCtrl s d st = some (ctrl, st') ∧
      Wdt_calcOscCtrl s2 d2 st = some (ctrl2, st2) ∧
      ctrl = s * 32 + (d / 2 - 1) ∧
      (ctrl >>> 5) &&& 0xF = s ∧
      ctrl &&& 0x1F = (d - 2) / 2 ∧
      2 * (1 + (ctrl &&& 0x1F)) = d ∧
      wrap32 (s <<< 5) &&& (wrap32 (d + 4294967296 - 2) / 2) = 0 ∧
      (ctrl = ctrl2 ↔ (s = s2 ∧ d = d2)) := by
  obtain ⟨st', h1⟩ := Wdt_calcOscCtrl_value st s d hs hd2 hd64
  obtain ⟨st2, h2⟩ := Wdt_calcOscCtrl_value st s2 d2 hs' hd2' hd64'
  have hlow : (s * 32 + (d / 2 - 1)) &&& 0x1F = d / 2 - 1 := by
    have h := Nat.and_pow_two_sub_one_eq_mod (s * 32 + (d / 2 - 1)) 5
    norm_num at h
    rw [h]
    omega
  have hhigh : ((s * 32 + (d / 2 - 1)) >>> 5) &&& 0xF = s := by
    have h := Nat.and_pow_two_sub_one_eq_mod ((s * 32 + (d / 2 - 1)) >>> 5) 4
    norm_num at h
    rw [h, Nat.shiftRight_eq_div_pow]
    omega
  refine ⟨_, _, st', st2, h1, h2, rfl, hhigh, ?_, ?_, ?_, ?_⟩
  · rw [hlow]
    omega
  · rw [hlow]
    omega
  · have ha : wrap32 (s <<< 5) = s * 32 := by
      rw [Nat.shiftLeft_eq]
      exact wrap32_of_lt (by omega)
    have hb : wrap32 (d + 4294967296 - 2) / 2 < 32 := by
      unfold wrap32
      omega
    rw [ha]
    exact and_low_of_mul32 s _ hb
  · constructor
    · intro h
      omega
    · rintro ⟨rfl, rfl⟩
      rfl

theorem C28_Wdt_calcOscCtrl_encoding_witness :
    ∃ ctrl ctrl2 st' st2, Wdt_calcOscCtrl 1 64 resetZero = some (ctrl, st') ∧
      Wdt_calcOscCtrl 2 2 resetZero = some (ctrl2, st2) ∧
      ctrl = 1 * 32 + (64 / 2 - 1) ∧
      (ctrl >>> 5) &&& 0xF = 1 ∧
      ctrl &&& 0x1F = (64 - 2) / 2 ∧
      2 * (1 + (ctrl &&& 0x1F)) = 64 ∧
      wrap32 (1 <<< 5) &&& (wrap32 (64 + 4294967296 - 2) / 2) = 0 ∧
      (ctrl = ctrl2 ↔ (1 = 2 ∧ 64 = 2)) :=
  C28_Wdt_calcOscCtrl_encoding resetZero 1 64 2 2 (by decide) (by decide) (by decide)
    (by decide) (by decide) (by decide) (by decide) (by decide)

/-- C29: the base-frequency table `freqsel` has exactly 16 entries, indexed
by the selectors 0..15; the entry of each named selector is the frequency
documented for it (0 for disabled, 600 kHz, 1.05, 1.40, 1.75, 2.10, 2.40,
2.70, 3.00, 3.25, 3.50, 3.75, 4.00, 4.20, 4.40 and 4.60 MHz); the entries
are strictly increasing, the steps between consecutive entries are not all
equal, and `Wdt_calcOscCtrl` stores the entry at its selector. -/
theorem C29_freqsel_table :
    freqsel.length = 16 ∧ freqsel[16]? = none ∧
    freqsel[WDTOSC_FREQ_DIS]? = some 0 ∧
    freqsel[WDTOSC_FREQ_600KHZ]? = some 600000 ∧
    freqsel[WDTOSC_FREQ_1_05MHZ]? = some 1050000 ∧
    freqsel[WDTOSC_FREQ_1_40MHZ]? = some 1400000 ∧
    freqsel[WDTOSC_FREQ_1_75MHZ]? = some 1750000 ∧
    freqsel[WDTOSC_FREQ_2_10MHZ]? = some 2100000 ∧
    freqsel[WDTOSC_FREQ_2_40MHZ]? = some 2400000 ∧
    freqsel[WDTOSC_FREQ_2_70MHZ]? = some 2700000 ∧
    freqsel[WDTOSC_FREQ_3_00MHZ]? = some 3000000 ∧
    freqsel[WDTOSC_FREQ_3_25MHZ]? = some 3250000 ∧
    freqsel[WDTOSC_FREQ_3_50MHZ]? = some 3500000 ∧
    freqsel[WDTOSC_FREQ_3_75MHZ]? = some 3750000 ∧
    freqsel[WDTOSC_FREQ_4_00MHZ]? = some 4000000 ∧
    freqsel[WDTOSC_FREQ_4_20MHZ]? = some 4200000 ∧
    freqsel[WDTOSC_FREQ_4_40MHZ]? = some 4400000 ∧
    freqsel[WDTOSC_FREQ_4_60MHZ]? = some 4600000 ∧
    [WDTOSC_FREQ_DIS, WDTOSC_FREQ_600KHZ, WDTOSC_FREQ_1_05MHZ, WDTOSC_FREQ_1_40MHZ,
      WDTOSC_FREQ_1_75MHZ, WDTOSC_FREQ_2_10MHZ, WDTOSC_FREQ_2_40MHZ, WDTOSC_FREQ_2_70MHZ,
      WDTOSC_FREQ_3_00MHZ, WDTOSC_FREQ_3_25MHZ, WDTOSC_FREQ_3_50MHZ, WDTOSC_FREQ_3_75MHZ,
      WDTOSC_FREQ_4_00MHZ, WDTOSC_FREQ_4_20MHZ, WDTOSC_FREQ_4_40MHZ, WDTOSC_FREQ_4_60MHZ]
      = List.range 16 ∧
    List.Pairwise (fun a b => a < b) freqsel ∧
    List.zipWith (fun a b => b - a) freqsel freqsel.tail
      = [600000, 450000, 350000, 350000, 350000, 300000, 300000, 300000, 250000, 250000,
          250000, 250000, 200000, 200000, 200000] ∧
    (¬ ∃ c, ∀ x ∈ List.zipWith (fun a b => b - a) freqsel freqsel.tail, x = c) ∧
    (∀ (s : Fin 16) (d : Nat) (st : State), ∃ ctrl st',
      Wdt_calcOscCtrl s.val d st = some (ctrl, st') ∧ freqsel[s.val]? = some st'.Wdt_freq) := by
  have hsteps : List.zipWith (fun a b => b - a) freqsel freqsel.tail
      = [600000, 450000, 350000, 350000, 350000, 300000, 300000, 300000, 250000, 250000,
          250000, 250000, 200000, 200000, 200000] := by decide
  have huneven : ¬ ∃ c, ∀ x ∈ List.zipWith (fun a b => b - a) freqsel freqsel.tail, x = c := by
    rintro ⟨c, hc⟩
    rw [hsteps] at hc
    have h1 := hc 600000 (by simp)
    have h2 := hc 450000 (by simp)
    omega
  have hstore : ∀ (s : Fin 16) (d : Nat) (st : State), ∃ ctrl st',
      Wdt_calcOscCtrl s.val d st = some (ctrl, st') ∧
        freqsel[s.val]? = some st'.Wdt_freq := by
    intro s d st
    obtain ⟨f, hf⟩ := freqsel_some (show s.val ≤ 15 by omega)
    exact ⟨_, _, Wdt_calcOscCtrl_eq s.val d f st hf, hf⟩
  repeat' apply And.intro
  all_goals first
    | exact huneven
    | exact hstore
    | decide

/-! ## Values programmed by the watchdog configurator -/

theorem wrap32_min (x m : Nat) (hm : m < 4294967296) : wrap32 (min x m) = min x m :=
  wrap32_of_lt (Nat.lt_of_le_of_lt (Nat.min_le_right x m) hm)

theorem toU32_sub {t g : Nat} (hg : g ≤ t) (ht : t < 4294967296) :
    toU32 ((t : Int) - (g : Int)) = t - g := by
  unfold toU32
  have h : ((t : Int) - (g : Int)) % 4294967296 = ((t - g : Nat) : Int) := by
    omega
  rw [h]
  exact Int.toNat_ofNat _

/-- Values that `Wdt_ini` writes to its five configuration registers. -/
theorem Wdt_ini_writes (cfg : Config) (st : State) (f : Nat)
    (hf : freqsel[cfg.WWDT_FREQ]? = some f)
    (hd1 : 1 ≤ cfg.WWDT_DIV) (hd64 : cfg.WWDT_DIV ≤ 64) :
    ∃ sw, Wdt_ini cfg st = some sw ∧ sw.Wdt_freq = f ∧ sw.Wdt_div = cfg.WWDT_DIV ∧
      writesTo Reg.WDTOSCCTRL sw.trace = writesTo Reg.WDTOSCCTRL st.trace ++
        [wrap32 (cfg.WWDT_FREQ <<< 5) ||| (wrap32 (cfg.WWDT_DIV + 4294967296 - 2) / 2)] ∧
      writesTo Reg.TC sw.trace = writesTo Reg.TC st.trace ++
        [min (f * wrap32 cfg.WWDT_TIM_OUT / (cfg.WWDT_DIV * 4 * 1000)) WWDT_CNT_MAX] ∧
      writesTo Reg.WINDOW sw.trace = writesTo Reg.WINDOW st.trace ++
        [min (f * toU32 ((cfg.WWDT_TIM_OUT : Int) - (cfg.WWDT_TIM_GUARD : Int))
          / (cfg.WWDT_DIV * 4 * 1000)) WWDT_WINDOW_MAX] ∧
      writesTo Reg.MOD sw.trace = writesTo Reg.MOD st.trace ++ [wrap32 cfg.WWDT_MODE] ∧
      writesTo Reg.WARNINT sw.trace = writesTo Reg.WARNINT st.trace ++
        [min (f * wrap32 cfg.WWDT_TIM_WARN / (cfg.WWDT_DIV * 4 * 1000)) WWDT_WARN_MAX] ∧
      sw.regs Reg.WDTOSCCTRL
        = (wrap32 (cfg.WWDT_FREQ <<< 5) ||| (wrap32 (cfg.WWDT_DIV + 4294967296 - 2) / 2)) ∧
      sw.regs Reg.TC
        = min (f * wrap32 cfg.WWDT_TIM_OUT / (cfg.WWDT_DIV * 4 * 1000)) WWDT_CNT_MAX ∧
      sw.regs Reg.WINDOW
        = min (f * toU32 ((cfg.WWDT_TIM_OUT : Int) - (cfg.WWDT_TIM_GUARD : Int))
          / (cfg.WWDT_DIV * 4 * 1000)) WWDT_WINDOW_MAX ∧
      sw.regs Reg.MOD = wrap32 cfg.WWDT_MODE ∧
      sw.regs Reg.WARNINT
        = min (f * wrap32 cfg.WWDT_TIM_WARN / (cfg.WWDT_DIV * 4 * 1000)) WWDT_WARN_MAX := by
  have hctrl : wrap32 (wrap32 (cfg.WWDT_FREQ <<< 5) |||
      (wrap32 (cfg.WWDT_DIV + 4294967296 - 2) / 2))
      = (wrap32 (cfg.WWDT_FREQ <<< 5) ||| (wrap32 (cfg.WWDT_DIV + 4294967296 - 2) / 2)) :=
    wrap32_of_lt (or_lt_u32 (wrap32_lt _)
      (Nat.lt_of_le_of_lt (Nat.div_le_self _ _) (wrap32_lt _)))
  have hcnt : WWDT_CNT_MAX < 4294967296 := by decide
  have hwin : WWDT_WINDOW_MAX < 4294967296 := by decide
  have hwarn : WWDT_WARN_MAX < 4294967296 := by decide
  have hE := Wdt_ini_eq cfg st f hf hd1 hd64
  generalize (wrap32 (cfg.WWDT_FREQ <<< 5) ||| (wrap32 (cfg.WWDT_DIV + 4294967296 - 2) / 2))
    = c at hE hctrl ⊢
  refine ⟨_, hE, rfl, rfl, ?_, ?_, ?_, ?_, ?_, ?_, ?_, ?_, ?_, ?_⟩
  · simp [Wdt_clr, State.setBits, State.clearBits, State.nvicEnable, hctrl]
  · simp [Wdt_clr, State.setBits, State.clearBits, State.nvicEnable, wrap32_min _ _ hcnt]
  · simp [Wdt_clr, State.setBits, State.clearBits, State.nvicEnable, wrap32_min _ _ hwin]
  · simp [Wdt_clr, State.setBits, State.clearBits, State.nvicEnable]
  · simp [Wdt_clr, State.setBits, State.clearBits, State.nvicEnable, wrap32_min _ _ hwarn]
  · simp [Wdt_clr, State.setBits, State.clearBits, State.nvicEnable, State.write, hctrl]
  · simp [Wdt_clr, State.setBits, State.clearBits, State.nvicEnable, State.write,
      wrap32_min _ _ hcnt]
  · simp [Wdt_clr, State.setBits, State.clearBits, State.nvicEnable, State.write,
      wrap32_min _ _ hwin]
  · simp [Wdt_clr, State.setBits, State.clearBits, State.nvicEnable, State.write]
  · simp [Wdt_clr, State.setBits, State.clearBits, State.nvicEnable, State.write,
      wrap32_min _ _ hwarn]

/-- C22: for a selector in 0..15, a divider in 2..64, guard at most timeout
and 32-bit timeout, warning and mode, `Wdt_ini` writes to WDTOSCCTRL the
value returned by `Wdt_calcOscCtrl (WWDT_FREQ, WWDT_DIV)`, and with the
frequency and divider that call stored it writes
`Wdt_getMs (timeout, 0xFFFFFF)` to TC,
`Wdt_getMs (timeout - guard, 0xFFFFFF)` to WINDOW, the configured mode to MOD
and `Wdt_getMs (warning, 0x3FF)` to WARNINT; each register is written once and
holds that value afterwards. -/
theorem C22_Wdt_ini_programs (cfg : Config) (st : State) (hwdt : ValidWdtOsc cfg)
    (hguard : cfg.WWDT_TIM_GUARD ≤ cfg.WWDT_TIM_OUT)
    (hout : cfg.WWDT_TIM_OUT < 4294967296) (hwarn : cfg.WWDT_TIM_WARN < 4294967296)
    (hmode : cfg.WWDT_MODE < 4294967296) :
    ∃ ctrl s1 tc win warn sw,
      Wdt_calcOscCtrl cfg.WWDT_FREQ cfg.WWDT_DIV st = some (ctrl, s1) ∧
      WWDT_CNT_MAX = 0xFFFFFF ∧ WWDT_WINDOW_MAX = 0xFFFFFF ∧ WWDT_WARN_MAX = 0x3FF ∧
      Wdt_getMs cfg.WWDT_TIM_OUT WWDT_CNT_MAX s1 = some tc ∧
      Wdt_getMs (cfg.WWDT_TIM_OUT - cfg.WWDT_TIM_GUARD) WWDT_WINDOW_MAX s1 = some win ∧
      Wdt_getMs cfg.WWDT_TIM_WARN WWDT_WARN_MAX s1 = some warn ∧
      Wdt_ini cfg st = some sw ∧
      sw.Wdt_freq = s1.Wdt_freq ∧ sw.Wdt_div = s1.Wdt_div ∧
      writesTo Reg.WDTOSCCTRL sw.trace = writesTo Reg.WDTOSCCTRL st.trace ++ [ctrl] ∧
      writesTo Reg.TC sw.trace = writesTo Reg.TC st.trace ++ [tc] ∧
      writesTo Reg.WINDOW sw.trace = writesTo Reg.WINDOW st.trace ++ [win] ∧
      writesTo Reg.MOD sw.trace = writesTo Reg.MOD st.trace ++ [cfg.WWDT_MODE] ∧
      writesTo Reg.WARNINT sw.trace = writesTo Reg.WARNINT st.trace ++ [warn] ∧
      sw.regs Reg.WDTOSCCTRL = ctrl ∧ sw.regs Reg.TC = tc ∧ sw.regs Reg.WINDOW = win ∧
      sw.regs Reg.MOD = cfg.WWDT_MODE ∧ sw.regs Reg.WARNINT = warn := by
  obtain ⟨hs, hd2, hd64⟩ := hwdt
  obtain ⟨f, hf⟩ := freqsel_some hs
  have hd1 : 1 ≤ cfg.WWDT_DIV := by omega
  obtain ⟨sw, hsw, hfr, hdv, w1, w2, w3, w4, w5, r1, r2, r3, r4, r5⟩ :=
    Wdt_ini_writes cfg st f hf hd1 hd64
  rw [wrap32_of_lt hout] at w2 r2
  rw [toU32_sub hguard hout] at w3 r3
  rw [wrap32_of_lt hmode] at w4 r4
  rw [wrap32_of_lt hwarn] at w5 r5
  have hg : ∀ ms max, ms < 4294967296 → max < 4294967296 →
      Wdt_getMs ms max { st with Wdt_freq := f, Wdt_div := cfg.WWDT_DIV }
        = some (min (f * ms / (cfg.WWDT_DIV * 4 * 1000)) max) :=
    fun ms max hms hmax => Wdt_getMs_eq _ ms max (freqsel_le hf) hd1 hd64 hms hmax
  exact ⟨_, _, _, _, _, sw, Wdt_calcOscCtrl_eq _ _ f st hf, rfl, rfl, rfl,
    hg _ _ hout (by decide), hg _ _ (by omega) (by decide), hg _ _ hwarn (by decide),
    hsw, hfr, hdv, w1, w2, w3, w4, w5, r1, r2, r3, r4, r5⟩

theorem C22_Wdt_ini_programs_witness :
    ∃ ctrl s1 tc win warn sw,
      Wdt_calcOscCtrl guardConfig.WWDT_FREQ guardConfig.WWDT_DIV resetZero
        = some (ctrl, s1) ∧
      WWDT_CNT_MAX = 0xFFFFFF ∧ WWDT_WINDOW_MAX = 0xFFFFFF ∧ WWDT_WARN_MAX = 0x3FF ∧
      Wdt_getMs guardConfig.WWDT_TIM_OUT WWDT_CNT_MAX s1 = some tc ∧
      Wdt_getMs (guardConfig.WWDT_TIM_OUT - guardConfig.WWDT_TIM_GUARD) WWDT_WINDOW_MAX s1
        = some win ∧
      Wdt_getMs guardConfig.WWDT_TIM_WARN WWDT_WARN_MAX s1 = some warn ∧
      Wdt_ini guardConfig resetZero = some sw ∧
      sw.Wdt_freq = s1.Wdt_freq ∧ sw.Wdt_div = s1.Wdt_div ∧
      writesTo Reg.WDTOSCCTRL sw.trace = writesTo Reg.WDTOSCCTRL resetZero.trace ++ [ctrl] ∧
      writesTo Reg.TC sw.trace = writesTo Reg.TC resetZero.trace ++ [tc] ∧
      writesTo Reg.WINDOW sw.trace = writesTo Reg.WINDOW resetZero.trace ++ [win] ∧
      writesTo Reg.MOD sw.trace = writesTo Reg.MOD resetZero.trace ++ [guardConfig.WWDT_MODE] ∧
      writesTo Reg.WARNINT sw.trace = writesTo Reg.WARNINT resetZero.trace ++ [warn] ∧
      sw.regs Reg.WDTOSCCTRL = ctrl ∧ sw.regs Reg.TC = tc ∧ sw.regs Reg.WINDOW = win ∧
      sw.regs Reg.MOD = guardConfig.WWDT_MODE ∧ sw.regs Reg.WARNINT = warn :=
  C22_Wdt_ini_programs guardConfig resetZero (by decide) (by decide) (by decide) (by decide)
    (by decide)

/-- C30: for a selector in 0..15, a divider in 2..64 and a 32-bit timeout with
guard at most timeout, the value `Wdt_ini` writes to WINDOW is at most the
value it writes to TC; and with the guard set to 0 and everything else the
same, the value written to WINDOW is that same TC value. -/
theorem C30_window_le_tc (cfg : Config) (st : State) (hwdt : ValidWdtOsc cfg)
    (hguard : cfg.WWDT_TIM_GUARD ≤ cfg.WWDT_TIM_OUT)
    (hout : cfg.WWDT_TIM_OUT < 4294967296) :
    ∃ sw sw0 tc win, Wdt_ini cfg st = some sw ∧
      writesTo Reg.TC sw.trace = writesTo Reg.TC st.trace ++ [tc] ∧
      writesTo Reg.WINDOW sw.trace = writesTo Reg.WINDOW st.trace ++ [win] ∧
      sw.regs Reg.TC = tc ∧ sw.regs Reg.WINDOW = win ∧
      win ≤ tc ∧
      Wdt_ini { cfg with WWDT_TIM_GUARD := 0 } st = some sw0 ∧
      writesTo Reg.TC sw0.trace = writesTo Reg.TC st.trace ++ [tc] ∧
      writesTo Reg.WINDOW sw0.trace = writesTo Reg.WINDOW st.trace ++ [tc] ∧
      sw0.regs Reg.TC = tc ∧ sw0.regs Reg.WINDOW = tc := by
  obtain ⟨hs, hd2, hd64⟩ := hwdt
  obtain ⟨f, hf⟩ := freqsel_some hs
  have hd1 : 1 ≤ cfg.WWDT_DIV := by omega
  obtain ⟨sw, hsw, _, _, _, w2, w3, _, _, _, r2, r3, _, _⟩ :=
    Wdt_ini_writes cfg st f hf hd1 hd64
  obtain ⟨sw0, hsw0, _, _, _, v2, v3, _, _, _, q2, q3, _, _⟩ :=
    Wdt_ini_writes { cfg with WWDT_TIM_GUARD := 0 } st f hf hd1 hd64
  rw [wrap32_of_lt hout] at w2 r2
  rw [toU32_sub hguard hout] at w3 r3
  have hout0 : ({ cfg with WWDT_TIM_GUARD := 0 } : Config).WWDT_TIM_OUT = cfg.WWDT_TIM_OUT :=
    rfl
  have hdiv0 : ({ cfg with WWDT_TIM_GUARD := 0 } : Config).WWDT_DIV = cfg.WWDT_DIV := rfl
  have hguard0 : ({ cfg with WWDT_TIM_GUARD := 0 } : Config).WWDT_TIM_GUARD = 0 := rfl
  rw [hout0, hdiv0, wrap32_of_lt hout] at v2 q2
  rw [hout0, hdiv0, hguard0, toU32_sub (Nat.zero_le _) hout, Nat.sub_zero] at v3 q3
  have hle : min (f * (cfg.WWDT_TIM_OUT - cfg.WWDT_TIM_GUARD) / (cfg.WWDT_DIV * 4 * 1000))
      WWDT_WINDOW_MAX
      ≤ min (f * cfg.WWDT_TIM_OUT / (cfg.WWDT_DIV * 4 * 1000)) WWDT_CNT_MAX := by
    have h1 : f * (cfg.WWDT_TIM_OUT - cfg.WWDT_TIM_GUARD) / (cfg.WWDT_DIV * 4 * 1000)
        ≤ f * cfg.WWDT_TIM_OUT / (cfg.WWDT_DIV * 4 * 1000) :=
      Nat.div_le_div_right (Nat.mul_le_mul_left f (Nat.sub_le _ _))
    have h2 : WWDT_WINDOW_MAX = WWDT_CNT_MAX := rfl
    rw [h2]
    exact min_le_min h1 (Nat.le_refl _)
  exact ⟨sw, sw0, _, _, hsw, w2, w3, r2, r3, hle, hsw0, v2, v3, q2, q3⟩

theorem C30_window_le_tc_witness :
    ∃ sw sw0 tc win, Wdt_ini guardConfig resetZero = some sw ∧
      writesTo Reg.TC sw.trace = writesTo Reg.TC resetZero.trace ++ [tc] ∧
      writesTo Reg.WINDOW sw.trace = writesTo Reg.WINDOW resetZero.trace ++ [win] ∧
      sw.regs Reg.TC = tc ∧ sw.regs Reg.WINDOW = win ∧
      win ≤ tc ∧
      Wdt_ini { guardConfig with WWDT_TIM_GUARD := 0 } resetZero = some sw0 ∧
      writesTo Reg.TC sw0.trace = writesTo Reg.TC resetZero.trace ++ [tc] ∧
      writesTo Reg.WINDOW sw0.trace = writesTo Reg.WINDOW resetZero.trace ++ [tc] ∧
      sw0.regs Reg.TC = tc ∧ sw0.regs Reg.WINDOW = tc :=
  C30_window_le_tc guardConfig resetZero (by decide) (by decide) (by decide)

/-! ## Registers of the PLL and of the CLKIN pin -/

/-- `Wdt_ini` leaves the pin, switch-matrix and PLL control registers alone. -/
theorem Wdt_ini_regs_frame (cfg : Config) (st sw : State) (hwdt : ValidWdtOsc cfg)
    (hsw : Wdt_ini cfg st = some sw) :
    sw.regs Reg.PIO0_1 = st.regs Reg.PIO0_1 ∧
    sw.regs Reg.PINENABLE0 = st.regs Reg.PINENABLE0 ∧
    sw.regs Reg.SYSPLLCTRL = st.regs Reg.SYSPLLCTRL := by
  obtain ⟨hs, hd2, hd64⟩ := hwdt
  obtain ⟨f, hf⟩ := freqsel_some hs
  rw [Wdt_ini_eq cfg st f hf (by omega) hd64] at hsw
  rw [← Option.some.inj hsw]
  refine ⟨?_, ?_, ?_⟩ <;>
    simp [Wdt_clr, State.setBits, State.clearBits, State.nvicEnable, State.write]

/-- The PLL input selection clears the mode bits of PIO0_1 and the CLKIN
disable bit of PINENABLE0 on the CLKIN path only, and leaves SYSPLLCTRL. -/
theorem Sys_selectPllIn_regs (cfg : Config) (s : State) :
    (Sys_selectPllIn cfg s).2.regs Reg.PIO0_1 =
      (if cfg.SYS_PLL_CLK &&& SYS_PLL_CLK_SEL = SYS_PLL_CLK_CLKIN then
        wrap32 (s.regs Reg.PIO0_1 &&& not32 IOCON_MODE) else s.regs Reg.PIO0_1) ∧
    (Sys_selectPllIn cfg s).2.regs Reg.PINENABLE0 =
      (if cfg.SYS_PLL_CLK &&& SYS_PLL_CLK_SEL = SYS_PLL_CLK_CLKIN then
        wrap32 (s.regs Reg.PINENABLE0 &&& not32 SWM_CLKIN_DIS) else s.regs Reg.PINENABLE0) ∧
    (Sys_selectPllIn cfg s).2.regs Reg.SYSPLLCTRL = s.regs Reg.SYSPLLCTRL := by
  unfold Sys_selectPllIn
  by_cases h : cfg.SYS_PLL_CLK &&& SYS_PLL_CLK_SEL = SYS_PLL_CLK_CLKIN <;>
    simp [h, nopDelay_eq, State.setBits, State.clearBits, State.write]

/-- The `switch` writes SYSPLLCTRL on the PLL output branch only, and never
the pin and switch-matrix registers. -/
theorem Sys_selectMain_regs (fuel : Nat) (hw : Hw) (cfg : Config) (l l' : Locals)
    (s s3 : State) (hsel : Sys_selectMain fuel hw cfg l s = some (l', s3)) :
    s3.regs Reg.PIO0_1 = s.regs Reg.PIO0_1 ∧
    s3.regs Reg.PINENABLE0 = s.regs Reg.PINENABLE0 ∧
    s3.regs Reg.SYSPLLCTRL =
      (if cfg.MAIN_CLK_SEL &&& SYS_MAIN_CLK_SEL = SYS_MAIN_CLK_PLLOUT then
        wrap32 (toU32 ((cfg.SYS_PLL_RATE : Int) - 1)) else s.regs Reg.SYSPLLCTRL) := by
  rcases Sys_selectMain_cases fuel hw cfg l l' s s3 hsel with
    ⟨h, _, hs⟩ | ⟨h, _, hs⟩ | ⟨h, _, _, hs⟩ | ⟨h, _, hs⟩
  · rw [hs, h, if_neg (by decide)]
    exact ⟨rfl, rfl, rfl⟩
  · rw [hs, h, if_neg (by decide)]
    exact ⟨rfl, rfl, rfl⟩
  · rw [hs, h, if_neg (by decide)]
    exact ⟨rfl, rfl, rfl⟩
  · rw [hs, if_pos h]
    refine ⟨?_, ?_, ?_⟩ <;> simp [State.clearBits, State.write]

/-- The phases after the `switch` write PDRUNCFG only to power the internal
oscillator down, and leave the pin, switch-matrix and PLL control registers. -/
theorem Sys_publish_regs (fuel : Nat) (hw : Hw) (cfg : Config) (l : Locals)
    (s3 st' : State) (hdiv : wrap32 cfg.SYS_CLK_DIV ≠ 0)
    (hpub : Sys_publish cfg l (Sys_publishEntry fuel hw cfg s3) = some st') :
    st'.regs Reg.PIO0_1 = s3.regs Reg.PIO0_1 ∧
    st'.regs Reg.PINENABLE0 = s3.regs Reg.PINENABLE0 ∧
    st'.regs Reg.SYSPLLCTRL = s3.regs Reg.SYSPLLCTRL ∧
    st'.regs Reg.PDRUNCFG =
      (if cfg.IRC_PDWON ≠ 0 ∧ (!l.irc) = true then
        wrap32 (s3.regs Reg.PDRUNCFG ||| (SYS_IRCOUT_PD ||| SYS_IRC_PD))
       else s3.regs Reg.PDRUNCFG) := by
  rw [Sys_publish_eq cfg l _ hdiv] at hpub
  rw [← Option.some.inj hpub]
  by_cases hc : cfg.IRC_PDWON ≠ 0 ∧ (!l.irc) = true
  · rw [if_pos hc]
    simp only [if_pos hc]
    refine ⟨?_, ?_, ?_, ?_⟩ <;> simp [Sys_updateMain, State.setBits, State.write]
  · rw [if_neg hc]
    simp only [if_neg hc]
    refine ⟨?_, ?_, ?_, ?_⟩ <;> simp [Sys_updateMain, State.setBits, State.write]

/-- Clearing the bits of `m` keeps every bit of `b` that `m` does not hold. -/
theorem and_not32_keep (x m b : Nat) (h : not32 m &&& b = b) :
    wrap32 (x &&& not32 m) &&& b = x &&& b := by
  rw [wrap32_of_lt (and_not32_lt x m), Nat.and_assoc, h]

/-- Clearing the bits of `m` leaves them zero. -/
theorem and_not32_clear (x m : Nat) (h : not32 m &&& m = 0) :
    (x &&& not32 m) &&& m = 0 := by
  rw [Nat.and_assoc, h, Nat.and_zero]

/-- Setting the bits of `m` keeps every bit of `b` outside `m`. -/
theorem or_keep (x m b : Nat) (hx : x < 4294967296) (hm : m < 4294967296)
    (h : m &&& b = 0) : wrap32 (x ||| m) &&& b = x &&& b := by
  rw [wrap32_of_lt (or_lt_u32 hx hm), Nat.and_distrib_right, h, Nat.or_zero]

/-- A value of at most 31 fits the 5-bit MSEL field and has bits 6:5 clear. -/
theorem msel_bits (k : Nat) (hk : k ≤ 31) : k &&& 0x1F = k ∧ k &&& 0x60 = 0 := by
  interval_cases k <;> decide

/-- Final contents of the pin, switch-matrix, PLL control and power registers
after `Sys_iniLpc810`, in terms of the initial state. -/
theorem Sys_iniLpc810_regs (fuel : Nat) (hw : Hw) (cfg : Config) (st sw s3 st' : State)
    (l : Locals) (hwdt : ValidWdtOsc cfg) (hhw : HwResponds fuel hw cfg)
    (hdiv : wrap32 cfg.SYS_CLK_DIV ≠ 0) (hsw : Wdt_ini cfg st = some sw)
    (hsel : Sys_selectMain fuel hw cfg (Sys_selectPllIn cfg sw).1 (Sys_switchEntry fuel hw cfg sw)
      = some (l, s3))
    (hini : Sys_iniLpc810 fuel hw cfg st = some st') :
    sw.regs Reg.PIO0_1 = st.regs Reg.PIO0_1 ∧
    sw.regs Reg.PINENABLE0 = st.regs Reg.PINENABLE0 ∧
    (Sys_selectPllIn cfg sw).2.regs Reg.PDRUNCFG
      = wrap32 (st.regs Reg.PDRUNCFG &&& not32 SYS_WDTOSC_PD) ∧
    st'.regs Reg.PIO0_1 =
      (if cfg.SYS_PLL_CLK &&& SYS_PLL_CLK_SEL = SYS_PLL_CLK_CLKIN then
        wrap32 (st.regs Reg.PIO0_1 &&& not32 IOCON_MODE) else st.regs Reg.PIO0_1) ∧
    st'.regs Reg.PINENABLE0 =
      (if cfg.SYS_PLL_CLK &&& SYS_PLL_CLK_SEL = SYS_PLL_CLK_CLKIN then
        wrap32 (st.regs Reg.PINENABLE0 &&& not32 SWM_CLKIN_DIS)
       else st.regs Reg.PINENABLE0) ∧
    st'.regs Reg.SYSPLLCTRL =
      (if cfg.MAIN_CLK_SEL &&& SYS_MAIN_CLK_SEL = SYS_MAIN_CLK_PLLOUT then
        wrap32 (toU32 ((cfg.SYS_PLL_RATE : Int) - 1)) else st.regs Reg.SYSPLLCTRL) ∧
    s3.regs Reg.PDRUNCFG =
      (if cfg.MAIN_CLK_SEL &&& SYS_MAIN_CLK_SEL = SYS_MAIN_CLK_PLLOUT then
        wrap32 (wrap32 (st.regs Reg.PDRUNCFG &&& not32 SYS_WDTOSC_PD) &&& not32 SYS_SYSPLL_PD)
       else wrap32 (st.regs Reg.PDRUNCFG &&& not32 SYS_WDTOSC_PD)) ∧
    st'.regs Reg.PDRUNCFG =
      (if cfg.IRC_PDWON ≠ 0 ∧ (!l.irc) = true then
        wrap32 (s3.regs Reg.PDRUNCFG ||| (SYS_IRCOUT_PD ||| SYS_IRC_PD))
       else s3.regs Reg.PDRUNCFG) := by
  obtain ⟨a1, a2, a3⟩ := Wdt_ini_regs_frame cfg st sw hwdt hsw
  obtain ⟨b1, b2, b3⟩ := Sys_selectPllIn_regs cfg sw
  obtain ⟨c1, c2, c3⟩ := Sys_selectMain_regs fuel hw cfg _ l _ s3 hsel
  have hpub : Sys_publish cfg l (Sys_publishEntry fuel hw cfg s3) = some st' := by
    rw [← Sys_iniLpc810_of_parts fuel hw cfg st sw s3 l hsw hhw.1 hhw.2.1 hsel]
    exact hini
  obtain ⟨d1, d2, d3, d4⟩ := Sys_publish_regs fuel hw cfg l s3 st' hdiv hpub
  have hx0 := Wdt_ini_PDRUNCFG cfg st sw hwdt hsw
  have hpin := Sys_selectPllIn_PDRUNCFG cfg sw
  have hs3 := Sys_selectMain_PDRUNCFG fuel hw cfg _ l _ s3 hsel
  rw [Sys_switchEntry_regs, hpin, hx0] at hs3
  refine ⟨a1, a2, by rw [hpin, hx0], ?_, ?_, ?_, hs3, d4⟩
  · rw [d1, c1, Sys_switchEntry_regs, b1, a1]
  · rw [d2, c2, Sys_switchEntry_regs, b2, a2]
  · rw [d3, c3, Sys_switchEntry_regs, b3, a3]

/-- C23: with the PLL output as main clock and a multiplier `m` in 1..32,
`Sys_iniLpc810` writes `m - 1` to SYSPLLCTRL, once; that value is at most 31,
fits the 5-bit MSEL field and has the PSEL bits 6:5 at zero. The very next
write is to PDRUNCFG: the value `x0` PDRUNCFG held at that point (the one
earlier PDRUNCFG write) with the `SYS_SYSPLL_PD` bit cleared and every other
bit kept. At the end SYSPLLCTRL holds `m - 1` and the bit is still clear. -/
theorem C23_pll_multiplier_register (fuel : Nat) (hw : Hw) (cfg : Config) (st : State)
    (hmain : cfg.MAIN_CLK_SEL &&& SYS_MAIN_CLK_SEL = SYS_MAIN_CLK_PLLOUT)
    (hm1 : 1 ≤ cfg.SYS_PLL_RATE) (hm32 : cfg.SYS_PLL_RATE ≤ 32)
    (hdiv : wrap32 cfg.SYS_CLK_DIV ≠ 0)
    (hwdt : ValidWdtOsc cfg) (hhw : HwResponds fuel hw cfg) :
    ∃ st' before after x0 x1, Sys_iniLpc810 fuel hw cfg st = some st' ∧
      st'.trace = st.trace ++ before ++
        [Event.write Reg.SYSPLLCTRL (cfg.SYS_PLL_RATE - 1), Event.write Reg.PDRUNCFG x1] ++
        after ∧
      writesTo Reg.SYSPLLCTRL before = [] ∧ writesTo Reg.SYSPLLCTRL after = [] ∧
      writesTo Reg.SYSPLLCTRL st'.trace
        = writesTo Reg.SYSPLLCTRL st.trace ++ [cfg.SYS_PLL_RATE - 1] ∧
      writesTo Reg.PDRUNCFG before = [x0] ∧
      x0 = wrap32 (st.regs Reg.PDRUNCFG &&& not32 SYS_WDTOSC_PD) ∧
      x1 = x0 &&& not32 SYS_SYSPLL_PD ∧
      cfg.SYS_PLL_RATE - 1 ≤ 31 ∧
      (cfg.SYS_PLL_RATE - 1) &&& 0x1F = cfg.SYS_PLL_RATE - 1 ∧
      (cfg.SYS_PLL_RATE - 1) &&& 0x60 = 0 ∧
      x1 &&& SYS_SYSPLL_PD = 0 ∧
      x1 &&& not32 SYS_SYSPLL_PD = x0 &&& not32 SYS_SYSPLL_PD ∧
      st'.regs Reg.SYSPLLCTRL = cfg.SYS_PLL_RATE - 1 ∧
      st'.regs Reg.PDRUNCFG &&& SYS_SYSPLL_PD = 0 := by
  obtain ⟨sw, l, s3, st', ctrl, tc, win, warn, hsw, hsel, hini, _, _, _, ht⟩ :=
    Sys_iniLpc810_trace fuel hw cfg st hwdt hhw hdiv
  obtain ⟨_, _, hx0, _, _, r3, r4, r5⟩ :=
    Sys_iniLpc810_regs fuel hw cfg st sw s3 st' l hwdt hhw hdiv hsw hsel hini
  have hrate : wrap32 (toU32 ((cfg.SYS_PLL_RATE : Int) - 1)) = cfg.SYS_PLL_RATE - 1 := by
    rw [toU32_pred hm1 (by omega)]
    exact wrap32_of_lt (by omega)
  have hk : cfg.SYS_PLL_RATE - 1 ≤ 31 := by omega
  obtain ⟨hk1, hk2⟩ := msel_bits _ hk
  rw [if_pos hmain, hrate] at r3
  rw [if_pos hmain, wrap32_of_lt (and_not32_lt
    (wrap32 (st.regs Reg.PDRUNCFG &&& not32 SYS_WDTOSC_PD)) SYS_SYSPLL_PD)] at r4
  rw [if_pos hmain, hrate, hx0, wrap32_of_lt (and_not32_lt
    (wrap32 (st.regs Reg.PDRUNCFG &&& not32 SYS_WDTOSC_PD)) SYS_SYSPLL_PD)] at ht
  have hclear : (wrap32 (st.regs Reg.PDRUNCFG &&& not32 SYS_WDTOSC_PD)
      &&& not32 SYS_SYSPLL_PD) &&& SYS_SYSPLL_PD = 0 :=
    and_not32_clear _ SYS_SYSPLL_PD (by decide)
  refine ⟨st',
    [Event.write Reg.WDTOSCCTRL ctrl,
     Event.write Reg.PDRUNCFG (wrap32 (st.regs Reg.PDRUNCFG &&& not32 SYS_WDTOSC_PD)),
     Event.write Reg.SYSAHBCLKCTRL (wrap32 (st.regs Reg.SYSAHBCLKCTRL ||| SYS_AHB_CLK_WWDT)),
     Event.write Reg.TC tc,
     Event.write Reg.WINDOW win,
     Event.nvicEnableWdtIrq,
     Event.write Reg.MOD (wrap32 cfg.WWDT_MODE),
     Event.write Reg.FEED 0xAA,
     Event.write Reg.FEED 0x55,
     Event.write Reg.WARNINT warn] ++
    [Event.write Reg.SYSAHBCLKCTRL
      (wrap32 (sw.regs Reg.SYSAHBCLKCTRL ||| (SYS_AHB_CLK_SWM ||| SYS_AHB_CLK_IOCON)))] ++
    (if cfg.SYS_PLL_CLK &&& SYS_PLL_CLK_SEL = SYS_PLL_CLK_CLKIN then
      [Event.write Reg.PIO0_1 (wrap32 (sw.regs Reg.PIO0_1 &&& not32 IOCON_MODE)),
       Event.write Reg.PINENABLE0 (wrap32 (sw.regs Reg.PINENABLE0 &&& not32 SWM_CLKIN_DIS))]
     else []) ++
    [Event.write Reg.SYSPLLCLKSEL (wrap32 cfg.SYS_PLL_CLK),
     Event.write Reg.SYSPLLCLKUEN (wrap32 SYS_PLL_CLK_UPDATE)] ++
    pollEvents Reg.SYSPLLCLKUEN hw.SYSPLLCLKUEN 0
      (pollCount hw.SYSPLLCLKUEN SYS_PLL_CLK_UPDATE SYS_PLL_CLK_UPDATE fuel 0),
    pollEvents Reg.SYSPLLSTAT hw.SYSPLLSTAT 0
      (pollCount hw.SYSPLLSTAT SYS_PLL_STAT SYS_PLL_LOCKED fuel 0) ++
    [Event.write Reg.MAINCLKSEL (wrap32 cfg.MAIN_CLK_SEL),
     Event.write Reg.MAINCLKUEN (wrap32 SYS_MAIN_CLK_UPDATE)] ++
    pollEvents Reg.MAINCLKUEN hw.MAINCLKUEN 0
      (pollCount hw.MAINCLKUEN SYS_MAIN_CLK_UPDATE SYS_MAIN_CLK_UPDATE fuel 0) ++
    (if cfg.IRC_PDWON ≠ 0 ∧ (!l.irc) = true then
      [Event.write Reg.PDRUNCFG
        (wrap32 (s3.regs Reg.PDRUNCFG ||| (SYS_IRCOUT_PD ||| SYS_IRC_PD)))]
     else []) ++
    [Event.write Reg.SYSAHBCLKDIV (wrap32 cfg.SYS_CLK_DIV)],
    wrap32 (st.regs Reg.PDRUNCFG &&& not32 SYS_WDTOSC_PD),
    wrap32 (st.regs Reg.PDRUNCFG &&& not32 SYS_WDTOSC_PD) &&& not32 SYS_SYSPLL_PD,
    hini, ?_, ?_, ?_, ?_, ?_, rfl, rfl, hk, hk1, hk2, hclear, ?_, r3, ?_⟩
  · rw [ht]
    simp only [List.append_assoc]
  · split_ifs <;> simp
  · split_ifs <;> simp
  · rw [ht]
    split_ifs <;> simp
  · split_ifs <;> simp
  · rw [Nat.and_assoc, Nat.and_self]
  · rw [r5, r4]
    split
    · rw [or_keep _ _ SYS_SYSPLL_PD (and_not32_lt _ _) (by decide) (by decide)]
      exact hclear
    · exact hclear

theorem C23_pll_multiplier_register_witness :
    ∃ st' before after x0 x1, Sys_iniLpc810 3 hwSlow clkinPll2Config resetOnes = some st' ∧
      st'.trace = resetOnes.trace ++ before ++
        [Event.write Reg.SYSPLLCTRL (clkinPll2Config.SYS_PLL_RATE - 1),
         Event.write Reg.PDRUNCFG x1] ++
        after ∧
      writesTo Reg.SYSPLLCTRL before = [] ∧ writesTo Reg.SYSPLLCTRL after = [] ∧
      writesTo Reg.SYSPLLCTRL st'.trace
        = writesTo Reg.SYSPLLCTRL resetOnes.trace ++ [clkinPll2Config.SYS_PLL_RATE - 1] ∧
      writesTo Reg.PDRUNCFG before = [x0] ∧
      x0 = wrap32 (resetOnes.regs Reg.PDRUNCFG &&& not32 SYS_WDTOSC_PD) ∧
      x1 = x0 &&& not32 SYS_SYSPLL_PD ∧
      clkinPll2Config.SYS_PLL_RATE - 1 ≤ 31 ∧
      (clkinPll2Config.SYS_PLL_RATE - 1) &&& 0x1F = clkinPll2Config.SYS_PLL_RATE - 1 ∧
      (clkinPll2Config.SYS_PLL_RATE - 1) &&& 0x60 = 0 ∧
      x1 &&& SYS_SYSPLL_PD = 0 ∧
      x1 &&& not32 SYS_SYSPLL_PD = x0 &&& not32 SYS_SYSPLL_PD ∧
      st'.regs Reg.SYSPLLCTRL = clkinPll2Config.SYS_PLL_RATE - 1 ∧
      st'.regs Reg.PDRUNCFG &&& SYS_SYSPLL_PD = 0 :=
  C23_pll_multiplier_register 3 hwSlow clkinPll2Config resetOnes (by decide) (by decide)
    (by decide) (by decide) (by decide) (by decide)

/-- C24: when the main-clock source is not the PLL output (so it is the
internal oscillator, the PLL input or the watchdog oscillator),
`Sys_iniLpc810` writes nothing to SYSPLLCTRL, which keeps its contents, and
every value it writes to PDRUNCFG, as well as the final PDRUNCFG, has the
`SYS_SYSPLL_PD` bit exactly as it was in PDRUNCFG on entry. -/
theorem C24_pll_not_engaged (fuel : Nat) (hw : Hw) (cfg : Config) (st : State)
    (hmain : cfg.MAIN_CLK_SEL &&& SYS_MAIN_CLK_SEL ≠ SYS_MAIN_CLK_PLLOUT)
    (hdiv : wrap32 cfg.SYS_CLK_DIV ≠ 0)
    (hwdt : ValidWdtOsc cfg) (hhw : HwResponds fuel hw cfg) :
    ∃ st' written, Sys_iniLpc810 fuel hw cfg st = some st' ∧
      (cfg.MAIN_CLK_SEL &&& SYS_MAIN_CLK_SEL = SYS_MAIN_CLK_IRC ∨
        cfg.MAIN_CLK_SEL &&& SYS_MAIN_CLK_SEL = SYS_MAIN_CLK_PLLIN ∨
        cfg.MAIN_CLK_SEL &&& SYS_MAIN_CLK_SEL = SYS_MAIN_CLK_WDTOSC) ∧
      writesTo Reg.SYSPLLCTRL st'.trace = writesTo Reg.SYSPLLCTRL st.trace ∧
      st'.regs Reg.SYSPLLCTRL = st.regs Reg.SYSPLLCTRL ∧
      writesTo Reg.PDRUNCFG st'.trace = writesTo Reg.PDRUNCFG st.trace ++ written ∧
      (∀ v ∈ written, v &&& SYS_SYSPLL_PD = st.regs Reg.PDRUNCFG &&& SYS_SYSPLL_PD) ∧
      st'.regs Reg.PDRUNCFG &&& SYS_SYSPLL_PD = st.regs Reg.PDRUNCFG &&& SYS_SYSPLL_PD := by
  obtain ⟨sw, l, s3, st', ctrl, tc, win, warn, hsw, hsel, hini, _, _, _, ht⟩ :=
    Sys_iniLpc810_trace fuel hw cfg st hwdt hhw hdiv
  obtain ⟨_, _, _, _, _, r3, r4, r5⟩ :=
    Sys_iniLpc810_regs fuel hw cfg st sw s3 st' l hwdt hhw hdiv hsw hsel hini
  rw [if_neg hmain] at r3 r4 ht
  have hsrc : cfg.MAIN_CLK_SEL &&& SYS_MAIN_CLK_SEL = SYS_MAIN_CLK_IRC ∨
      cfg.MAIN_CLK_SEL &&& SYS_MAIN_CLK_SEL = SYS_MAIN_CLK_PLLIN ∨
      cfg.MAIN_CLK_SEL &&& SYS_MAIN_CLK_SEL = SYS_MAIN_CLK_WDTOSC := by
    rcases Sys_selectMain_cases fuel hw cfg _ l _ s3 hsel with
      ⟨h, _⟩ | ⟨h, _⟩ | ⟨h, _⟩ | ⟨h, _⟩
    · exact Or.inl h
    · exact Or.inr (Or.inl h)
    · exact Or.inr (Or.inr h)
    · exact absurd h hmain
  have hx0 : wrap32 (st.regs Reg.PDRUNCFG &&& not32 SYS_WDTOSC_PD) &&& SYS_SYSPLL_PD
      = st.regs Reg.PDRUNCFG &&& SYS_SYSPLL_PD :=
    and_not32_keep _ SYS_WDTOSC_PD SYS_SYSPLL_PD (by decide)
  have hx1 : wrap32 (s3.regs Reg.PDRUNCFG ||| (SYS_IRCOUT_PD ||| SYS_IRC_PD)) &&& SYS_SYSPLL_PD
      = st.regs Reg.PDRUNCFG &&& SYS_SYSPLL_PD := by
    rw [r4, or_keep _ _ SYS_SYSPLL_PD (wrap32_lt _) (by decide) (by decide)]
    exact hx0
  refine ⟨st',
    [wrap32 (st.regs Reg.PDRUNCFG &&& not32 SYS_WDTOSC_PD)] ++
      (if cfg.IRC_PDWON ≠ 0 ∧ (!l.irc) = true then
        [wrap32 (s3.regs Reg.PDRUNCFG ||| (SYS_IRCOUT_PD ||| SYS_IRC_PD))] else []),
    hini, hsrc, ?_, r3, ?_, ?_, ?_⟩
  · rw [ht]
    split_ifs <;> simp
  · rw [ht]
    split_ifs <;> simp
  · intro v hv
    split_ifs at hv
    · simp only [List.singleton_append, List.mem_cons, List.mem_singleton, List.not_mem_nil,
        or_false] at hv
      rcases hv with rfl | rfl
      · exact hx0
      · exact hx1
    · simp only [List.append_nil, List.mem_singleton] at hv
      rw [hv]
      exact hx0
  · rw [r5]
    split
    · exact hx1
    · rw [r4]
      exact hx0

theorem C24_pll_not_engaged_witness :
    ∃ st' written, Sys_iniLpc810 3 hwSlow clkinConfig resetOnes = some st' ∧
      (clkinConfig.MAIN_CLK_SEL &&& SYS_MAIN_CLK_SEL = SYS_MAIN_CLK_IRC ∨
        clkinConfig.MAIN_CLK_SEL &&& SYS_MAIN_CLK_SEL = SYS_MAIN_CLK_PLLIN ∨
        clkinConfig.MAIN_CLK_SEL &&& SYS_MAIN_CLK_SEL = SYS_MAIN_CLK_WDTOSC) ∧
      writesTo Reg.SYSPLLCTRL st'.trace = writesTo Reg.SYSPLLCTRL resetOnes.trace ∧
      st'.regs Reg.SYSPLLCTRL = resetOnes.regs Reg.SYSPLLCTRL ∧
      writesTo Reg.PDRUNCFG st'.trace = writesTo Reg.PDRUNCFG resetOnes.trace ++ written ∧
      (∀ v ∈ written,
        v &&& SYS_SYSPLL_PD = resetOnes.regs Reg.PDRUNCFG &&& SYS_SYSPLL_PD) ∧
      st'.regs Reg.PDRUNCFG &&& SYS_SYSPLL_PD
        = resetOnes.regs Reg.PDRUNCFG &&& SYS_SYSPLL_PD :=
  C24_pll_not_engaged 3 hwSlow clkinConfig resetOnes (by decide) (by decide) (by decide)
    (by decide)

/-- C25: `Sys_iniLpc810` writes PIO0_1 and PINENABLE0 only on the CLKIN
path. If `SYS_PLL_CLK & 0x3` is not CLKIN (0x3) neither register is written
and both keep their contents. If it is CLKIN each is written exactly once:
PIO0_1 with its `IOCON_MODE` bits (0x18) cleared and PINENABLE0 with its
`SWM_CLKIN_DIS` bit (0x80) cleared, every other bit as before. -/
theorem C25_clkin_pin_setup (fuel : Nat) (hw : Hw) (cfg : Config) (st : State)
    (hdiv : wrap32 cfg.SYS_CLK_DIV ≠ 0)
    (hwdt : ValidWdtOsc cfg) (hhw : HwResponds fuel hw cfg) :
    ∃ st' pio pin, Sys_iniLpc810 fuel hw cfg st = some st' ∧
      SYS_PLL_CLK_SEL = 0x3 ∧ SYS_PLL_CLK_CLKIN = 0x3 ∧
      IOCON_MODE = 0x18 ∧ SWM_CLKIN_DIS = 0x80 ∧
      pio = st.regs Reg.PIO0_1 &&& not32 IOCON_MODE ∧
      pin = st.regs Reg.PINENABLE0 &&& not32 SWM_CLKIN_DIS ∧
      writesTo Reg.PIO0_1 st'.trace = writesTo Reg.PIO0_1 st.trace ++
        (if cfg.SYS_PLL_CLK &&& SYS_PLL_CLK_SEL = SYS_PLL_CLK_CLKIN then [pio] else []) ∧
      writesTo Reg.PINENABLE0 st'.trace = writesTo Reg.PINENABLE0 st.trace ++
        (if cfg.SYS_PLL_CLK &&& SYS_PLL_CLK_SEL = SYS_PLL_CLK_CLKIN then [pin] else []) ∧
      st'.regs Reg.PIO0_1 =
        (if cfg.SYS_PLL_CLK &&& SYS_PLL_CLK_SEL = SYS_PLL_CLK_CLKIN then pio
         else st.regs Reg.PIO0_1) ∧
      st'.regs Reg.PINENABLE0 =
        (if cfg.SYS_PLL_CLK &&& SYS_PLL_CLK_SEL = SYS_PLL_CLK_CLKIN then pin
         else st.regs Reg.PINENABLE0) ∧
      pio &&& IOCON_MODE = 0 ∧
      pio &&& not32 IOCON_MODE = st.regs Reg.PIO0_1 &&& not32 IOCON_MODE ∧
      pin &&& SWM_CLKIN_DIS = 0 ∧
      pin &&& not32 SWM_CLKIN_DIS = st.regs Reg.PINENABLE0 &&& not32 SWM_CLKIN_DIS := by
  obtain ⟨sw, l, s3, st', ctrl, tc, win, warn, hsw, hsel, hini, _, _, _, ht⟩ :=
    Sys_iniLpc810_trace fuel hw cfg st hwdt hhw hdiv
  obtain ⟨a1, a2, _, r1, r2, _, _, _⟩ :=
    Sys_iniLpc810_regs fuel hw cfg st sw s3 st' l hwdt hhw hdiv hsw hsel hini
  rw [a1, a2] at ht
  rw [wrap32_of_lt (and_not32_lt (st.regs Reg.PIO0_1) IOCON_MODE),
    wrap32_of_lt (and_not32_lt (st.regs Reg.PINENABLE0) SWM_CLKIN_DIS)] at ht
  rw [wrap32_of_lt (and_not32_lt (st.regs Reg.PIO0_1) IOCON_MODE)] at r1
  rw [wrap32_of_lt (and_not32_lt (st.regs Reg.PINENABLE0) SWM_CLKIN_DIS)] at r2
  refine ⟨st', _, _, hini, rfl, rfl, rfl, rfl, rfl, rfl, ?_, ?_, r1, r2,
    and_not32_clear _ IOCON_MODE (by decide), ?_,
    and_not32_clear _ SWM_CLKIN_DIS (by decide), ?_⟩
  · rw [ht]
    split_ifs <;> simp
  · rw [ht]
    split_ifs <;> simp
  · rw [Nat.and_assoc, Nat.and_self]
  · rw [Nat.and_assoc, Nat.and_self]

theorem C25_clkin_pin_setup_witness :
    ∃ st' pio pin, Sys_iniLpc810 3 hwSlow clkinConfig resetOnes = some st' ∧
      SYS_PLL_CLK_SEL = 0x3 ∧ SYS_PLL_CLK_CLKIN = 0x3 ∧
      IOCON_MODE = 0x18 ∧ SWM_CLKIN_DIS = 0x80 ∧
      pio = resetOnes.regs Reg.PIO0_1 &&& not32 IOCON_MODE ∧
      pin = resetOnes.regs Reg.PINENABLE0 &&& not32 SWM_CLKIN_DIS ∧
      writesTo Reg.PIO0_1 st'.trace = writesTo Reg.PIO0_1 resetOnes.trace ++
        (if clkinConfig.SYS_PLL_CLK &&& SYS_PLL_CLK_SEL = SYS_PLL_CLK_CLKIN then [pio]
         else []) ∧
      writesTo Reg.PINENABLE0 st'.trace = writesTo Reg.PINENABLE0 resetOnes.trace ++
        (if clkinConfig.SYS_PLL_CLK &&& SYS_PLL_CLK_SEL = SYS_PLL_CLK_CLKIN then [pin]
         else []) ∧
      st'.regs Reg.PIO0_1 =
        (if clkinConfig.SYS_PLL_CLK &&& SYS_PLL_CLK_SEL = SYS_PLL_CLK_CLKIN then pio
         else resetOnes.regs Reg.PIO0_1) ∧
      st'.regs Reg.PINENABLE0 =
        (if clkinConfig.SYS_PLL_CLK &&& SYS_PLL_CLK_SEL = SYS_PLL_CLK_CLKIN then pin
         else resetOnes.regs Reg.PINENABLE0) ∧
      pio &&& IOCON_MODE = 0 ∧
      pio &&& not32 IOCON_MODE = resetOnes.regs Reg.PIO0_1 &&& not32 IOCON_MODE ∧
      pin &&& SWM_CLKIN_DIS = 0 ∧
      pin &&& not32 SWM_CLKIN_DIS = resetOnes.regs Reg.PINENABLE0 &&& not32 SWM_CLKIN_DIS :=
  C25_clkin_pin_setup 3 hwSlow clkinConfig resetOnes (by decide) (by decide) (by decide)

end Lpc8xx
